import Mathlib

/-!
# aacmp4: a minimal MP4 container for one AAC-LC track

A shallow embedding of `src/primitive_types.hpp`, `src/stream_adapter.hpp` and
`src/aacmp4.hpp`, followed by the properties proved about it.

Conventions of the embedding

* A `std::uint8_t` is a natural number; every conversion to a fixed width is an
  explicit `% 2 ^ w` (`uint8_t`, `uint16_t`, `uint32_t`, `uint64_t` below).
* A C array `T a[N]` is a `carray T N`, a list together with its length.
* `template<typename S>` over the sink becomes the class `ByteSink`; the two
  sinks of the repository, `StreamAdapter` and `DummyWriter`, are instances.
* A method that mutates `*this` returns the new value of the object.
-/

namespace AACMP4

/-! ## primitive_types.hpp -/

/-- One octet (`typedef std::uint8_t u8`). -/
abbrev u8 := Nat

/-- Conversion to `std::uint8_t`: the low 8 bits. -/
def uint8_t (x : Nat) : Nat := x % 2 ^ 8

/-- Conversion to `std::uint16_t`: the low 16 bits. -/
def uint16_t (x : Nat) : Nat := x % 2 ^ 16

/-- Conversion to `std::uint32_t`: the low 32 bits. -/
def uint32_t (x : Nat) : Nat := x % 2 ^ 32

/-- Conversion to `std::uint64_t` (also `std::size_t`): the low 64 bits. -/
def uint64_t (x : Nat) : Nat := x % 2 ^ 64

/-- A C array `T name[N]`: its `N` elements in index order. -/
structure carray (T : Type) (N : Nat) where
  elems : List T
  size_eq : elems.length = N

/-- `std::fill(a, a + N, x)` over the whole array. -/
def carray.fill {T : Type} (N : Nat) (x : T) : carray T N :=
  ⟨List.replicate N x, List.length_replicate N x⟩

/-- Two octets, most significant first (`struct u16`). -/
structure u16 where
  octets_0 : u8
  octets_1 : u8

/-- Three octets, most significant first (`struct u24`). -/
structure u24 where
  octets_0 : u8
  octets_1 : u8
  octets_2 : u8

/-- Four octets, most significant first (`struct u32`). -/
structure u32 where
  octets_0 : u8
  octets_1 : u8
  octets_2 : u8
  octets_3 : u8

/-- Eight octets, most significant first (`struct u64`). -/
structure u64 where
  octets_0 : u8
  octets_1 : u8
  octets_2 : u8
  octets_3 : u8
  octets_4 : u8
  octets_5 : u8
  octets_6 : u8
  octets_7 : u8

/-- The default constructor `u16()`. -/
def u16.zero : u16 := ⟨0, 0⟩

/-- The constructor `u16(std::uint16_t value)`; the argument is first converted
to the parameter type. -/
def u16.new (value : Nat) : u16 :=
  let value := uint16_t value
  ⟨uint8_t (value >>> 8), uint8_t value⟩

/-- The conversion `u16::operator std::uint16_t()`. -/
def u16.to_uint16_t (self : u16) : Nat :=
  uint16_t (uint32_t (uint32_t self.octets_0 <<< 8)
    ||| uint32_t (uint32_t self.octets_1 <<< 0))

/-- The default constructor `u24()`. -/
def u24.zero : u24 := ⟨0, 0, 0⟩

/-- The constructor `u24(std::uint32_t value)`. -/
def u24.new (value : Nat) : u24 :=
  let value := uint32_t value
  ⟨uint8_t (value >>> 16), uint8_t (value >>> 8), uint8_t value⟩

/-- The conversion `u24::operator std::uint32_t()`. -/
def u24.to_uint32_t (self : u24) : Nat :=
  uint32_t (uint32_t self.octets_0 <<< 16)
    ||| uint32_t (uint32_t self.octets_1 <<< 8)
    ||| uint32_t (uint32_t self.octets_2 <<< 0)

/-- The default constructor `u32()`. -/
def u32.zero : u32 := ⟨0, 0, 0, 0⟩

/-- The constructor `u32(std::uint32_t value)`. -/
def u32.new (value : Nat) : u32 :=
  let value := uint32_t value
  ⟨uint8_t (value >>> 24), uint8_t (value >>> 16), uint8_t (value >>> 8), uint8_t value⟩

/-- The conversion `u32::operator std::uint32_t()`. -/
def u32.to_uint32_t (self : u32) : Nat :=
  uint32_t (uint32_t self.octets_0 <<< 24)
    ||| uint32_t (uint32_t self.octets_1 <<< 16)
    ||| uint32_t (uint32_t self.octets_2 <<< 8)
    ||| uint32_t (uint32_t self.octets_3 <<< 0)

/-- The default constructor `u64()`. -/
def u64.zero : u64 := ⟨0, 0, 0, 0, 0, 0, 0, 0⟩

/-- The constructor `u64(std::uint64_t value)`. -/
def u64.new (value : Nat) : u64 :=
  let value := uint64_t value
  ⟨uint8_t (value >>> 56), uint8_t (value >>> 48), uint8_t (value >>> 40),
   uint8_t (value >>> 32), uint8_t (value >>> 24), uint8_t (value >>> 16),
   uint8_t (value >>> 8), uint8_t value⟩

/-- The only conversion of `u64`, `u64::operator std::uint32_t()`: it combines
`octets[0]` to `octets[3]` with the shifts 24, 16, 8 and 0. -/
def u64.to_uint32_t (self : u64) : Nat :=
  uint32_t (uint32_t self.octets_0 <<< 24)
    ||| uint32_t (uint32_t self.octets_1 <<< 16)
    ||| uint32_t (uint32_t self.octets_2 <<< 8)
    ||| uint32_t (uint32_t self.octets_3 <<< 0)

/-! ## The sinks -/

/-- What `template<typename S>` asks of a sink: `stream.write(data, size)`,
which consumes the `size` octets found at `data`. -/
class ByteSink (S : Type) where
  write : S → List u8 → S

/-- `StreamAdapter<T>` over an output stream: `write` forwards to
`stream.write`, which appends to the octets emitted so far. -/
structure StreamAdapter where
  stream : List u8

instance : ByteSink StreamAdapter where
  write self data := ⟨self.stream ++ data⟩

/-- `StreamAdapter::position`, the put position of the stream. -/
def StreamAdapter.position (self : StreamAdapter) : Nat := self.stream.length

/-- `DummyWriter`: discards the octets and counts them. -/
structure DummyWriter where
  bytes_written : Nat := 0

instance : ByteSink DummyWriter where
  write self data := ⟨self.bytes_written + data.length⟩

/-- What the serializer depends on in a sink: writing nothing changes nothing,
and writing two blocks in turn is writing their concatenation. -/
class LawfulByteSink (S : Type) [ByteSink S] : Prop where
  write_nil : ∀ (s : S), ByteSink.write s [] = s
  write_write : ∀ (s : S) (a b : List u8),
    ByteSink.write (ByteSink.write s a) b = ByteSink.write s (a ++ b)

instance : LawfulByteSink StreamAdapter where
  write_nil s := by simp [ByteSink.write]
  write_write s a b := by simp [ByteSink.write, List.append_assoc]

instance : LawfulByteSink DummyWriter where
  write_nil s := by simp [ByteSink.write]
  write_write s a b := by simp [ByteSink.write, Nat.add_assoc]

/-- The octets a writer appends, read off a `StreamAdapter` that starts empty. -/
def serialize (write : StreamAdapter → StreamAdapter) : List u8 :=
  (write ⟨[]⟩).stream

/-- The number of octets a writer appends, as a fresh `DummyWriter` counts them. -/
def count_bytes (write : DummyWriter → DummyWriter) : Nat :=
  (write {}).bytes_written

/-! ## aacmp4.hpp: the overloads of `write` -/

/-- `write(S&, const T* value, std::size_t size)`: `size` octets from `value`. -/
def write_array {S : Type} [ByteSink S] (stream : S) (value : List u8) (size : Nat) : S :=
  ByteSink.write stream (value.take size)

/-- `write(S&, const std::vector<u8>& value)`. -/
def write_vector {S : Type} [ByteSink S] (stream : S) (value : List u8) : S :=
  ByteSink.write stream (value.take value.length)

/-- `write(S&, u8 value)`. -/
def write_u8 {S : Type} [ByteSink S] (stream : S) (value : u8) : S :=
  ByteSink.write stream [value]

/-- `write(S&, u16 value)`. -/
def write_u16 {S : Type} [ByteSink S] (stream : S) (value : u16) : S :=
  ByteSink.write stream [value.octets_0, value.octets_1]

/-- `write(S&, u24 value)`. -/
def write_u24 {S : Type} [ByteSink S] (stream : S) (value : u24) : S :=
  ByteSink.write stream [value.octets_0, value.octets_1, value.octets_2]

/-- `write(S&, u32 value)`. -/
def write_u32 {S : Type} [ByteSink S] (stream : S) (value : u32) : S :=
  ByteSink.write stream [value.octets_0, value.octets_1, value.octets_2, value.octets_3]

/-- `write(S&, u64 value)`. -/
def write_u64 {S : Type} [ByteSink S] (stream : S) (value : u64) : S :=
  ByteSink.write stream [value.octets_0, value.octets_1, value.octets_2, value.octets_3,
    value.octets_4, value.octets_5, value.octets_6, value.octets_7]

/-- The loop `for (i = 0; i < count; i++) write(stream, entries[i])` over an
array member. The source indexes the array without a bound check; the model
stops at the end of the array. -/
def write_entries {S T : Type} (write : S → T → S) (stream : S) (entries : List T)
    (count : Nat) : S :=
  (entries.take count).foldl write stream

/-- Element `a[i]` of a C array. -/
def carray.get {T : Type} {N : Nat} (a : carray T N) (i : Nat) (h : i < N) : T :=
  a.elems.get ⟨i, by rw [a.size_eq]; exact h⟩

/-- The assignment `a[i] = x`. -/
def carray.set {T : Type} {N : Nat} (a : carray T N) (i : Nat) (x : T) : carray T N :=
  ⟨a.elems.set i x, by rw [List.length_set, a.size_eq]⟩

/-- Octet `s[i]` of a string literal, the terminating NUL included. -/
def c_str (s : String) (i : Nat) : Nat :=
  uint8_t ((s.toList.map Char.toNat).getD i 0)

/-- Four octets naming a box (`struct BoxType`). -/
structure BoxType where
  octets_0 : u8
  octets_1 : u8
  octets_2 : u8
  octets_3 : u8

/-- The default constructor `BoxType()`. -/
def BoxType.zero : BoxType := ⟨0, 0, 0, 0⟩

/-- The constructor `BoxType(const char* s)`. -/
def BoxType.new (s : String) : BoxType :=
  ⟨c_str s 0, c_str s 1, c_str s 2, c_str s 3⟩

/-- `typedef u8 Version`. -/
abbrev Version := u8

/-- `typedef u24 Flags`. -/
abbrev Flags := u24

/-- `write(S&, BoxType value)`. -/
def write_BoxType {S : Type} [ByteSink S] (stream : S) (value : BoxType) : S :=
  ByteSink.write stream [value.octets_0, value.octets_1, value.octets_2, value.octets_3]

/-- The header of every box (`struct AtomHeader`). -/
structure AtomHeader where
  size : u32
  type : BoxType

/-- `sizeof(AtomHeader)`; the struct is packed. -/
def sizeof_AtomHeader : Nat := 4 + 4

/-- `AtomHeader() = default`: both members are default-constructed. -/
def AtomHeader.zero : AtomHeader := ⟨u32.zero, BoxType.zero⟩

/-- `AtomHeader::write`. -/
def AtomHeader.write {S : Type} [ByteSink S] (self : AtomHeader) (stream : S) : S :=
  let stream := write_u32 stream self.size
  let stream := write_BoxType stream self.type
  stream

/-- `Matrix<u32>`. -/
structure Matrix where
  values : carray u32 9

/-- `sizeof(Matrix<u32>)`. -/
def sizeof_Matrix : Nat := 9 * 4

/-- The default constructor `Matrix()`. -/
def Matrix.new : Matrix :=
  ⟨⟨[u32.new 0x10000, u32.new 0x0, u32.new 0x0, u32.new 0x0, u32.new 0x10000, u32.new 0x0,
     u32.new 0x0, u32.new 0x0, u32.new 0x40000000], rfl⟩⟩

/-- `Matrix::write`. -/
def Matrix.write {S : Type} [ByteSink S] (self : Matrix) (stream : S) : S :=
  write_entries write_u32 stream self.values.elems 9

/-- `default_compute(self)`, on the header of `self`: `T::TYPE` and `sizeof(T)`
are passed by the caller. -/
def default_compute (header : AtomHeader) (TYPE : String) (sizeof_T : Nat) : AtomHeader :=
  let header := { header with type := BoxType.new TYPE }
  let header := { header with size := u32.new sizeof_T }
  header

/-- `struct MvhdAtom`. -/
structure MvhdAtom where
  header : AtomHeader
  version : Version
  flags : Flags
  creation_time : u32
  modification_time : u32
  timescale : u32
  duration : u32
  rate : u32
  volume : u16
  reserved : carray u8 10
  matrix : Matrix
  preview_time : u32
  preview_duration : u32
  poster_time : u32
  selection_time : u32
  selection_duration : u32
  current_time : u32
  next_track_id : u32

/-- `MvhdAtom::TYPE`. -/
def MvhdAtom.TYPE : String := "mvhd"

/-- `sizeof(MvhdAtom)`: the struct is packed, so the sum of its members. -/
def sizeof_MvhdAtom : Nat :=
  sizeof_AtomHeader + 1 + 3 + 4 + 4 + 4 + 4 + 4 + 2 + 10 + sizeof_Matrix + 4 + 4 + 4 + 4 + 4 + 4 + 4

/-- `MvhdAtom::compute`. -/
def MvhdAtom.compute (self : MvhdAtom) : MvhdAtom :=
  { self with header := default_compute self.header MvhdAtom.TYPE sizeof_MvhdAtom }

/-- `MvhdAtom::write`. -/
def MvhdAtom.write {S : Type} [ByteSink S] (self : MvhdAtom) (stream : S) : S :=
  let stream := self.header.write stream
  let stream := write_u8 stream self.version
  let stream := write_u24 stream self.flags
  let stream := write_u32 stream self.creation_time
  let stream := write_u32 stream self.modification_time
  let stream := write_u32 stream self.timescale
  let stream := write_u32 stream self.duration
  let stream := write_u32 stream self.rate
  let stream := write_u16 stream self.volume
  let stream := write_array stream self.reserved.elems 10
  let stream := self.matrix.write stream
  let stream := write_u32 stream self.preview_time
  let stream := write_u32 stream self.preview_duration
  let stream := write_u32 stream self.poster_time
  let stream := write_u32 stream self.selection_time
  let stream := write_u32 stream self.selection_duration
  let stream := write_u32 stream self.current_time
  let stream := write_u32 stream self.next_track_id
  stream

/-- `struct TkhdAtom`. -/
structure TkhdAtom where
  header : AtomHeader
  version : Version
  flags : Flags
  creation_time : u32
  modification_time : u32
  track_id : u32
  reserved_0 : u32
  duration : u32
  reserved_1 : carray u32 2
  layer : u16
  alternate_group : u16
  volume : u16
  reserved_2 : u16
  matrix : Matrix
  width : u32
  height : u32

/-- `TkhdAtom::TYPE`. -/
def TkhdAtom.TYPE : String := "tkhd"

/-- `sizeof(TkhdAtom)`. -/
def sizeof_TkhdAtom : Nat :=
  sizeof_AtomHeader + 1 + 3 + 4 + 4 + 4 + 4 + 4 + 2 * 4 + 2 + 2 + 2 + 2 + sizeof_Matrix + 4 + 4

/-- `TkhdAtom::compute`. -/
def TkhdAtom.compute (self : TkhdAtom) : TkhdAtom :=
  { self with header := default_compute self.header TkhdAtom.TYPE sizeof_TkhdAtom }

/-- `TkhdAtom::write`. -/
def TkhdAtom.write {S : Type} [ByteSink S] (self : TkhdAtom) (stream : S) : S :=
  let stream := self.header.write stream
  let stream := write_u8 stream self.version
  let stream := write_u24 stream self.flags
  let stream := write_u32 stream self.creation_time
  let stream := write_u32 stream self.modification_time
  let stream := write_u32 stream self.track_id
  let stream := write_u32 stream self.reserved_0
  let stream := write_u32 stream self.duration
  let stream := write_u32 stream (self.reserved_1.get 0 (by decide))
  let stream := write_u32 stream (self.reserved_1.get 1 (by decide))
  let stream := write_u16 stream self.layer
  let stream := write_u16 stream self.alternate_group
  let stream := write_u16 stream self.volume
  let stream := write_u16 stream self.reserved_2
  let stream := self.matrix.write stream
  let stream := write_u32 stream self.width
  let stream := write_u32 stream self.height
  stream

/-- `struct ElstAtom::ElstEntry`. -/
structure ElstEntry where
  segment_duration : u32
  media_time : u32
  media_rate : u32

/-- `ElstEntry::write`. -/
def ElstEntry.write {S : Type} [ByteSink S] (self : ElstEntry) (stream : S) : S :=
  let stream := write_u32 stream self.segment_duration
  let stream := write_u32 stream self.media_time
  let stream := write_u32 stream self.media_rate
  stream

/-- `struct ElstAtom`. -/
structure ElstAtom where
  header : AtomHeader
  version : Version
  flags : Flags
  entry_count : u32
  entries : carray ElstEntry 1

/-- `ElstAtom::TYPE`. -/
def ElstAtom.TYPE : String := "elst"

/-- `sizeof(ElstAtom::ElstEntry)`. -/
def sizeof_ElstEntry : Nat := 4 + 4 + 4

/-- `sizeof(ElstAtom)`. -/
def sizeof_ElstAtom : Nat := sizeof_AtomHeader + 1 + 3 + 4 + 1 * sizeof_ElstEntry

/-- `ElstAtom::compute`. -/
def ElstAtom.compute (self : ElstAtom) : ElstAtom :=
  { self with header := default_compute self.header ElstAtom.TYPE sizeof_ElstAtom }

/-- `ElstAtom::write`. -/
def ElstAtom.write {S : Type} [ByteSink S] (self : ElstAtom) (stream : S) : S :=
  let stream := self.header.write stream
  let stream := write_u8 stream self.version
  let stream := write_u24 stream self.flags
  let stream := write_u32 stream self.entry_count
  let stream := write_entries (fun s (e : ElstEntry) => e.write s) stream self.entries.elems
    self.entry_count.to_uint32_t
  stream

/-- `struct EdtsBox`. -/
structure EdtsBox where
  header : AtomHeader
  elst : ElstAtom

/-- `EdtsBox::TYPE`. -/
def EdtsBox.TYPE : String := "edts"

/-- `EdtsBox::compute`. -/
def EdtsBox.compute (self : EdtsBox) : EdtsBox :=
  let self := { self with elst := self.elst.compute }
  let self := { self with header := { self.header with
    size := u32.new (uint64_t (sizeof_AtomHeader + self.elst.header.size.to_uint32_t)) } }
  let self := { self with header := { self.header with type := BoxType.new EdtsBox.TYPE } }
  self

/-- `EdtsBox::write`. -/
def EdtsBox.write {S : Type} [ByteSink S] (self : EdtsBox) (stream : S) : S :=
  let stream := self.header.write stream
  let stream := self.elst.write stream
  stream

/-- `struct SttsAtom::SttsEntry`. -/
structure SttsEntry where
  count : u32
  duration : u32

/-- `sizeof(SttsAtom::SttsEntry)`. -/
def sizeof_SttsEntry : Nat := 4 + 4

/-- `SttsEntry::write`. -/
def SttsEntry.write {S : Type} [ByteSink S] (self : SttsEntry) (stream : S) : S :=
  let stream := write_u32 stream self.count
  let stream := write_u32 stream self.duration
  stream

/-- `struct SttsAtom`. -/
structure SttsAtom where
  header : AtomHeader
  version : Version
  flags : Flags
  number_of_entries : u32
  entries : carray SttsEntry 2

/-- `SttsAtom::TYPE`. -/
def SttsAtom.TYPE : String := "stts"

/-- `SttsAtom::compute`. -/
def SttsAtom.compute (self : SttsAtom) : SttsAtom :=
  let self := { self with header := { self.header with
    size := u32.new (uint64_t (sizeof_AtomHeader + 1 + 3 + 4
      + self.number_of_entries.to_uint32_t * sizeof_SttsEntry)) } }
  let self := { self with header := { self.header with type := BoxType.new SttsAtom.TYPE } }
  self

/-- `SttsAtom::write`. -/
def SttsAtom.write {S : Type} [ByteSink S] (self : SttsAtom) (stream : S) : S :=
  let stream := self.header.write stream
  let stream := write_u8 stream self.version
  let stream := write_u24 stream self.flags
  let stream := write_u32 stream self.number_of_entries
  let stream := write_entries (fun s (e : SttsEntry) => e.write s) stream self.entries.elems
    self.number_of_entries.to_uint32_t
  stream

/-- `struct StscAtom::StscEntry`. -/
structure StscEntry where
  first_chunk : u32
  samples_per_chunk : u32
  sample_description_id : u32

/-- `sizeof(StscAtom::StscEntry)`. -/
def sizeof_StscEntry : Nat := 4 + 4 + 4

/-- `StscEntry::write`. -/
def StscEntry.write {S : Type} [ByteSink S] (self : StscEntry) (stream : S) : S :=
  let stream := write_u32 stream self.first_chunk
  let stream := write_u32 stream self.samples_per_chunk
  let stream := write_u32 stream self.sample_description_id
  stream

/-- `struct StscAtom`. -/
structure StscAtom where
  header : AtomHeader
  version : Version
  flags : Flags
  number_of_entries : u32
  entries : carray StscEntry 1

/-- `StscAtom::TYPE`. -/
def StscAtom.TYPE : String := "stsc"

/-- `StscAtom::compute`. -/
def StscAtom.compute (self : StscAtom) : StscAtom :=
  let self := { self with header := { self.header with
    size := u32.new (uint64_t (sizeof_AtomHeader + 1 + 3 + 4
      + self.number_of_entries.to_uint32_t * sizeof_StscEntry)) } }
  let self := { self with header := { self.header with type := BoxType.new StscAtom.TYPE } }
  self

/-- `StscAtom::write`. -/
def StscAtom.write {S : Type} [ByteSink S] (self : StscAtom) (stream : S) : S :=
  let stream := self.header.write stream
  let stream := write_u8 stream self.version
  let stream := write_u24 stream self.flags
  let stream := write_u32 stream self.number_of_entries
  let stream := write_entries (fun s (e : StscEntry) => e.write s) stream self.entries.elems
    self.number_of_entries.to_uint32_t
  stream

/-- `struct StszAtomHeader`. -/
structure StszAtomHeader where
  header : AtomHeader
  version : Version
  flags : Flags
  sample_size : u32
  number_of_entries : u32

/-- `sizeof(StszAtomHeader)`. -/
def sizeof_StszAtomHeader : Nat := sizeof_AtomHeader + 1 + 3 + 4 + 4

/-- `StszAtomHeader::write`. -/
def StszAtomHeader.write {S : Type} [ByteSink S] (self : StszAtomHeader) (stream : S) : S :=
  let stream := self.header.write stream
  let stream := write_u8 stream self.version
  let stream := write_u24 stream self.flags
  let stream := write_u32 stream self.sample_size
  let stream := write_u32 stream self.number_of_entries
  stream

/-- `struct StszBox`; `entries` is a `std::vector<u32>`. -/
structure StszBox where
  header : StszAtomHeader
  entries : List u32

/-- `StszBox::TYPE`. -/
def StszBox.TYPE : String := "stsz"

/-- `StszBox::compute`. -/
def StszBox.compute (self : StszBox) : StszBox :=
  let self := { self with header := { self.header with header := { self.header.header with
    size := u32.new (uint64_t (sizeof_StszAtomHeader + self.entries.length * 4)) } } }
  let self := { self with header := { self.header with header := { self.header.header with
    type := BoxType.new StszBox.TYPE } } }
  let self := { self with header := { self.header with
    number_of_entries := u32.new self.entries.length } }
  self

/-- `StszBox::write`. -/
def StszBox.write {S : Type} [ByteSink S] (self : StszBox) (stream : S) : S :=
  let stream := self.header.write stream
  let stream := write_entries write_u32 stream self.entries self.entries.length
  stream

/-- `struct StcoAtom`. Its members all have alignment 1, so it has no padding
although it is not declared packed. -/
structure StcoAtom where
  header : AtomHeader
  version : Version
  flags : Flags
  number_of_entries : u32
  entries : carray u32 1

/-- `StcoAtom::TYPE`. -/
def StcoAtom.TYPE : String := "stco"

/-- `sizeof(StcoAtom)`. -/
def sizeof_StcoAtom : Nat := sizeof_AtomHeader + 1 + 3 + 4 + 1 * 4

/-- `StcoAtom::compute`. -/
def StcoAtom.compute (self : StcoAtom) : StcoAtom :=
  let self := { self with header := default_compute self.header StcoAtom.TYPE sizeof_StcoAtom }
  let self := { self with number_of_entries := u32.new 1 }
  self

/-- `StcoAtom::write`. -/
def StcoAtom.write {S : Type} [ByteSink S] (self : StcoAtom) (stream : S) : S :=
  let stream := self.header.write stream
  let stream := write_u8 stream self.version
  let stream := write_u24 stream self.flags
  let stream := write_u32 stream self.number_of_entries
  let stream := write_u32 stream (self.entries.get 0 (by decide))
  stream

/-- `struct MdhdAtom`. -/
structure MdhdAtom where
  header : AtomHeader
  version : Version
  flags : Flags
  creation_time : u32
  modification_time : u32
  timescale : u32
  duration : u32
  language : u16
  quality : u16

/-- `MdhdAtom::TYPE`. -/
def MdhdAtom.TYPE : String := "mdhd"

/-- `sizeof(MdhdAtom)`. -/
def sizeof_MdhdAtom : Nat := sizeof_AtomHeader + 1 + 3 + 4 + 4 + 4 + 4 + 2 + 2

/-- `MdhdAtom::compute`. -/
def MdhdAtom.compute (self : MdhdAtom) : MdhdAtom :=
  { self with header := default_compute self.header MdhdAtom.TYPE sizeof_MdhdAtom }

/-- `MdhdAtom::write`. -/
def MdhdAtom.write {S : Type} [ByteSink S] (self : MdhdAtom) (stream : S) : S :=
  let stream := self.header.write stream
  let stream := write_u8 stream self.version
  let stream := write_u24 stream self.flags
  let stream := write_u32 stream self.creation_time
  let stream := write_u32 stream self.modification_time
  let stream := write_u32 stream self.timescale
  let stream := write_u32 stream self.duration
  let stream := write_u16 stream self.language
  let stream := write_u16 stream self.quality
  stream

/-- `struct HdlrAtom`. -/
structure HdlrAtom where
  header : AtomHeader
  version : Version
  flags : Flags
  component_type : u32
  handler_type : u32
  reserved : carray u32 3
  name : carray u8 13

/-- `HdlrAtom::TYPE`. -/
def HdlrAtom.TYPE : String := "hdlr"

/-- `sizeof(HdlrAtom)`. -/
def sizeof_HdlrAtom : Nat := sizeof_AtomHeader + 1 + 3 + 4 + 4 + 3 * 4 + 13

/-- `HdlrAtom::compute`. -/
def HdlrAtom.compute (self : HdlrAtom) : HdlrAtom :=
  { self with header := default_compute self.header HdlrAtom.TYPE sizeof_HdlrAtom }

/-- `HdlrAtom::write`. -/
def HdlrAtom.write {S : Type} [ByteSink S] (self : HdlrAtom) (stream : S) : S :=
  let stream := self.header.write stream
  let stream := write_u8 stream self.version
  let stream := write_u24 stream self.flags
  let stream := write_u32 stream self.component_type
  let stream := write_u32 stream self.handler_type
  let stream := write_u32 stream (self.reserved.get 0 (by decide))
  let stream := write_u32 stream (self.reserved.get 1 (by decide))
  let stream := write_u32 stream (self.reserved.get 2 (by decide))
  let stream := write_array stream self.name.elems 13
  stream

/-- `struct SmhdAtom`. -/
structure SmhdAtom where
  header : AtomHeader
  reserved : carray u8 8

/-- `SmhdAtom::TYPE`. -/
def SmhdAtom.TYPE : String := "smhd"

/-- `sizeof(SmhdAtom)`. -/
def sizeof_SmhdAtom : Nat := sizeof_AtomHeader + 8

/-- `SmhdAtom::compute`. -/
def SmhdAtom.compute (self : SmhdAtom) : SmhdAtom :=
  { self with header := default_compute self.header SmhdAtom.TYPE sizeof_SmhdAtom }

/-- `SmhdAtom::write`. -/
def SmhdAtom.write {S : Type} [ByteSink S] (self : SmhdAtom) (stream : S) : S :=
  let stream := self.header.write stream
  let stream := write_array stream self.reserved.elems 8
  stream

/-- `struct DrefBox::DataEntry`. -/
structure DataEntry where
  header : AtomHeader
  version : Version
  flags : Flags

/-- `sizeof(DrefBox::DataEntry)`. -/
def sizeof_DataEntry : Nat := sizeof_AtomHeader + 1 + 3

/-- `DataEntry::compute`: only the size is assigned. -/
def DataEntry.compute (self : DataEntry) : DataEntry :=
  { self with header := { self.header with size := u32.new sizeof_DataEntry } }

/-- `DataEntry::write`. -/
def DataEntry.write {S : Type} [ByteSink S] (self : DataEntry) (stream : S) : S :=
  let stream := self.header.write stream
  let stream := write_u8 stream self.version
  let stream := write_u24 stream self.flags
  stream

/-- `struct DrefBox`. -/
structure DrefBox where
  header : AtomHeader
  version : Version
  flags : Flags
  entry_count : u32
  data_entries : carray DataEntry 1

/-- `DrefBox::TYPE`. -/
def DrefBox.TYPE : String := "dref"

/-- `DrefBox::compute`; the size is taken from `entry_count` as it stands
before `entry_count` is assigned 1. -/
def DrefBox.compute (self : DrefBox) : DrefBox :=
  let self := { self with
    data_entries := self.data_entries.set 0 (self.data_entries.get 0 (by decide)).compute }
  let self := { self with header := { self.header with type := BoxType.new DrefBox.TYPE } }
  let self := { self with header := { self.header with
    size := u32.new (uint64_t (sizeof_AtomHeader + 1 + 3 + 4
      + self.entry_count.to_uint32_t * sizeof_DataEntry)) } }
  let self := { self with entry_count := u32.new 1 }
  self

/-- `DrefBox::write`. -/
def DrefBox.write {S : Type} [ByteSink S] (self : DrefBox) (stream : S) : S :=
  let stream := self.header.write stream
  let stream := write_u8 stream self.version
  let stream := write_u24 stream self.flags
  let stream := write_u32 stream self.entry_count
  let stream := write_entries (fun s (e : DataEntry) => e.write s) stream
    self.data_entries.elems self.entry_count.to_uint32_t
  stream

/-- `struct DinfBox`. -/
structure DinfBox where
  header : AtomHeader
  dref : DrefBox

/-- `DinfBox::TYPE`. -/
def DinfBox.TYPE : String := "dinf"

/-- `DinfBox::compute`. -/
def DinfBox.compute (self : DinfBox) : DinfBox :=
  let self := { self with dref := self.dref.compute }
  let self := { self with header := { self.header with
    size := u32.new (uint64_t (sizeof_AtomHeader + self.dref.header.size.to_uint32_t)) } }
  let self := { self with header := { self.header with type := BoxType.new DinfBox.TYPE } }
  self

/-- `DinfBox::write`. -/
def DinfBox.write {S : Type} [ByteSink S] (self : DinfBox) (stream : S) : S :=
  let stream := self.header.write stream
  let stream := self.dref.write stream
  stream

/-- `EsdsAtom::TAG_ES_DESCRIPTOR`. -/
def EsdsAtom.TAG_ES_DESCRIPTOR : u8 := 0x03

/-- `EsdsAtom::TAG_DECODER_CONFIG`. -/
def EsdsAtom.TAG_DECODER_CONFIG : u8 := 0x04

/-- `EsdsAtom::TAG_DECODER_SPECIFIC`. -/
def EsdsAtom.TAG_DECODER_SPECIFIC : u8 := 0x05

/-- `EsdsAtom::TAG_SL_CONFIG_DESCRIPTOR`. -/
def EsdsAtom.TAG_SL_CONFIG_DESCRIPTOR : u8 := 0x06

/-- `struct EsdsAtom::SLConfigDescriptor`. -/
structure SLConfigDescriptor where
  tag : u8
  size : carray u8 4
  predefined : u8

/-- `SLConfigDescriptor::write`. -/
def SLConfigDescriptor.write {S : Type} [ByteSink S] (self : SLConfigDescriptor)
    (stream : S) : S :=
  let stream := write_u8 stream self.tag
  let stream := write_array stream self.size.elems 4
  let stream := write_u8 stream self.predefined
  stream

/-- `struct EsdsAtom::DecoderSpecificInfo`. -/
structure DecoderSpecificInfo where
  tag : u8
  size : carray u8 4
  specific : carray u8 5

/-- `DecoderSpecificInfo::write`. -/
def DecoderSpecificInfo.write {S : Type} [ByteSink S] (self : DecoderSpecificInfo)
    (stream : S) : S :=
  let stream := write_u8 stream self.tag
  let stream := write_array stream self.size.elems 4
  let stream := write_array stream self.specific.elems 5
  stream

/-- `struct EsdsAtom::DecoderConfiguration`. -/
structure DecoderConfiguration where
  tag : u8
  size : carray u8 4
  object_type : u8
  flags : u8
  buffer_size : u24
  max_bit_rate : u32
  average_bit_rate : u32
  decoder_specific : DecoderSpecificInfo

/-- `DecoderConfiguration::write`. -/
def DecoderConfiguration.write {S : Type} [ByteSink S] (self : DecoderConfiguration)
    (stream : S) : S :=
  let stream := write_u8 stream self.tag
  let stream := write_array stream self.size.elems 4
  let stream := write_u8 stream self.object_type
  let stream := write_u8 stream self.flags
  let stream := write_u24 stream self.buffer_size
  let stream := write_u32 stream self.max_bit_rate
  let stream := write_u32 stream self.average_bit_rate
  let stream := self.decoder_specific.write stream
  stream

/-- `struct EsdsAtom::ESDescriptor`. -/
structure ESDescriptor where
  tag : u8
  size : carray u8 4
  es_id : u16
  flags : u8
  decoder_config : DecoderConfiguration
  sl_config : SLConfigDescriptor

/-- `ESDescriptor::write`. -/
def ESDescriptor.write {S : Type} [ByteSink S] (self : ESDescriptor) (stream : S) : S :=
  let stream := write_u8 stream self.tag
  let stream := write_array stream self.size.elems 4
  let stream := write_u16 stream self.es_id
  let stream := write_u8 stream self.flags
  let stream := self.decoder_config.write stream
  let stream := self.sl_config.write stream
  stream

/-- `struct EsdsAtom`. -/
structure EsdsAtom where
  header : AtomHeader
  version : u32
  desc : ESDescriptor

/-- `EsdsAtom::TYPE`. -/
def EsdsAtom.TYPE : String := "esds"

/-- `sizeof(EsdsAtom::SLConfigDescriptor)`. -/
def sizeof_SLConfigDescriptor : Nat := 1 + 4 + 1

/-- `sizeof(EsdsAtom::DecoderSpecificInfo)`. -/
def sizeof_DecoderSpecificInfo : Nat := 1 + 4 + 5

/-- `sizeof(EsdsAtom::DecoderConfiguration)`. -/
def sizeof_DecoderConfiguration : Nat := 1 + 4 + 1 + 1 + 3 + 4 + 4 + sizeof_DecoderSpecificInfo

/-- `sizeof(EsdsAtom::ESDescriptor)`. -/
def sizeof_ESDescriptor : Nat :=
  1 + 4 + 2 + 1 + sizeof_DecoderConfiguration + sizeof_SLConfigDescriptor

/-- `sizeof(EsdsAtom)`. -/
def sizeof_EsdsAtom : Nat := sizeof_AtomHeader + 4 + sizeof_ESDescriptor

/-- `EsdsAtom::compute`. -/
def EsdsAtom.compute (self : EsdsAtom) : EsdsAtom :=
  { self with header := default_compute self.header EsdsAtom.TYPE sizeof_EsdsAtom }

/-- `EsdsAtom::write`. -/
def EsdsAtom.write {S : Type} [ByteSink S] (self : EsdsAtom) (stream : S) : S :=
  let stream := self.header.write stream
  let stream := write_u32 stream self.version
  let stream := self.desc.write stream
  stream

/-- `struct BtrtAtom`. -/
structure BtrtAtom where
  header : AtomHeader
  buffer_size : u32
  max_bit_rate : u32
  average_bit_rate : u32

/-- `BtrtAtom::TYPE`. -/
def BtrtAtom.TYPE : String := "btrt"

/-- `sizeof(BtrtAtom)`. -/
def sizeof_BtrtAtom : Nat := sizeof_AtomHeader + 4 + 4 + 4

/-- `BtrtAtom::compute`. -/
def BtrtAtom.compute (self : BtrtAtom) : BtrtAtom :=
  { self with header := default_compute self.header BtrtAtom.TYPE sizeof_BtrtAtom }

/-- `BtrtAtom::write`. -/
def BtrtAtom.write {S : Type} [ByteSink S] (self : BtrtAtom) (stream : S) : S :=
  let stream := self.header.write stream
  let stream := write_u32 stream self.buffer_size
  let stream := write_u32 stream self.max_bit_rate
  let stream := write_u32 stream self.average_bit_rate
  stream

/-- `struct StsdBox::SampleDescriptionEntryHeader`. -/
structure SampleDescriptionEntryHeader where
  header : AtomHeader
  reserved : carray u8 6
  data_reference_index : u16
  version : u16
  revision_level : u16
  vendor : u32
  number_of_channels : u16
  sample_size : u16
  compression_id : u16
  packet_size : u16
  sample_rate : u32

/-- `sizeof(StsdBox::SampleDescriptionEntryHeader)`. -/
def sizeof_SampleDescriptionEntryHeader : Nat :=
  sizeof_AtomHeader + 6 + 2 + 2 + 2 + 4 + 2 + 2 + 2 + 2 + 4

/-- `SampleDescriptionEntryHeader::write`. -/
def SampleDescriptionEntryHeader.write {S : Type} [ByteSink S]
    (self : SampleDescriptionEntryHeader) (stream : S) : S :=
  let stream := self.header.write stream
  let stream := write_array stream self.reserved.elems 6
  let stream := write_u16 stream self.data_reference_index
  let stream := write_u16 stream self.version
  let stream := write_u16 stream self.revision_level
  let stream := write_u32 stream self.vendor
  let stream := write_u16 stream self.number_of_channels
  let stream := write_u16 stream self.sample_size
  let stream := write_u16 stream self.compression_id
  let stream := write_u16 stream self.packet_size
  let stream := write_u32 stream self.sample_rate
  stream

/-- `struct StsdBox::SampleDescriptionEntry`. -/
structure SampleDescriptionEntry where
  header : SampleDescriptionEntryHeader
  esds : EsdsAtom
  btrt : BtrtAtom

/-- `SampleDescriptionEntry::TYPE`. -/
def SampleDescriptionEntry.TYPE : String := "mp4a"

/-- `SampleDescriptionEntry::compute`. -/
def SampleDescriptionEntry.compute (self : SampleDescriptionEntry) : SampleDescriptionEntry :=
  let self := { self with esds := self.esds.compute }
  let self := { self with btrt := self.btrt.compute }
  let self := { self with header := { self.header with header := { self.header.header with
    size := u32.new (uint64_t (sizeof_SampleDescriptionEntryHeader
      + self.esds.header.size.to_uint32_t + self.btrt.header.size.to_uint32_t)) } } }
  let self := { self with header := { self.header with header := { self.header.header with
    type := BoxType.new SampleDescriptionEntry.TYPE } } }
  let self := { self with header := { self.header with reserved := carray.fill 6 (uint8_t 0) } }
  self

/-- `SampleDescriptionEntry::write`. -/
def SampleDescriptionEntry.write {S : Type} [ByteSink S] (self : SampleDescriptionEntry)
    (stream : S) : S :=
  let stream := self.header.write stream
  let stream := self.esds.write stream
  let stream := self.btrt.write stream
  stream

/-- `struct StsdBox::StsdHeader`. -/
structure StsdHeader where
  header : AtomHeader
  version : Version
  flags : Flags
  entry_count : u32

/-- `sizeof(StsdBox::StsdHeader)`. -/
def sizeof_StsdHeader : Nat := sizeof_AtomHeader + 1 + 3 + 4

/-- `StsdHeader::write`. -/
def StsdHeader.write {S : Type} [ByteSink S] (self : StsdHeader) (stream : S) : S :=
  let stream := self.header.write stream
  let stream := write_u8 stream self.version
  let stream := write_u24 stream self.flags
  let stream := write_u32 stream self.entry_count
  stream

/-- `struct StsdBox`; `sample_description_entries` is a `std::vector`. -/
structure StsdBox where
  header : StsdHeader
  sample_description_entries : List SampleDescriptionEntry

/-- `StsdBox::TYPE`. -/
def StsdBox.TYPE : String := "stsd"

/-- `StsdBox::compute`. The range-for computes each entry in place and adds its
size to the running `std::size_t size`; the fold carries that sum and the
entries already computed. -/
def StsdBox.compute (self : StsdBox) : StsdBox :=
  let size := sizeof_StsdHeader
  let loop := self.sample_description_entries.foldl
    (fun (state : Nat × List SampleDescriptionEntry) entry =>
      let entry := entry.compute
      (uint64_t (state.1 + entry.header.header.size.to_uint32_t), state.2 ++ [entry]))
    (size, [])
  let size := loop.1
  let self := { self with sample_description_entries := loop.2 }
  let self := { self with header := { self.header with header := { self.header.header with
    size := u32.new size } } }
  let self := { self with header := { self.header with header := { self.header.header with
    type := BoxType.new StsdBox.TYPE } } }
  let self := { self with header := { self.header with
    entry_count := u32.new self.sample_description_entries.length } }
  self

/-- `StsdBox::write`. -/
def StsdBox.write {S : Type} [ByteSink S] (self : StsdBox) (stream : S) : S :=
  let stream := self.header.write stream
  let stream := self.sample_description_entries.foldl
    (fun s (entry : SampleDescriptionEntry) => entry.write s) stream
  stream

/-- `struct StblBox`. -/
structure StblBox where
  header : AtomHeader
  stsd : StsdBox
  stts : SttsAtom
  stsc : StscAtom
  stsz : StszBox
  stco : StcoAtom

/-- `StblBox::TYPE`. -/
def StblBox.TYPE : String := "stbl"

/-- `StblBox::compute`. -/
def StblBox.compute (self : StblBox) : StblBox :=
  let self := { self with stsd := self.stsd.compute }
  let self := { self with stts := self.stts.compute }
  let self := { self with stsc := self.stsc.compute }
  let self := { self with stsz := self.stsz.compute }
  let self := { self with stco := self.stco.compute }
  let self := { self with header := { self.header with
    size := u32.new (uint64_t (sizeof_AtomHeader
      + self.stsd.header.header.size.to_uint32_t
      + self.stts.header.size.to_uint32_t
      + self.stsc.header.size.to_uint32_t
      + self.stsz.header.header.size.to_uint32_t
      + self.stco.header.size.to_uint32_t)) } }
  let self := { self with header := { self.header with type := BoxType.new StblBox.TYPE } }
  self

/-- `StblBox::write`. -/
def StblBox.write {S : Type} [ByteSink S] (self : StblBox) (stream : S) : S :=
  let stream := self.header.write stream
  let stream := self.stsd.write stream
  let stream := self.stts.write stream
  let stream := self.stsc.write stream
  let stream := self.stsz.write stream
  let stream := self.stco.write stream
  stream

/-- `struct MinfBox`. -/
structure MinfBox where
  header : AtomHeader
  smhd : SmhdAtom
  dinf : DinfBox
  stbl : StblBox

/-- `MinfBox::TYPE`. -/
def MinfBox.TYPE : String := "minf"

/-- `MinfBox::compute`. -/
def MinfBox.compute (self : MinfBox) : MinfBox :=
  let self := { self with smhd := self.smhd.compute }
  let self := { self with dinf := self.dinf.compute }
  let self := { self with stbl := self.stbl.compute }
  let self := { self with header := { self.header with
    size := u32.new (uint64_t (sizeof_AtomHeader + self.smhd.header.size.to_uint32_t
      + self.dinf.header.size.to_uint32_t + self.stbl.header.size.to_uint32_t)) } }
  let self := { self with header := { self.header with type := BoxType.new MinfBox.TYPE } }
  self

/-- `MinfBox::write`. -/
def MinfBox.write {S : Type} [ByteSink S] (self : MinfBox) (stream : S) : S :=
  let stream := self.header.write stream
  let stream := self.smhd.write stream
  let stream := self.dinf.write stream
  let stream := self.stbl.write stream
  stream

/-- `struct MdiaBox`. -/
structure MdiaBox where
  header : AtomHeader
  mdhd : MdhdAtom
  hdlr : HdlrAtom
  minf : MinfBox

/-- `MdiaBox::TYPE`. -/
def MdiaBox.TYPE : String := "mdia"

/-- `MdiaBox::compute`. -/
def MdiaBox.compute (self : MdiaBox) : MdiaBox :=
  let self := { self with mdhd := self.mdhd.compute }
  let self := { self with hdlr := self.hdlr.compute }
  let self := { self with minf := self.minf.compute }
  let self := { self with header := { self.header with
    size := u32.new (uint64_t (sizeof_AtomHeader
      + self.mdhd.header.size.to_uint32_t
      + self.hdlr.header.size.to_uint32_t
      + self.minf.header.size.to_uint32_t)) } }
  let self := { self with header := { self.header with type := BoxType.new MdiaBox.TYPE } }
  self

/-- `MdiaBox::write`. -/
def MdiaBox.write {S : Type} [ByteSink S] (self : MdiaBox) (stream : S) : S :=
  let stream := self.header.write stream
  let stream := self.mdhd.write stream
  let stream := self.hdlr.write stream
  let stream := self.minf.write stream
  stream

/-- `struct TrakBox`. -/
structure TrakBox where
  header : AtomHeader
  tkhd : TkhdAtom
  edts : EdtsBox
  mdia : MdiaBox

/-- `TrakBox::TYPE`. -/
def TrakBox.TYPE : String := "trak"

/-- `TrakBox::compute`. -/
def TrakBox.compute (self : TrakBox) : TrakBox :=
  let self := { self with tkhd := self.tkhd.compute }
  let self := { self with edts := self.edts.compute }
  let self := { self with mdia := self.mdia.compute }
  let self := { self with header := { self.header with
    size := u32.new (uint64_t (sizeof_AtomHeader
      + self.tkhd.header.size.to_uint32_t
      + self.edts.header.size.to_uint32_t
      + self.mdia.header.size.to_uint32_t)) } }
  let self := { self with header := { self.header with type := BoxType.new TrakBox.TYPE } }
  self

/-- `TrakBox::write`. -/
def TrakBox.write {S : Type} [ByteSink S] (self : TrakBox) (stream : S) : S :=
  let stream := self.header.write stream
  let stream := self.tkhd.write stream
  let stream := self.edts.write stream
  let stream := self.mdia.write stream
  stream

/-- `struct MoovBox`. -/
structure MoovBox where
  header : AtomHeader
  mvhd : MvhdAtom
  trak : TrakBox

/-- `MoovBox::TYPE`. -/
def MoovBox.TYPE : String := "moov"

/-- `MoovBox::compute`. -/
def MoovBox.compute (self : MoovBox) : MoovBox :=
  let self := { self with mvhd := self.mvhd.compute }
  let self := { self with trak := self.trak.compute }
  let self := { self with header := { self.header with
    size := u32.new (uint64_t (sizeof_AtomHeader
      + self.mvhd.header.size.to_uint32_t
      + self.trak.header.size.to_uint32_t)) } }
  let self := { self with header := { self.header with type := BoxType.new MoovBox.TYPE } }
  self

/-- `MoovBox::write`. -/
def MoovBox.write {S : Type} [ByteSink S] (self : MoovBox) (stream : S) : S :=
  let stream := self.header.write stream
  let stream := self.mvhd.write stream
  let stream := self.trak.write stream
  stream

/-- `struct RefMdatBox`; `data` is a reference to the caller's vector. -/
structure RefMdatBox where
  header : AtomHeader
  data : List u8

/-- The constructor `RefMdatBox(const std::vector<u8>& data)`. -/
def RefMdatBox.new (data : List u8) : RefMdatBox := ⟨AtomHeader.zero, data⟩

/-- `RefMdatBox::TYPE`. -/
def RefMdatBox.TYPE : String := "mdat"

/-- `RefMdatBox::compute`. -/
def RefMdatBox.compute (self : RefMdatBox) : RefMdatBox :=
  let self := { self with header := { self.header with
    size := u32.new (uint64_t (sizeof_AtomHeader + self.data.length)) } }
  let self := { self with header := { self.header with type := BoxType.new RefMdatBox.TYPE } }
  self

/-- `RefMdatBox::write`. -/
def RefMdatBox.write {S : Type} [ByteSink S] (self : RefMdatBox) (stream : S) : S :=
  let stream := self.header.write stream
  let stream := write_vector stream self.data
  stream

/-- `struct FtypAtom`; no padding, as its members all have alignment 1. -/
structure FtypAtom where
  header : AtomHeader
  major_brand : BoxType
  minor_version : u32
  compatible_brands : carray BoxType 2

/-- `FtypAtom::TYPE`. -/
def FtypAtom.TYPE : String := "ftyp"

/-- `sizeof(FtypAtom)`. -/
def sizeof_FtypAtom : Nat := sizeof_AtomHeader + 4 + 4 + 2 * 4

/-- `FtypAtom::compute`. -/
def FtypAtom.compute (self : FtypAtom) : FtypAtom :=
  { self with header := default_compute self.header FtypAtom.TYPE sizeof_FtypAtom }

/-- `FtypAtom::write`. -/
def FtypAtom.write {S : Type} [ByteSink S] (self : FtypAtom) (stream : S) : S :=
  let stream := self.header.write stream
  let stream := write_BoxType stream self.major_brand
  let stream := write_u32 stream self.minor_version
  let stream := write_BoxType stream (self.compatible_brands.get 0 (by decide))
  let stream := write_BoxType stream (self.compatible_brands.get 1 (by decide))
  stream

/-! ## aacmp4.hpp: `write_aac_mp4` -/

/-- The octets that `write_aac_mp4` serializes without having assigned them.
Members of type `u8` have no default initializer, so a local object holds in
them whatever its storage held: `sd.header.reserved` (filled by `compute()`
before it is written) and `sd.esds.desc.flags` (never assigned). Every other
member is either assigned by `write_aac_mp4` or default-constructed to zero. -/
structure Indeterminate where
  sd_header_reserved : carray u8 6
  sd_esds_desc_flags : u8

/-- The point at which a call reaches an integer division by zero. C++ leaves
the behaviour undefined from there on, so nothing later is modelled: `stream`
is the sink as the call had left it when the division was reached. -/
structure DivisionByZero (S : Type) where
  stream : S

/-- Lines 887-892: the local `ftyp`, after `ftyp.compute()`. -/
def aac_mp4_ftyp : FtypAtom :=
  let ftyp : FtypAtom :=
    { header := AtomHeader.zero
      major_brand := BoxType.new "isom"
      minor_version := u32.new 0x00000200
      compatible_brands := ⟨[BoxType.new "isom", BoxType.new "mp41"], rfl⟩ }
  ftyp.compute

/-- Lines 964-993: the local `sd`. -/
def aac_mp4_sd (sample_rate : Nat) (ind : Indeterminate) : SampleDescriptionEntry :=
  { header :=
      { header := AtomHeader.zero
        reserved := ind.sd_header_reserved
        data_reference_index := u16.new 1
        version := u16.new 0
        revision_level := u16.new 0
        vendor := u32.new 0
        number_of_channels := u16.new 1
        sample_size := u16.new 16
        compression_id := u16.new 0
        packet_size := u16.new 0
        sample_rate := u32.new (uint32_t (sample_rate <<< 16)) }
    esds :=
      { header := AtomHeader.zero
        version := u32.new 0
        desc :=
          { tag := EsdsAtom.TAG_ES_DESCRIPTOR
            size := ⟨[0x80, 0x80, 0x80, 0x25], rfl⟩
            es_id := u16.new 1
            flags := ind.sd_esds_desc_flags
            decoder_config :=
              { tag := EsdsAtom.TAG_DECODER_CONFIG
                size := ⟨[0x80, 0x80, 0x80, 0x17], rfl⟩
                object_type := uint8_t 0x40
                flags := uint8_t 0x15
                buffer_size := u24.new 0
                max_bit_rate := u32.new 69000
                average_bit_rate := u32.new 58223
                decoder_specific :=
                  { tag := EsdsAtom.TAG_DECODER_SPECIFIC
                    size := ⟨[0x80, 0x80, 0x80, 0x05], rfl⟩
                    specific := ⟨[0x14, 0x08, 0x56, 0xe5, 0x00], rfl⟩ } }
            sl_config :=
              { tag := EsdsAtom.TAG_SL_CONFIG_DESCRIPTOR
                size := ⟨[0x80, 0x80, 0x80, 0x01], rfl⟩
                predefined := uint8_t 0x02 } } }
    btrt :=
      { header := AtomHeader.zero
        buffer_size := u32.new 0
        max_bit_rate := u32.new 0
        average_bit_rate := u32.new 0 } }

/-- Lines 895-1029: the local `moov` as it stands when `moov.compute()` is
called. Each member is given the value of its last assignment; a member that
is not assigned holds its default-constructed value. The two `std::fill` calls
on `tkhd.reserved_1` and `hdlr.reserved` pass an end pointer `sizeof(array)`
elements (not octets) past the start, so they also zero the members that
follow the array; each of those is assigned afterwards (`layer` to `matrix`
on line 924 and after, `name` on line 954, the `minf` and `smhd` members on
line 956 and in `compute()`). The divisions are evaluated by `write_aac_mp4`
only when the divisor is not zero. -/
def aac_mp4_moov (chunks : List u32) (sample_rate number_of_samples max_samples_per_chunk : Nat)
    (ind : Indeterminate) : MoovBox :=
  let sd := aac_mp4_sd sample_rate ind
  let remainder_samples := number_of_samples % max_samples_per_chunk
  { header := AtomHeader.zero
    mvhd :=
      { header := AtomHeader.zero
        version := uint8_t 0
        flags := u24.new 0
        creation_time := u32.new 0
        modification_time := u32.new 0
        timescale := u32.new 1000
        duration := u32.new (uint32_t (number_of_samples * 1000) / sample_rate)
        rate := u32.new 0x00010000
        volume := u16.new 0x0100
        reserved := carray.fill 10 (uint8_t 0)
        matrix := Matrix.new
        preview_time := u32.new 0
        preview_duration := u32.new 0
        poster_time := u32.new 0
        selection_time := u32.new 0
        selection_duration := u32.new 0
        current_time := u32.new 0
        next_track_id := u32.new 2 }
    trak :=
      { header := AtomHeader.zero
        tkhd :=
          { header := AtomHeader.zero
            version := uint8_t 0
            flags := u24.new 0x0003
            creation_time := u32.new 0
            modification_time := u32.new 0
            track_id := u32.new 1
            reserved_0 := u32.new 0
            duration := u32.new (uint32_t (number_of_samples * 1000) / sample_rate)
            reserved_1 := carray.fill 2 (u32.new 0)
            layer := u16.new 0
            alternate_group := u16.new 1
            volume := u16.new 0x0100
            reserved_2 := u16.new 0
            matrix := Matrix.new
            width := u32.new 0
            height := u32.new 0 }
        edts :=
          { header := AtomHeader.zero
            elst :=
              { header := AtomHeader.zero
                version := uint8_t 0
                flags := u24.new 0
                entry_count := u32.new 1
                entries := ⟨[{ segment_duration :=
                                 u32.new (uint32_t (number_of_samples * 1000) / sample_rate)
                               media_time := u32.new 0x00000800
                               media_rate := u32.new 0x00010000 }], rfl⟩ } }
        mdia :=
          { header := AtomHeader.zero
            mdhd :=
              { header := AtomHeader.zero
                version := uint8_t 0
                flags := u24.new 0
                creation_time := u32.new 0
                modification_time := u32.new 0
                timescale := u32.new sample_rate
                duration := u32.new number_of_samples
                language := u16.new 0x55c4
                quality := u16.new 0 }
            hdlr :=
              { header := AtomHeader.zero
                version := uint8_t 0
                flags := u24.new 0
                component_type := u32.new 0
                handler_type := u32.new 0x736F756E
                reserved := carray.fill 3 (u32.new 0)
                name := ⟨(List.range 13).map (c_str "SoundHandler"), rfl⟩ }
            minf :=
              { header := AtomHeader.zero
                smhd :=
                  { header := AtomHeader.zero
                    reserved := carray.fill 8 (uint8_t 0) }
                dinf :=
                  { header := AtomHeader.zero
                    dref :=
                      { header := AtomHeader.zero
                        version := uint8_t 0
                        flags := u24.new 0
                        entry_count := u32.new 1
                        data_entries := ⟨[{ header := { AtomHeader.zero with
                                              type := BoxType.new "url " }
                                            version := uint8_t 1
                                            flags := u24.new 0 }], rfl⟩ } }
                stbl :=
                  { header := AtomHeader.zero
                    stsd :=
                      { header :=
                          { header := AtomHeader.zero
                            version := uint8_t 0
                            flags := u24.new 0
                            entry_count := u32.zero }
                        sample_description_entries := [] ++ [sd] }
                    stts :=
                      { header := AtomHeader.zero
                        version := uint8_t 0
                        flags := u24.new 0
                        number_of_entries := u32.new (if remainder_samples = 0 then 1 else 2)
                        entries :=
                          ⟨[{ count := u32.new (number_of_samples / max_samples_per_chunk)
                              duration := u32.new max_samples_per_chunk },
                            if remainder_samples ≠ 0 then
                              { count := u32.new 1, duration := u32.new remainder_samples }
                            else
                              { count := u32.zero, duration := u32.zero }], rfl⟩ }
                    stsc :=
                      { header := AtomHeader.zero
                        version := uint8_t 0
                        flags := u24.new 0
                        number_of_entries := u32.new 1
                        entries :=
                          ⟨[{ first_chunk := u32.new 1
                              samples_per_chunk :=
                                u32.new (uint32_t (uint32_t (number_of_samples
                                  + max_samples_per_chunk) + 2 ^ 32 - 1)
                                  / max_samples_per_chunk)
                              sample_description_id := u32.new 1 }], rfl⟩ }
                    stsz :=
                      { header :=
                          { header := AtomHeader.zero
                            version := uint8_t 0
                            flags := u24.new 0
                            sample_size := u32.new 0
                            number_of_entries := u32.zero }
                        entries := chunks }
                    stco :=
                      { header := AtomHeader.zero
                        version := uint8_t 0
                        flags := u24.new 0
                        number_of_entries := u32.new 1
                        entries := ⟨[u32.new 0], rfl⟩ } } } } } }

/-- Lines 1024-1027: the local `mp4a`. Three members of its `btrt` are
assigned; the object is not used afterwards. -/
def aac_mp4_mp4a_btrt : BtrtAtom :=
  { header := AtomHeader.zero
    average_bit_rate := u32.new 58223
    max_bit_rate := u32.new 69000
    buffer_size := u32.new 0 }

/-- Lines 1031-1033: `moov` as `moov.write(stream)` finds it, after
`moov.compute()` and the update of the chunk offset. -/
def aac_mp4_moov_written (chunks : List u32)
    (sample_rate number_of_samples max_samples_per_chunk : Nat) (ind : Indeterminate) :
    MoovBox :=
  let ftyp := aac_mp4_ftyp
  let moov := aac_mp4_moov chunks sample_rate number_of_samples max_samples_per_chunk ind
  let moov := moov.compute
  let offset := uint32_t (uint32_t (ftyp.header.size.to_uint32_t
    + moov.header.size.to_uint32_t) + 8)
  { moov with
    trak.mdia.minf.stbl.stco.entries :=
      moov.trak.mdia.minf.stbl.stco.entries.set 0 (u32.new offset) }

/-- Lines 1036-1037: the local `mdat`, after `mdat.compute()`. -/
def aac_mp4_mdat (data : List u8) : RefMdatBox :=
  (RefMdatBox.new data).compute

/-- `write_aac_mp4`. The arguments `sample_rate`, `number_of_samples` and
`max_samples_per_chunk` are `std::uint32_t`. The first division by
`sample_rate` (line 902) and the first by `max_samples_per_chunk` (line 1000)
come after `ftyp` has been written and before anything else is. -/
def write_aac_mp4 {S : Type} [ByteSink S] (stream : S) (chunks : List u32) (data : List u8)
    (sample_rate number_of_samples max_samples_per_chunk : Nat) (ind : Indeterminate) :
    Except (DivisionByZero S) S :=
  let ftyp := aac_mp4_ftyp
  let stream := ftyp.write stream
  if sample_rate = 0 then Except.error ⟨stream⟩
  else if max_samples_per_chunk = 0 then Except.error ⟨stream⟩
  else
    let moov :=
      aac_mp4_moov_written chunks sample_rate number_of_samples max_samples_per_chunk ind
    let stream := moov.write stream
    let mdat := aac_mp4_mdat data
    let stream := mdat.write stream
    Except.ok stream

/-! ## Reading the result -/

/-- The four octets of a `u32` in the order `write` emits them. -/
def u32.octets (self : u32) : List u8 :=
  [self.octets_0, self.octets_1, self.octets_2, self.octets_3]

/-- The sample table `moov.trak.mdia.minf.stbl` that `write_aac_mp4` serializes. -/
def aac_mp4_stbl (chunks : List u32) (sample_rate number_of_samples max_samples_per_chunk : Nat)
    (ind : Indeterminate) : StblBox :=
  (aac_mp4_moov_written chunks sample_rate number_of_samples max_samples_per_chunk
    ind).trak.mdia.minf.stbl

/-- The value of `stco.entries[0]` that `write_aac_mp4` serializes. -/
def aac_mp4_chunk_offset (chunks : List u32)
    (sample_rate number_of_samples max_samples_per_chunk : Nat) (ind : Indeterminate) : u32 :=
  (aac_mp4_stbl chunks sample_rate number_of_samples max_samples_per_chunk
    ind).stco.entries.get 0 (by decide)

/-- The number of octets a call of `write_aac_mp4` hands to its sink, counted
by a `DummyWriter`. -/
def output_length (chunks : List u32) (data : List u8)
    (sample_rate number_of_samples max_samples_per_chunk : Nat) (ind : Indeterminate) : Nat :=
  match write_aac_mp4 ({} : DummyWriter) chunks data sample_rate number_of_samples
    max_samples_per_chunk ind with
  | Except.ok stream => stream.bytes_written
  | Except.error e => e.stream.bytes_written

/-- The `count` fields of the entries `SttsAtom::write` emits, in order. -/
def SttsAtom.emitted_counts (self : SttsAtom) : List Nat :=
  (self.entries.elems.take self.number_of_entries.to_uint32_t).map
    (fun e => e.count.to_uint32_t)

/-- The size field of a box header holds the number of octets the box's `write`
hands to a `DummyWriter`. -/
def size_is_bytes_written (header : AtomHeader) (write : DummyWriter → DummyWriter) : Prop :=
  header.size.to_uint32_t = count_bytes write

/-! ## Inputs used in the examples -/

/-- Locals whose unassigned octets are all zero. -/
def zero_indeterminate : Indeterminate := ⟨carray.fill 6 0, 0⟩

/-- Two frames of 120 and 118 octets. -/
def two_frames : List u32 := [u32.new 120, u32.new 118]

/-- A payload of 238 octets. -/
def payload_238 : List u8 := List.replicate 238 0

/-- A frame list of 2^30 - 156 entries; its `stsz` table takes 4 GiB less 624
octets. -/
def frames_2_30 : List u32 := List.replicate 1073741668 (u32.new 0)

/-- The number a sequence of octets denotes, most significant octet first. -/
def big_endian_value (octets : List u8) : Nat :=
  octets.foldl (fun acc b => acc * 256 + b) 0

/-- The `(count, duration)` pairs of the entries `SttsAtom::write` emits, in
order. -/
def SttsAtom.emitted_entries (self : SttsAtom) : List (Nat × Nat) :=
  (self.entries.elems.take self.number_of_entries.to_uint32_t).map
    (fun e => (e.count.to_uint32_t, e.duration.to_uint32_t))

/-- The `(first_chunk, samples_per_chunk, sample_description_id)` triples of the
entries `StscAtom::write` emits, in order. -/
def StscAtom.emitted_entries (self : StscAtom) : List (Nat × Nat × Nat) :=
  (self.entries.elems.take self.number_of_entries.to_uint32_t).map
    (fun e => (e.first_chunk.to_uint32_t, e.samples_per_chunk.to_uint32_t,
      e.sample_description_id.to_uint32_t))

/-- What a call has handed to a `StreamAdapter` when it returns, or when it
reaches a division by zero. -/
def emitted (r : Except (DivisionByZero StreamAdapter) StreamAdapter) : List u8 :=
  match r with
  | Except.ok stream => stream.stream
  | Except.error e => e.stream.stream

/-- A frame list of 2^30 entries; its `stsz` box takes 2^32 + 20 octets. -/
def frames_4g : List u32 := List.replicate 1073741824 (u32.new 0)

/-- A payload of 2^32 - 8 octets; its `mdat` box takes 2^32 octets. -/
def payload_4g : List u8 := List.replicate 4294967288 0

/-- The assignment of line 1033, `moov.trak.mdia.minf.stbl.stco.entries[0] = value`,
with any value on the right. -/
def MoovBox.set_chunk_offset (moov : MoovBox) (value : u32) : MoovBox :=
  { moov with
    trak.mdia.minf.stbl.stco.entries := moov.trak.mdia.minf.stbl.stco.entries.set 0 value }

/-- The size fields of every box of the tree under `moov`, in the order in
which `write` emits the boxes. -/
def MoovBox.size_fields (moov : MoovBox) : List u32 :=
  let trak := moov.trak
  let mdia := trak.mdia
  let minf := mdia.minf
  let stbl := minf.stbl
  [moov.header.size, moov.mvhd.header.size, trak.header.size, trak.tkhd.header.size,
    trak.edts.header.size, trak.edts.elst.header.size, mdia.header.size,
    mdia.mdhd.header.size, mdia.hdlr.header.size, minf.header.size, minf.smhd.header.size,
    minf.dinf.header.size, minf.dinf.dref.header.size]
  ++ minf.dinf.dref.data_entries.elems.map (fun e => e.header.size)
  ++ [stbl.header.size, stbl.stsd.header.header.size]
  ++ stbl.stsd.sample_description_entries.flatMap
      (fun e => [e.header.header.size, e.esds.header.size, e.btrt.header.size])
  ++ [stbl.stts.header.size, stbl.stsc.header.size, stbl.stsz.header.header.size,
    stbl.stco.header.size]

/-- The type fields of every box of the tree under `moov`, in the same order. -/
def MoovBox.type_fields (moov : MoovBox) : List BoxType :=
  let trak := moov.trak
  let mdia := trak.mdia
  let minf := mdia.minf
  let stbl := minf.stbl
  [moov.header.type, moov.mvhd.header.type, trak.header.type, trak.tkhd.header.type,
    trak.edts.header.type, trak.edts.elst.header.type, mdia.header.type,
    mdia.mdhd.header.type, mdia.hdlr.header.type, minf.header.type, minf.smhd.header.type,
    minf.dinf.header.type, minf.dinf.dref.header.type]
  ++ minf.dinf.dref.data_entries.elems.map (fun e => e.header.type)
  ++ [stbl.header.type, stbl.stsd.header.header.type]
  ++ stbl.stsd.sample_description_entries.flatMap
      (fun e => [e.header.header.type, e.esds.header.type, e.btrt.header.type])
  ++ [stbl.stts.header.type, stbl.stsc.header.type, stbl.stsz.header.header.type,
    stbl.stco.header.type]

/-- The entry-count fields of the tree under `moov`: those of `elst`, `dref`,
`stsd`, `stts`, `stsc`, `stsz` and `stco`. -/
def MoovBox.count_fields (moov : MoovBox) : List u32 :=
  let stbl := moov.trak.mdia.minf.stbl
  [moov.trak.edts.elst.entry_count, moov.trak.mdia.minf.dinf.dref.entry_count,
    stbl.stsd.header.entry_count, stbl.stts.number_of_entries, stbl.stsc.number_of_entries,
    stbl.stsz.header.number_of_entries, stbl.stco.number_of_entries]

/-- The `moov` that `write_aac_mp4` builds for two frames, with `dref.entry_count`
left at 0 instead of the 1 of line 959. -/
def moov_dref_count_zero : MoovBox :=
  let moov := aac_mp4_moov two_frames 16000 2048 1024 zero_indeterminate
  { moov with trak.mdia.minf.dinf.dref.entry_count := u32.new 0 }

/-! ## The fixed-width codec -/

theorem lor_eq_add_of_dvd {a b : Nat} (k : Nat) (hb : b < 2 ^ k) (ha : 2 ^ k ∣ a) :
    a ||| b = a + b := by
  obtain ⟨c, rfl⟩ := ha
  exact (Nat.mul_add_lt_is_or hb c).symm

theorem shl32_octet (a k : Nat) (ha : a < 256) (hk : k ≤ 24) :
    uint32_t (uint32_t a <<< k) = a * 2 ^ k := by
  have h1 : a % 2 ^ 32 = a := Nat.mod_eq_of_lt (by omega)
  have h2 : a * 2 ^ k < 2 ^ 32 := by
    calc a * 2 ^ k ≤ 255 * 2 ^ 24 :=
          Nat.mul_le_mul (by omega) (Nat.pow_le_pow_right (by omega) hk)
      _ < 2 ^ 32 := by norm_num
  simp only [uint32_t, h1, Nat.shiftLeft_eq, Nat.mod_eq_of_lt h2]

theorem u16_decode (a b : Nat) (ha : a < 256) (hb : b < 256) :
    u16.to_uint16_t ⟨a, b⟩ = a * 256 + b := by
  have h := lor_eq_add_of_dvd (a := a * 2 ^ 8) (b := b * 2 ^ 0) 8 (by omega) (by omega)
  simp only [u16.to_uint16_t, shl32_octet a 8 ha (by omega), shl32_octet b 0 hb (by omega), h,
    uint16_t]
  omega

theorem u24_decode (a b c : Nat) (ha : a < 256) (hb : b < 256) (hc : c < 256) :
    u24.to_uint32_t ⟨a, b, c⟩ = a * 65536 + b * 256 + c := by
  have h1 := lor_eq_add_of_dvd (a := a * 2 ^ 16) (b := b * 2 ^ 8) 16 (by omega) (by omega)
  have h2 := lor_eq_add_of_dvd (a := a * 2 ^ 16 + b * 2 ^ 8) (b := c * 2 ^ 0) 8
    (by omega) (by omega)
  simp only [u24.to_uint32_t, shl32_octet a 16 ha (by omega), shl32_octet b 8 hb (by omega),
    shl32_octet c 0 hc (by omega), h1, h2]
  omega

theorem u32_decode (a b c d : Nat) (ha : a < 256) (hb : b < 256) (hc : c < 256) (hd : d < 256) :
    u32.to_uint32_t ⟨a, b, c, d⟩ = a * 16777216 + b * 65536 + c * 256 + d := by
  have h1 := lor_eq_add_of_dvd (a := a * 2 ^ 24) (b := b * 2 ^ 16) 24 (by omega) (by omega)
  have h2 := lor_eq_add_of_dvd (a := a * 2 ^ 24 + b * 2 ^ 16) (b := c * 2 ^ 8) 16
    (by omega) (by omega)
  have h3 := lor_eq_add_of_dvd (a := a * 2 ^ 24 + b * 2 ^ 16 + c * 2 ^ 8) (b := d * 2 ^ 0) 8
    (by omega) (by omega)
  simp only [u32.to_uint32_t, shl32_octet a 24 ha (by omega), shl32_octet b 16 hb (by omega),
    shl32_octet c 8 hc (by omega), shl32_octet d 0 hd (by omega), h1, h2, h3]
  omega

theorem u32_to_new (v : Nat) : (u32.new v).to_uint32_t = v % 2 ^ 32 := by
  simp only [u32.new, uint32_t, uint8_t, Nat.shiftRight_eq_div_pow]
  rw [u32_decode _ _ _ _ (by omega) (by omega) (by omega) (by omega)]
  omega

theorem u24_to_new (v : Nat) : (u24.new v).to_uint32_t = v % 2 ^ 24 := by
  simp only [u24.new, uint32_t, uint8_t, Nat.shiftRight_eq_div_pow]
  rw [u24_decode _ _ _ (by omega) (by omega) (by omega)]
  omega

theorem u16_to_new (v : Nat) : (u16.new v).to_uint16_t = v % 2 ^ 16 := by
  simp only [u16.new, uint16_t, uint8_t, Nat.shiftRight_eq_div_pow]
  rw [u16_decode _ _ (by omega) (by omega)]
  omega

theorem u64_to_new (v : Nat) : (u64.new v).to_uint32_t = v % 2 ^ 64 / 2 ^ 32 := by
  simp only [u64.new, u64.to_uint32_t, uint64_t, uint8_t, Nat.shiftRight_eq_div_pow]
  have := u32_decode (v % 2 ^ 64 / 2 ^ 56 % 2 ^ 8) (v % 2 ^ 64 / 2 ^ 48 % 2 ^ 8)
    (v % 2 ^ 64 / 2 ^ 40 % 2 ^ 8) (v % 2 ^ 64 / 2 ^ 32 % 2 ^ 8)
    (by omega) (by omega) (by omega) (by omega)
  simp only [u32.to_uint32_t] at this
  rw [this]
  omega

/-! ## Serialization lemmas -/

section Serializer

variable {S : Type} [ByteSink S] [LawfulByteSink S]

theorem StreamAdapter_stream_write (s : StreamAdapter) (l : List u8) :
    (ByteSink.write s l).stream = s.stream ++ l := rfl

theorem DummyWriter_bytes_written_write (d : DummyWriter) (l : List u8) :
    (ByteSink.write d l).bytes_written = d.bytes_written + l.length := rfl

theorem serialize_write (l : List u8) :
    serialize (fun s => ByteSink.write s l) = l := by
  simp [serialize, StreamAdapter_stream_write]

theorem write_entries_eq {T : Type} (w : S → T → S) (b : T → List u8)
    (h : ∀ s e, w s e = ByteSink.write s (b e)) (s : S) (entries : List T) (count : Nat) :
    write_entries w s entries count = ByteSink.write s ((entries.take count).flatMap b) := by
  unfold write_entries
  generalize entries.take count = l
  induction l generalizing s with
  | nil => simp [LawfulByteSink.write_nil]
  | cons e l ih =>
    simp only [List.foldl_cons, List.flatMap_cons, ih, h, LawfulByteSink.write_write]

theorem foldl_write_eq {T : Type} (w : S → T → S) (b : T → List u8)
    (h : ∀ s e, w s e = ByteSink.write s (b e)) (s : S) (l : List T) :
    l.foldl w s = ByteSink.write s (l.flatMap b) := by
  induction l generalizing s with
  | nil => simp [LawfulByteSink.write_nil]
  | cons e l ih =>
    simp only [List.foldl_cons, List.flatMap_cons, ih, h, LawfulByteSink.write_write]

theorem AtomHeader_write_eq (self : AtomHeader) (s : S) :
    self.write s = ByteSink.write s (serialize self.write) := by
  unfold serialize
  simp only [AtomHeader.write, write_u32, write_BoxType, LawfulByteSink.write_write,
    StreamAdapter_stream_write, List.nil_append]

theorem AtomHeader_serialize_eq (self : AtomHeader) :
    serialize self.write = [self.size.octets_0, self.size.octets_1, self.size.octets_2,
      self.size.octets_3, self.type.octets_0, self.type.octets_1, self.type.octets_2,
      self.type.octets_3] := by
  simp [serialize, AtomHeader.write, write_u32, write_BoxType, StreamAdapter_stream_write]

theorem AtomHeader_length_serialize (self : AtomHeader) :
    (serialize self.write).length = 8 := by
  simp [AtomHeader_serialize_eq]

theorem write_u32_entries_eq (s : S) (entries : List u32) (count : Nat) :
    write_entries write_u32 s entries count = ByteSink.write s
      ((entries.take count).flatMap
        (fun v => [v.octets_0, v.octets_1, v.octets_2, v.octets_3])) :=
  write_entries_eq _ _ (fun _ _ => rfl) s entries count

theorem length_flatMap_const {T : Type} (l : List T) (b : T → List u8) (k : Nat)
    (h : ∀ e, (b e).length = k) : (l.flatMap b).length = l.length * k := by
  induction l with
  | nil => simp
  | cons e l ih => simp [List.flatMap_cons, ih, h, Nat.add_mul, Nat.add_comm]

theorem Matrix_write_eq (self : Matrix) (s : S) :
    self.write s = ByteSink.write s (serialize self.write) := by
  unfold serialize
  simp only [Matrix.write, write_u32_entries_eq, StreamAdapter_stream_write, List.nil_append]

theorem Matrix_length_serialize (self : Matrix) :
    (serialize self.write).length = 36 := by
  unfold serialize
  simp only [Matrix.write, write_u32_entries_eq, StreamAdapter_stream_write, List.nil_append]
  rw [length_flatMap_const _ _ 4 (fun _ => by simp), List.length_take, self.values.size_eq]
  rfl

theorem MvhdAtom_write_eq (self : MvhdAtom) (s : S) :
    self.write s = ByteSink.write s (serialize self.write) := by
  unfold serialize
  simp only [
    MvhdAtom.write, AtomHeader_write_eq, Matrix_write_eq, write_u8, write_u16, write_u24,
    write_u32, write_array, write_vector, write_BoxType, LawfulByteSink.write_write,
    StreamAdapter_stream_write, List.nil_append]

theorem MvhdAtom_length_serialize (self : MvhdAtom) :
    (serialize self.write).length = 108 := by
  unfold serialize
  simp only [
    MvhdAtom.write, AtomHeader_write_eq, Matrix_write_eq, write_u8, write_u16, write_u24,
    write_u32, write_array, write_vector, write_BoxType, LawfulByteSink.write_write,
    StreamAdapter_stream_write, List.nil_append]
  simp [AtomHeader_length_serialize, Matrix_length_serialize, self.reserved.size_eq]

theorem TkhdAtom_write_eq (self : TkhdAtom) (s : S) :
    self.write s = ByteSink.write s (serialize self.write) := by
  unfold serialize
  simp only [
    TkhdAtom.write, AtomHeader_write_eq, Matrix_write_eq, write_u8, write_u16, write_u24,
    write_u32, write_array, write_vector, write_BoxType, LawfulByteSink.write_write,
    StreamAdapter_stream_write, List.nil_append]

theorem TkhdAtom_length_serialize (self : TkhdAtom) :
    (serialize self.write).length = 92 := by
  unfold serialize
  simp only [
    TkhdAtom.write, AtomHeader_write_eq, Matrix_write_eq, write_u8, write_u16, write_u24,
    write_u32, write_array, write_vector, write_BoxType, LawfulByteSink.write_write,
    StreamAdapter_stream_write, List.nil_append]
  simp [AtomHeader_length_serialize, Matrix_length_serialize]

theorem ElstEntry_write_eq (self : ElstEntry) (s : S) :
    self.write s = ByteSink.write s (serialize self.write) := by
  unfold serialize
  simp only [
    ElstEntry.write, write_u8, write_u16, write_u24, write_u32, write_array, write_vector,
    write_BoxType, LawfulByteSink.write_write, StreamAdapter_stream_write, List.nil_append]

theorem ElstEntry_length_serialize (self : ElstEntry) :
    (serialize self.write).length = 12 := by
  unfold serialize
  simp only [
    ElstEntry.write, write_u8, write_u16, write_u24, write_u32, write_array, write_vector,
    write_BoxType, LawfulByteSink.write_write, StreamAdapter_stream_write, List.nil_append]
  simp []

theorem SttsEntry_write_eq (self : SttsEntry) (s : S) :
    self.write s = ByteSink.write s (serialize self.write) := by
  unfold serialize
  simp only [
    SttsEntry.write, write_u8, write_u16, write_u24, write_u32, write_array, write_vector,
    write_BoxType, LawfulByteSink.write_write, StreamAdapter_stream_write, List.nil_append]

theorem SttsEntry_length_serialize (self : SttsEntry) :
    (serialize self.write).length = 8 := by
  unfold serialize
  simp only [
    SttsEntry.write, write_u8, write_u16, write_u24, write_u32, write_array, write_vector,
    write_BoxType, LawfulByteSink.write_write, StreamAdapter_stream_write, List.nil_append]
  simp []

theorem StscEntry_write_eq (self : StscEntry) (s : S) :
    self.write s = ByteSink.write s (serialize self.write) := by
  unfold serialize
  simp only [
    StscEntry.write, write_u8, write_u16, write_u24, write_u32, write_array, write_vector,
    write_BoxType, LawfulByteSink.write_write, StreamAdapter_stream_write, List.nil_append]

theorem StscEntry_length_serialize (self : StscEntry) :
    (serialize self.write).length = 12 := by
  unfold serialize
  simp only [
    StscEntry.write, write_u8, write_u16, write_u24, write_u32, write_array, write_vector,
    write_BoxType, LawfulByteSink.write_write, StreamAdapter_stream_write, List.nil_append]
  simp []

theorem StszAtomHeader_write_eq (self : StszAtomHeader) (s : S) :
    self.write s = ByteSink.write s (serialize self.write) := by
  unfold serialize
  simp only [
    StszAtomHeader.write, AtomHeader_write_eq, write_u8, write_u16, write_u24, write_u32,
    write_array, write_vector, write_BoxType, LawfulByteSink.write_write,
    StreamAdapter_stream_write, List.nil_append]

theorem StszAtomHeader_length_serialize (self : StszAtomHeader) :
    (serialize self.write).length = 20 := by
  unfold serialize
  simp only [
    StszAtomHeader.write, AtomHeader_write_eq, write_u8, write_u16, write_u24, write_u32,
    write_array, write_vector, write_BoxType, LawfulByteSink.write_write,
    StreamAdapter_stream_write, List.nil_append]
  simp [AtomHeader_length_serialize]

theorem MdhdAtom_write_eq (self : MdhdAtom) (s : S) :
    self.write s = ByteSink.write s (serialize self.write) := by
  unfold serialize
  simp only [
    MdhdAtom.write, AtomHeader_write_eq, write_u8, write_u16, write_u24, write_u32, write_array,
    write_vector, write_BoxType, LawfulByteSink.write_write, StreamAdapter_stream_write,
    List.nil_append]

theorem MdhdAtom_length_serialize (self : MdhdAtom) :
    (serialize self.write).length = 32 := by
  unfold serialize
  simp only [
    MdhdAtom.write, AtomHeader_write_eq, write_u8, write_u16, write_u24, write_u32, write_array,
    write_vector, write_BoxType, LawfulByteSink.write_write, StreamAdapter_stream_write,
    List.nil_append]
  simp [AtomHeader_length_serialize]

theorem HdlrAtom_write_eq (self : HdlrAtom) (s : S) :
    self.write s = ByteSink.write s (serialize self.write) := by
  unfold serialize
  simp only [
    HdlrAtom.write, AtomHeader_write_eq, write_u8, write_u16, write_u24, write_u32, write_array,
    write_vector, write_BoxType, LawfulByteSink.write_write, StreamAdapter_stream_write,
    List.nil_append]

theorem HdlrAtom_length_serialize (self : HdlrAtom) :
    (serialize self.write).length = 45 := by
  unfold serialize
  simp only [
    HdlrAtom.write, AtomHeader_write_eq, write_u8, write_u16, write_u24, write_u32, write_array,
    write_vector, write_BoxType, LawfulByteSink.write_write, StreamAdapter_stream_write,
    List.nil_append]
  simp [AtomHeader_length_serialize, self.name.size_eq]

theorem SmhdAtom_write_eq (self : SmhdAtom) (s : S) :
    self.write s = ByteSink.write s (serialize self.write) := by
  unfold serialize
  simp only [
    SmhdAtom.write, AtomHeader_write_eq, write_u8, write_u16, write_u24, write_u32, write_array,
    write_vector, write_BoxType, LawfulByteSink.write_write, StreamAdapter_stream_write,
    List.nil_append]

theorem SmhdAtom_length_serialize (self : SmhdAtom) :
    (serialize self.write).length = 16 := by
  unfold serialize
  simp only [
    SmhdAtom.write, AtomHeader_write_eq, write_u8, write_u16, write_u24, write_u32, write_array,
    write_vector, write_BoxType, LawfulByteSink.write_write, StreamAdapter_stream_write,
    List.nil_append]
  simp [AtomHeader_length_serialize, self.reserved.size_eq]

theorem DataEntry_write_eq (self : DataEntry) (s : S) :
    self.write s = ByteSink.write s (serialize self.write) := by
  unfold serialize
  simp only [
    DataEntry.write, AtomHeader_write_eq, write_u8, write_u16, write_u24, write_u32, write_array,
    write_vector, write_BoxType, LawfulByteSink.write_write, StreamAdapter_stream_write,
    List.nil_append]

theorem DataEntry_length_serialize (self : DataEntry) :
    (serialize self.write).length = 12 := by
  unfold serialize
  simp only [
    DataEntry.write, AtomHeader_write_eq, write_u8, write_u16, write_u24, write_u32, write_array,
    write_vector, write_BoxType, LawfulByteSink.write_write, StreamAdapter_stream_write,
    List.nil_append]
  simp [AtomHeader_length_serialize]

theorem SLConfigDescriptor_write_eq (self : SLConfigDescriptor) (s : S) :
    self.write s = ByteSink.write s (serialize self.write) := by
  unfold serialize
  simp only [
    SLConfigDescriptor.write, write_u8, write_u16, write_u24, write_u32, write_array,
    write_vector, write_BoxType, LawfulByteSink.write_write, StreamAdapter_stream_write,
    List.nil_append]

theorem SLConfigDescriptor_length_serialize (self : SLConfigDescriptor) :
    (serialize self.write).length = 6 := by
  unfold serialize
  simp only [
    SLConfigDescriptor.write, write_u8, write_u16, write_u24, write_u32, write_array,
    write_vector, write_BoxType, LawfulByteSink.write_write, StreamAdapter_stream_write,
    List.nil_append]
  simp [self.size.size_eq]

theorem DecoderSpecificInfo_write_eq (self : DecoderSpecificInfo) (s : S) :
    self.write s = ByteSink.write s (serialize self.write) := by
  unfold serialize
  simp only [
    DecoderSpecificInfo.write, write_u8, write_u16, write_u24, write_u32, write_array,
    write_vector, write_BoxType, LawfulByteSink.write_write, StreamAdapter_stream_write,
    List.nil_append]

theorem DecoderSpecificInfo_length_serialize (self : DecoderSpecificInfo) :
    (serialize self.write).length = 10 := by
  unfold serialize
  simp only [
    DecoderSpecificInfo.write, write_u8, write_u16, write_u24, write_u32, write_array,
    write_vector, write_BoxType, LawfulByteSink.write_write, StreamAdapter_stream_write,
    List.nil_append]
  simp [self.size.size_eq, self.specific.size_eq]

theorem DecoderConfiguration_write_eq (self : DecoderConfiguration) (s : S) :
    self.write s = ByteSink.write s (serialize self.write) := by
  unfold serialize
  simp only [
    DecoderConfiguration.write, DecoderSpecificInfo_write_eq, write_u8, write_u16, write_u24,
    write_u32, write_array, write_vector, write_BoxType, LawfulByteSink.write_write,
    StreamAdapter_stream_write, List.nil_append]

theorem DecoderConfiguration_length_serialize (self : DecoderConfiguration) :
    (serialize self.write).length = 28 := by
  unfold serialize
  simp only [
    DecoderConfiguration.write, DecoderSpecificInfo_write_eq, write_u8, write_u16, write_u24,
    write_u32, write_array, write_vector, write_BoxType, LawfulByteSink.write_write,
    StreamAdapter_stream_write, List.nil_append]
  simp [DecoderSpecificInfo_length_serialize, self.size.size_eq]

theorem ESDescriptor_write_eq (self : ESDescriptor) (s : S) :
    self.write s = ByteSink.write s (serialize self.write) := by
  unfold serialize
  simp only [
    ESDescriptor.write, DecoderConfiguration_write_eq, SLConfigDescriptor_write_eq, write_u8,
    write_u16, write_u24, write_u32, write_array, write_vector, write_BoxType,
    LawfulByteSink.write_write, StreamAdapter_stream_write, List.nil_append]

theorem ESDescriptor_length_serialize (self : ESDescriptor) :
    (serialize self.write).length = 42 := by
  unfold serialize
  simp only [
    ESDescriptor.write, DecoderConfiguration_write_eq, SLConfigDescriptor_write_eq, write_u8,
    write_u16, write_u24, write_u32, write_array, write_vector, write_BoxType,
    LawfulByteSink.write_write, StreamAdapter_stream_write, List.nil_append]
  simp [DecoderConfiguration_length_serialize, SLConfigDescriptor_length_serialize, self.size.size_eq]

theorem EsdsAtom_write_eq (self : EsdsAtom) (s : S) :
    self.write s = ByteSink.write s (serialize self.write) := by
  unfold serialize
  simp only [
    EsdsAtom.write, AtomHeader_write_eq, ESDescriptor_write_eq, write_u8, write_u16, write_u24,
    write_u32, write_array, write_vector, write_BoxType, LawfulByteSink.write_write,
    StreamAdapter_stream_write, List.nil_append]

theorem EsdsAtom_length_serialize (self : EsdsAtom) :
    (serialize self.write).length = 54 := by
  unfold serialize
  simp only [
    EsdsAtom.write, AtomHeader_write_eq, ESDescriptor_write_eq, write_u8, write_u16, write_u24,
    write_u32, write_array, write_vector, write_BoxType, LawfulByteSink.write_write,
    StreamAdapter_stream_write, List.nil_append]
  simp [AtomHeader_length_serialize, ESDescriptor_length_serialize]

theorem BtrtAtom_write_eq (self : BtrtAtom) (s : S) :
    self.write s = ByteSink.write s (serialize self.write) := by
  unfold serialize
  simp only [
    BtrtAtom.write, AtomHeader_write_eq, write_u8, write_u16, write_u24, write_u32, write_array,
    write_vector, write_BoxType, LawfulByteSink.write_write, StreamAdapter_stream_write,
    List.nil_append]

theorem BtrtAtom_length_serialize (self : BtrtAtom) :
    (serialize self.write).length = 20 := by
  unfold serialize
  simp only [
    BtrtAtom.write, AtomHeader_write_eq, write_u8, write_u16, write_u24, write_u32, write_array,
    write_vector, write_BoxType, LawfulByteSink.write_write, StreamAdapter_stream_write,
    List.nil_append]
  simp [AtomHeader_length_serialize]

theorem SampleDescriptionEntryHeader_write_eq (self : SampleDescriptionEntryHeader) (s : S) :
    self.write s = ByteSink.write s (serialize self.write) := by
  unfold serialize
  simp only [
    SampleDescriptionEntryHeader.write, AtomHeader_write_eq, write_u8, write_u16, write_u24,
    write_u32, write_array, write_vector, write_BoxType, LawfulByteSink.write_write,
    StreamAdapter_stream_write, List.nil_append]

theorem SampleDescriptionEntryHeader_length_serialize (self : SampleDescriptionEntryHeader) :
    (serialize self.write).length = 36 := by
  unfold serialize
  simp only [
    SampleDescriptionEntryHeader.write, AtomHeader_write_eq, write_u8, write_u16, write_u24,
    write_u32, write_array, write_vector, write_BoxType, LawfulByteSink.write_write,
    StreamAdapter_stream_write, List.nil_append]
  simp [AtomHeader_length_serialize, self.reserved.size_eq]

theorem SampleDescriptionEntry_write_eq (self : SampleDescriptionEntry) (s : S) :
    self.write s = ByteSink.write s (serialize self.write) := by
  unfold serialize
  simp only [
    SampleDescriptionEntry.write, SampleDescriptionEntryHeader_write_eq, EsdsAtom_write_eq,
    BtrtAtom_write_eq, write_u8, write_u16, write_u24, write_u32, write_array, write_vector,
    write_BoxType, LawfulByteSink.write_write, StreamAdapter_stream_write, List.nil_append]

theorem SampleDescriptionEntry_length_serialize (self : SampleDescriptionEntry) :
    (serialize self.write).length = 110 := by
  unfold serialize
  simp only [
    SampleDescriptionEntry.write, SampleDescriptionEntryHeader_write_eq, EsdsAtom_write_eq,
    BtrtAtom_write_eq, write_u8, write_u16, write_u24, write_u32, write_array, write_vector,
    write_BoxType, LawfulByteSink.write_write, StreamAdapter_stream_write, List.nil_append]
  simp [SampleDescriptionEntryHeader_length_serialize, EsdsAtom_length_serialize, BtrtAtom_length_serialize]

theorem StsdHeader_write_eq (self : StsdHeader) (s : S) :
    self.write s = ByteSink.write s (serialize self.write) := by
  unfold serialize
  simp only [
    StsdHeader.write, AtomHeader_write_eq, write_u8, write_u16, write_u24, write_u32,
    write_array, write_vector, write_BoxType, LawfulByteSink.write_write,
    StreamAdapter_stream_write, List.nil_append]

theorem StsdHeader_length_serialize (self : StsdHeader) :
    (serialize self.write).length = 16 := by
  unfold serialize
  simp only [
    StsdHeader.write, AtomHeader_write_eq, write_u8, write_u16, write_u24, write_u32,
    write_array, write_vector, write_BoxType, LawfulByteSink.write_write,
    StreamAdapter_stream_write, List.nil_append]
  simp [AtomHeader_length_serialize]

theorem StcoAtom_write_eq (self : StcoAtom) (s : S) :
    self.write s = ByteSink.write s (serialize self.write) := by
  unfold serialize
  simp only [
    StcoAtom.write, AtomHeader_write_eq, write_u8, write_u16, write_u24, write_u32, write_array,
    write_vector, write_BoxType, LawfulByteSink.write_write, StreamAdapter_stream_write,
    List.nil_append]

theorem StcoAtom_length_serialize (self : StcoAtom) :
    (serialize self.write).length = 20 := by
  unfold serialize
  simp only [
    StcoAtom.write, AtomHeader_write_eq, write_u8, write_u16, write_u24, write_u32, write_array,
    write_vector, write_BoxType, LawfulByteSink.write_write, StreamAdapter_stream_write,
    List.nil_append]
  simp [AtomHeader_length_serialize]

theorem FtypAtom_write_eq (self : FtypAtom) (s : S) :
    self.write s = ByteSink.write s (serialize self.write) := by
  unfold serialize
  simp only [
    FtypAtom.write, AtomHeader_write_eq, write_u8, write_u16, write_u24, write_u32, write_array,
    write_vector, write_BoxType, LawfulByteSink.write_write, StreamAdapter_stream_write,
    List.nil_append]

theorem FtypAtom_length_serialize (self : FtypAtom) :
    (serialize self.write).length = 24 := by
  unfold serialize
  simp only [
    FtypAtom.write, AtomHeader_write_eq, write_u8, write_u16, write_u24, write_u32, write_array,
    write_vector, write_BoxType, LawfulByteSink.write_write, StreamAdapter_stream_write,
    List.nil_append]
  simp [AtomHeader_length_serialize]
theorem ElstEntry_write_entries_eq (s : S) (entries : List ElstEntry) (count : Nat) :
    write_entries (fun s (e : ElstEntry) => e.write s) s entries count
      = ByteSink.write s ((entries.take count).flatMap (fun e => serialize e.write)) :=
  write_entries_eq _ _ (fun s e => ElstEntry_write_eq e s) s entries count

theorem SttsEntry_write_entries_eq (s : S) (entries : List SttsEntry) (count : Nat) :
    write_entries (fun s (e : SttsEntry) => e.write s) s entries count
      = ByteSink.write s ((entries.take count).flatMap (fun e => serialize e.write)) :=
  write_entries_eq _ _ (fun s e => SttsEntry_write_eq e s) s entries count

theorem StscEntry_write_entries_eq (s : S) (entries : List StscEntry) (count : Nat) :
    write_entries (fun s (e : StscEntry) => e.write s) s entries count
      = ByteSink.write s ((entries.take count).flatMap (fun e => serialize e.write)) :=
  write_entries_eq _ _ (fun s e => StscEntry_write_eq e s) s entries count

theorem DataEntry_write_entries_eq (s : S) (entries : List DataEntry) (count : Nat) :
    write_entries (fun s (e : DataEntry) => e.write s) s entries count
      = ByteSink.write s ((entries.take count).flatMap (fun e => serialize e.write)) :=
  write_entries_eq _ _ (fun s e => DataEntry_write_eq e s) s entries count

theorem ElstAtom_write_eq (self : ElstAtom) (s : S) :
    self.write s = ByteSink.write s (serialize self.write) := by
  unfold serialize
  simp only [
    ElstAtom.write, AtomHeader_write_eq, ElstEntry_write_entries_eq, write_u8, write_u16,
    write_u24, write_u32, write_array, write_vector, write_BoxType, LawfulByteSink.write_write,
    StreamAdapter_stream_write, List.nil_append]

theorem ElstAtom_length_serialize (self : ElstAtom) :
    (serialize self.write).length = 16 + min self.entry_count.to_uint32_t 1 * 12 := by
  unfold serialize
  simp only [
    ElstAtom.write, AtomHeader_write_eq, ElstEntry_write_entries_eq, write_u8, write_u16,
    write_u24, write_u32, write_array, write_vector, write_BoxType, LawfulByteSink.write_write,
    StreamAdapter_stream_write, List.nil_append]
  simp only [List.length_append, List.length_cons, List.length_nil,
    AtomHeader_length_serialize,
    length_flatMap_const _ _ 12 (fun e => ElstEntry_length_serialize e), List.length_take,
    self.entries.size_eq]

theorem EdtsBox_write_eq (self : EdtsBox) (s : S) :
    self.write s = ByteSink.write s (serialize self.write) := by
  unfold serialize
  simp only [
    EdtsBox.write, AtomHeader_write_eq, ElstAtom_write_eq, write_u8, write_u16, write_u24,
    write_u32, write_array, write_vector, write_BoxType, LawfulByteSink.write_write,
    StreamAdapter_stream_write, List.nil_append]

theorem EdtsBox_length_serialize (self : EdtsBox) :
    (serialize self.write).length = 8 + (serialize self.elst.write).length := by
  unfold serialize
  simp only [
    EdtsBox.write, AtomHeader_write_eq, ElstAtom_write_eq, write_u8, write_u16, write_u24,
    write_u32, write_array, write_vector, write_BoxType, LawfulByteSink.write_write,
    StreamAdapter_stream_write, List.nil_append]
  simp [AtomHeader_length_serialize]

theorem SttsAtom_write_eq (self : SttsAtom) (s : S) :
    self.write s = ByteSink.write s (serialize self.write) := by
  unfold serialize
  simp only [
    SttsAtom.write, AtomHeader_write_eq, SttsEntry_write_entries_eq, write_u8, write_u16,
    write_u24, write_u32, write_array, write_vector, write_BoxType, LawfulByteSink.write_write,
    StreamAdapter_stream_write, List.nil_append]

theorem SttsAtom_length_serialize (self : SttsAtom) :
    (serialize self.write).length = 16 + min self.number_of_entries.to_uint32_t 2 * 8 := by
  unfold serialize
  simp only [
    SttsAtom.write, AtomHeader_write_eq, SttsEntry_write_entries_eq, write_u8, write_u16,
    write_u24, write_u32, write_array, write_vector, write_BoxType, LawfulByteSink.write_write,
    StreamAdapter_stream_write, List.nil_append]
  simp only [List.length_append, List.length_cons, List.length_nil,
    AtomHeader_length_serialize,
    length_flatMap_const _ _ 8 (fun e => SttsEntry_length_serialize e), List.length_take,
    self.entries.size_eq]

theorem StscAtom_write_eq (self : StscAtom) (s : S) :
    self.write s = ByteSink.write s (serialize self.write) := by
  unfold serialize
  simp only [
    StscAtom.write, AtomHeader_write_eq, StscEntry_write_entries_eq, write_u8, write_u16,
    write_u24, write_u32, write_array, write_vector, write_BoxType, LawfulByteSink.write_write,
    StreamAdapter_stream_write, List.nil_append]

theorem StscAtom_length_serialize (self : StscAtom) :
    (serialize self.write).length = 16 + min self.number_of_entries.to_uint32_t 1 * 12 := by
  unfold serialize
  simp only [
    StscAtom.write, AtomHeader_write_eq, StscEntry_write_entries_eq, write_u8, write_u16,
    write_u24, write_u32, write_array, write_vector, write_BoxType, LawfulByteSink.write_write,
    StreamAdapter_stream_write, List.nil_append]
  simp only [List.length_append, List.length_cons, List.length_nil,
    AtomHeader_length_serialize,
    length_flatMap_const _ _ 12 (fun e => StscEntry_length_serialize e), List.length_take,
    self.entries.size_eq]

theorem StszBox_write_eq (self : StszBox) (s : S) :
    self.write s = ByteSink.write s (serialize self.write) := by
  unfold serialize
  simp only [
    StszBox.write, StszAtomHeader_write_eq, write_u32_entries_eq, write_u8, write_u16, write_u24,
    write_u32, write_array, write_vector, write_BoxType, LawfulByteSink.write_write,
    StreamAdapter_stream_write, List.nil_append]

theorem StszBox_length_serialize (self : StszBox) :
    (serialize self.write).length = 20 + self.entries.length * 4 := by
  unfold serialize
  simp only [
    StszBox.write, StszAtomHeader_write_eq, write_u32_entries_eq, write_u8, write_u16, write_u24,
    write_u32, write_array, write_vector, write_BoxType, LawfulByteSink.write_write,
    StreamAdapter_stream_write, List.nil_append]
  simp only [List.length_append, StszAtomHeader_length_serialize, List.take_length]
  rw [length_flatMap_const _ _ 4 (fun _ => by simp)]

theorem DrefBox_write_eq (self : DrefBox) (s : S) :
    self.write s = ByteSink.write s (serialize self.write) := by
  unfold serialize
  simp only [
    DrefBox.write, AtomHeader_write_eq, DataEntry_write_entries_eq, write_u8, write_u16,
    write_u24, write_u32, write_array, write_vector, write_BoxType, LawfulByteSink.write_write,
    StreamAdapter_stream_write, List.nil_append]

theorem DrefBox_length_serialize (self : DrefBox) :
    (serialize self.write).length = 16 + min self.entry_count.to_uint32_t 1 * 12 := by
  unfold serialize
  simp only [
    DrefBox.write, AtomHeader_write_eq, DataEntry_write_entries_eq, write_u8, write_u16,
    write_u24, write_u32, write_array, write_vector, write_BoxType, LawfulByteSink.write_write,
    StreamAdapter_stream_write, List.nil_append]
  simp only [List.length_append, List.length_cons, List.length_nil,
    AtomHeader_length_serialize,
    length_flatMap_const _ _ 12 (fun e => DataEntry_length_serialize e), List.length_take,
    self.data_entries.size_eq]

theorem DinfBox_write_eq (self : DinfBox) (s : S) :
    self.write s = ByteSink.write s (serialize self.write) := by
  unfold serialize
  simp only [
    DinfBox.write, AtomHeader_write_eq, DrefBox_write_eq, write_u8, write_u16, write_u24,
    write_u32, write_array, write_vector, write_BoxType, LawfulByteSink.write_write,
    StreamAdapter_stream_write, List.nil_append]

theorem DinfBox_length_serialize (self : DinfBox) :
    (serialize self.write).length = 8 + (serialize self.dref.write).length := by
  unfold serialize
  simp only [
    DinfBox.write, AtomHeader_write_eq, DrefBox_write_eq, write_u8, write_u16, write_u24,
    write_u32, write_array, write_vector, write_BoxType, LawfulByteSink.write_write,
    StreamAdapter_stream_write, List.nil_append]
  simp [AtomHeader_length_serialize]

theorem SampleDescriptionEntry_foldl_write_eq (s : S) (entries : List SampleDescriptionEntry) :
    entries.foldl (fun s (entry : SampleDescriptionEntry) => entry.write s) s
      = ByteSink.write s (entries.flatMap (fun e => serialize e.write)) :=
  foldl_write_eq _ _ (fun s e => SampleDescriptionEntry_write_eq e s) s entries

theorem StsdBox_write_eq (self : StsdBox) (s : S) :
    self.write s = ByteSink.write s (serialize self.write) := by
  unfold serialize
  simp only [
    StsdBox.write, StsdHeader_write_eq, SampleDescriptionEntry_foldl_write_eq, write_u8,
    write_u16, write_u24, write_u32, write_array, write_vector, write_BoxType,
    LawfulByteSink.write_write, StreamAdapter_stream_write, List.nil_append]

theorem StsdBox_length_serialize (self : StsdBox) :
    (serialize self.write).length = 16 + self.sample_description_entries.length * 110 := by
  unfold serialize
  simp only [
    StsdBox.write, StsdHeader_write_eq, SampleDescriptionEntry_foldl_write_eq, write_u8,
    write_u16, write_u24, write_u32, write_array, write_vector, write_BoxType,
    LawfulByteSink.write_write, StreamAdapter_stream_write, List.nil_append]
  simp only [List.length_append, StsdHeader_length_serialize,
    length_flatMap_const _ _ 110 (fun e => SampleDescriptionEntry_length_serialize e)]

theorem StblBox_write_eq (self : StblBox) (s : S) :
    self.write s = ByteSink.write s (serialize self.write) := by
  unfold serialize
  simp only [
    StblBox.write, AtomHeader_write_eq, StsdBox_write_eq, SttsAtom_write_eq, StscAtom_write_eq,
    StszBox_write_eq, StcoAtom_write_eq, write_u8, write_u16, write_u24, write_u32, write_array,
    write_vector, write_BoxType, LawfulByteSink.write_write, StreamAdapter_stream_write,
    List.nil_append]

theorem StblBox_length_serialize (self : StblBox) :
    (serialize self.write).length = 8 + (serialize self.stsd.write).length + (serialize self.stts.write).length + (serialize self.stsc.write).length + (serialize self.stsz.write).length + (serialize self.stco.write).length := by
  unfold serialize
  simp only [
    StblBox.write, AtomHeader_write_eq, StsdBox_write_eq, SttsAtom_write_eq, StscAtom_write_eq,
    StszBox_write_eq, StcoAtom_write_eq, write_u8, write_u16, write_u24, write_u32, write_array,
    write_vector, write_BoxType, LawfulByteSink.write_write, StreamAdapter_stream_write,
    List.nil_append]
  simp only [List.length_append, AtomHeader_length_serialize, Nat.add_assoc]

theorem MinfBox_write_eq (self : MinfBox) (s : S) :
    self.write s = ByteSink.write s (serialize self.write) := by
  unfold serialize
  simp only [
    MinfBox.write, AtomHeader_write_eq, SmhdAtom_write_eq, DinfBox_write_eq, StblBox_write_eq,
    write_u8, write_u16, write_u24, write_u32, write_array, write_vector, write_BoxType,
    LawfulByteSink.write_write, StreamAdapter_stream_write, List.nil_append]

theorem MinfBox_length_serialize (self : MinfBox) :
    (serialize self.write).length = 8 + (serialize self.smhd.write).length + (serialize self.dinf.write).length + (serialize self.stbl.write).length := by
  unfold serialize
  simp only [
    MinfBox.write, AtomHeader_write_eq, SmhdAtom_write_eq, DinfBox_write_eq, StblBox_write_eq,
    write_u8, write_u16, write_u24, write_u32, write_array, write_vector, write_BoxType,
    LawfulByteSink.write_write, StreamAdapter_stream_write, List.nil_append]
  simp only [List.length_append, AtomHeader_length_serialize, Nat.add_assoc]

theorem MdiaBox_write_eq (self : MdiaBox) (s : S) :
    self.write s = ByteSink.write s (serialize self.write) := by
  unfold serialize
  simp only [
    MdiaBox.write, AtomHeader_write_eq, MdhdAtom_write_eq, HdlrAtom_write_eq, MinfBox_write_eq,
    write_u8, write_u16, write_u24, write_u32, write_array, write_vector, write_BoxType,
    LawfulByteSink.write_write, StreamAdapter_stream_write, List.nil_append]

theorem MdiaBox_length_serialize (self : MdiaBox) :
    (serialize self.write).length = 8 + (serialize self.mdhd.write).length + (serialize self.hdlr.write).length + (serialize self.minf.write).length := by
  unfold serialize
  simp only [
    MdiaBox.write, AtomHeader_write_eq, MdhdAtom_write_eq, HdlrAtom_write_eq, MinfBox_write_eq,
    write_u8, write_u16, write_u24, write_u32, write_array, write_vector, write_BoxType,
    LawfulByteSink.write_write, StreamAdapter_stream_write, List.nil_append]
  simp only [List.length_append, AtomHeader_length_serialize, Nat.add_assoc]

theorem TrakBox_write_eq (self : TrakBox) (s : S) :
    self.write s = ByteSink.write s (serialize self.write) := by
  unfold serialize
  simp only [
    TrakBox.write, AtomHeader_write_eq, TkhdAtom_write_eq, EdtsBox_write_eq, MdiaBox_write_eq,
    write_u8, write_u16, write_u24, write_u32, write_array, write_vector, write_BoxType,
    LawfulByteSink.write_write, StreamAdapter_stream_write, List.nil_append]

theorem TrakBox_length_serialize (self : TrakBox) :
    (serialize self.write).length = 8 + (serialize self.tkhd.write).length + (serialize self.edts.write).length + (serialize self.mdia.write).length := by
  unfold serialize
  simp only [
    TrakBox.write, AtomHeader_write_eq, TkhdAtom_write_eq, EdtsBox_write_eq, MdiaBox_write_eq,
    write_u8, write_u16, write_u24, write_u32, write_array, write_vector, write_BoxType,
    LawfulByteSink.write_write, StreamAdapter_stream_write, List.nil_append]
  simp only [List.length_append, AtomHeader_length_serialize, Nat.add_assoc]

theorem MoovBox_write_eq (self : MoovBox) (s : S) :
    self.write s = ByteSink.write s (serialize self.write) := by
  unfold serialize
  simp only [
    MoovBox.write, AtomHeader_write_eq, MvhdAtom_write_eq, TrakBox_write_eq, write_u8, write_u16,
    write_u24, write_u32, write_array, write_vector, write_BoxType, LawfulByteSink.write_write,
    StreamAdapter_stream_write, List.nil_append]

theorem MoovBox_length_serialize (self : MoovBox) :
    (serialize self.write).length = 8 + (serialize self.mvhd.write).length + (serialize self.trak.write).length := by
  unfold serialize
  simp only [
    MoovBox.write, AtomHeader_write_eq, MvhdAtom_write_eq, TrakBox_write_eq, write_u8, write_u16,
    write_u24, write_u32, write_array, write_vector, write_BoxType, LawfulByteSink.write_write,
    StreamAdapter_stream_write, List.nil_append]
  simp only [List.length_append, AtomHeader_length_serialize, Nat.add_assoc]

theorem RefMdatBox_write_eq (self : RefMdatBox) (s : S) :
    self.write s = ByteSink.write s (serialize self.write) := by
  unfold serialize
  simp only [
    RefMdatBox.write, AtomHeader_write_eq, write_u8, write_u16, write_u24, write_u32,
    write_array, write_vector, write_BoxType, LawfulByteSink.write_write,
    StreamAdapter_stream_write, List.nil_append]

theorem RefMdatBox_length_serialize (self : RefMdatBox) :
    (serialize self.write).length = 8 + self.data.length := by
  unfold serialize
  simp only [
    RefMdatBox.write, AtomHeader_write_eq, write_u8, write_u16, write_u24, write_u32,
    write_array, write_vector, write_BoxType, LawfulByteSink.write_write,
    StreamAdapter_stream_write, List.nil_append]
  simp [AtomHeader_length_serialize]

end Serializer

/-! ## `compute()` -/

theorem u32_new_uint64 (x : Nat) : (u32.new (uint64_t x)).to_uint32_t = x % 2 ^ 32 := by
  rw [u32_to_new, uint64_t]
  omega

theorem default_compute_size (header : AtomHeader) (TYPE : String) (n : Nat) :
    (default_compute header TYPE n).size.to_uint32_t = n % 2 ^ 32 := by
  simp only [default_compute, u32_to_new]

theorem MvhdAtom_compute_size (self : MvhdAtom) :
    self.compute.header.size.to_uint32_t = 108 := by
  simp only [MvhdAtom.compute, default_compute_size]
  rfl

theorem TkhdAtom_compute_size (self : TkhdAtom) :
    self.compute.header.size.to_uint32_t = 92 := by
  simp only [TkhdAtom.compute, default_compute_size]
  rfl

theorem ElstAtom_compute_size (self : ElstAtom) :
    self.compute.header.size.to_uint32_t = 28 := by
  simp only [ElstAtom.compute, default_compute_size]
  rfl

theorem MdhdAtom_compute_size (self : MdhdAtom) :
    self.compute.header.size.to_uint32_t = 32 := by
  simp only [MdhdAtom.compute, default_compute_size]
  rfl

theorem HdlrAtom_compute_size (self : HdlrAtom) :
    self.compute.header.size.to_uint32_t = 45 := by
  simp only [HdlrAtom.compute, default_compute_size]
  rfl

theorem SmhdAtom_compute_size (self : SmhdAtom) :
    self.compute.header.size.to_uint32_t = 16 := by
  simp only [SmhdAtom.compute, default_compute_size]
  rfl

theorem EsdsAtom_compute_size (self : EsdsAtom) :
    self.compute.header.size.to_uint32_t = 54 := by
  simp only [EsdsAtom.compute, default_compute_size]
  rfl

theorem BtrtAtom_compute_size (self : BtrtAtom) :
    self.compute.header.size.to_uint32_t = 20 := by
  simp only [BtrtAtom.compute, default_compute_size]
  rfl

theorem StcoAtom_compute_size (self : StcoAtom) :
    self.compute.header.size.to_uint32_t = 20 := by
  simp only [StcoAtom.compute, default_compute_size]
  rfl

theorem FtypAtom_compute_size (self : FtypAtom) :
    self.compute.header.size.to_uint32_t = 24 := by
  simp only [FtypAtom.compute, default_compute_size]
  rfl

theorem DataEntry_compute_size (self : DataEntry) :
    self.compute.header.size.to_uint32_t = 12 := by
  simp only [DataEntry.compute, u32_to_new]
  rfl

theorem ElstAtom_compute_length (self : ElstAtom) :
    (serialize self.compute.write).length = 16 + min self.entry_count.to_uint32_t 1 * 12 := by
  rw [ElstAtom_length_serialize]
  rfl

theorem SttsAtom_compute_size (self : SttsAtom) :
    self.compute.header.size.to_uint32_t
      = (16 + self.number_of_entries.to_uint32_t * 8) % 2 ^ 32 := by
  simp only [SttsAtom.compute, u32_new_uint64, sizeof_AtomHeader, sizeof_SttsEntry]

theorem SttsAtom_compute_length (self : SttsAtom) :
    (serialize self.compute.write).length
      = 16 + min self.number_of_entries.to_uint32_t 2 * 8 := by
  rw [SttsAtom_length_serialize]
  rfl

theorem StscAtom_compute_size (self : StscAtom) :
    self.compute.header.size.to_uint32_t
      = (16 + self.number_of_entries.to_uint32_t * 12) % 2 ^ 32 := by
  simp only [StscAtom.compute, u32_new_uint64, sizeof_AtomHeader, sizeof_StscEntry]

theorem StscAtom_compute_length (self : StscAtom) :
    (serialize self.compute.write).length
      = 16 + min self.number_of_entries.to_uint32_t 1 * 12 := by
  rw [StscAtom_length_serialize]
  rfl

theorem StszBox_compute_size (self : StszBox) :
    self.compute.header.header.size.to_uint32_t = (20 + self.entries.length * 4) % 2 ^ 32 := by
  simp only [StszBox.compute, u32_new_uint64, sizeof_StszAtomHeader, sizeof_AtomHeader]

theorem StszBox_compute_length (self : StszBox) :
    (serialize self.compute.write).length = 20 + self.entries.length * 4 := by
  rw [StszBox_length_serialize]
  rfl

theorem EdtsBox_compute_size (self : EdtsBox) :
    self.compute.header.size.to_uint32_t = 36 := by
  simp only [EdtsBox.compute, u32_new_uint64, ElstAtom_compute_size, sizeof_AtomHeader]
  rfl

theorem EdtsBox_compute_length (self : EdtsBox) :
    (serialize self.compute.write).length
      = 8 + (16 + min self.elst.entry_count.to_uint32_t 1 * 12) := by
  rw [EdtsBox_length_serialize, ← ElstAtom_compute_length]
  rfl

theorem DrefBox_compute_size (self : DrefBox) :
    self.compute.header.size.to_uint32_t
      = (16 + self.entry_count.to_uint32_t * 12) % 2 ^ 32 := by
  simp only [DrefBox.compute, u32_new_uint64, sizeof_AtomHeader, sizeof_DataEntry]

theorem DrefBox_compute_length (self : DrefBox) :
    (serialize self.compute.write).length = 28 := by
  rw [DrefBox_length_serialize]
  have h : self.compute.entry_count = u32.new 1 := rfl
  rw [h, u32_to_new]
  rfl

theorem DinfBox_compute_size (self : DinfBox) :
    self.compute.header.size.to_uint32_t
      = (8 + (16 + self.dref.entry_count.to_uint32_t * 12) % 2 ^ 32) % 2 ^ 32 := by
  simp only [DinfBox.compute, u32_new_uint64, DrefBox_compute_size, sizeof_AtomHeader]

theorem DinfBox_compute_length (self : DinfBox) :
    (serialize self.compute.write).length = 36 := by
  rw [DinfBox_length_serialize]
  have h : self.compute.dref = self.dref.compute := rfl
  rw [h, DrefBox_compute_length]

theorem SampleDescriptionEntry_compute_size (self : SampleDescriptionEntry) :
    self.compute.header.header.size.to_uint32_t = 110 := by
  simp only [SampleDescriptionEntry.compute, u32_new_uint64, EsdsAtom_compute_size,
    BtrtAtom_compute_size, sizeof_SampleDescriptionEntryHeader, sizeof_AtomHeader]
  rfl

theorem RefMdatBox_compute_size (self : RefMdatBox) :
    self.compute.header.size.to_uint32_t = (8 + self.data.length) % 2 ^ 32 := by
  simp only [RefMdatBox.compute, u32_new_uint64, sizeof_AtomHeader]

theorem RefMdatBox_compute_length (self : RefMdatBox) :
    (serialize self.compute.write).length = 8 + self.data.length := by
  rw [RefMdatBox_length_serialize]
  rfl

theorem StsdBox_compute_entries (header : StsdHeader) (e : SampleDescriptionEntry) :
    (StsdBox.compute ⟨header, [e]⟩).sample_description_entries = [e.compute] := rfl

theorem StsdBox_compute_size (header : StsdHeader) (e : SampleDescriptionEntry) :
    (StsdBox.compute ⟨header, [e]⟩).header.header.size.to_uint32_t = 126 := by
  simp only [StsdBox.compute, List.foldl_cons, List.foldl_nil, u32_to_new,
    SampleDescriptionEntry_compute_size, sizeof_StsdHeader, sizeof_AtomHeader, uint64_t]
  rfl

theorem StsdBox_compute_length (header : StsdHeader) (e : SampleDescriptionEntry) :
    (serialize (StsdBox.compute ⟨header, [e]⟩).write).length = 126 := by
  rw [StsdBox_length_serialize, StsdBox_compute_entries]
  rfl

theorem StblBox_compute_size (self : StblBox) :
    self.compute.header.size.to_uint32_t
      = (8 + self.stsd.compute.header.header.size.to_uint32_t
          + self.stts.compute.header.size.to_uint32_t
          + self.stsc.compute.header.size.to_uint32_t
          + self.stsz.compute.header.header.size.to_uint32_t
          + self.stco.compute.header.size.to_uint32_t) % 2 ^ 32 := by
  simp only [StblBox.compute, u32_new_uint64, sizeof_AtomHeader]

theorem StblBox_compute_length (self : StblBox) :
    (serialize self.compute.write).length
      = 8 + (serialize self.stsd.compute.write).length
          + (serialize self.stts.compute.write).length
          + (serialize self.stsc.compute.write).length
          + (serialize self.stsz.compute.write).length
          + (serialize self.stco.compute.write).length := by
  rw [StblBox_length_serialize]
  rfl

theorem MinfBox_compute_size (self : MinfBox) :
    self.compute.header.size.to_uint32_t
      = (8 + self.smhd.compute.header.size.to_uint32_t
          + self.dinf.compute.header.size.to_uint32_t
          + self.stbl.compute.header.size.to_uint32_t) % 2 ^ 32 := by
  simp only [MinfBox.compute, u32_new_uint64, sizeof_AtomHeader]

theorem MinfBox_compute_length (self : MinfBox) :
    (serialize self.compute.write).length
      = 8 + (serialize self.smhd.compute.write).length
          + (serialize self.dinf.compute.write).length
          + (serialize self.stbl.compute.write).length := by
  rw [MinfBox_length_serialize]
  rfl

theorem MdiaBox_compute_size (self : MdiaBox) :
    self.compute.header.size.to_uint32_t
      = (8 + self.mdhd.compute.header.size.to_uint32_t
          + self.hdlr.compute.header.size.to_uint32_t
          + self.minf.compute.header.size.to_uint32_t) % 2 ^ 32 := by
  simp only [MdiaBox.compute, u32_new_uint64, sizeof_AtomHeader]

theorem MdiaBox_compute_length (self : MdiaBox) :
    (serialize self.compute.write).length
      = 8 + (serialize self.mdhd.compute.write).length
          + (serialize self.hdlr.compute.write).length
          + (serialize self.minf.compute.write).length := by
  rw [MdiaBox_length_serialize]
  rfl

theorem TrakBox_compute_size (self : TrakBox) :
    self.compute.header.size.to_uint32_t
      = (8 + self.tkhd.compute.header.size.to_uint32_t
          + self.edts.compute.header.size.to_uint32_t
          + self.mdia.compute.header.size.to_uint32_t) % 2 ^ 32 := by
  simp only [TrakBox.compute, u32_new_uint64, sizeof_AtomHeader]

theorem TrakBox_compute_length (self : TrakBox) :
    (serialize self.compute.write).length
      = 8 + (serialize self.tkhd.compute.write).length
          + (serialize self.edts.compute.write).length
          + (serialize self.mdia.compute.write).length := by
  rw [TrakBox_length_serialize]
  rfl

theorem MoovBox_compute_size (self : MoovBox) :
    self.compute.header.size.to_uint32_t
      = (8 + self.mvhd.compute.header.size.to_uint32_t
          + self.trak.compute.header.size.to_uint32_t) % 2 ^ 32 := by
  simp only [MoovBox.compute, u32_new_uint64, sizeof_AtomHeader]

theorem MoovBox_compute_length (self : MoovBox) :
    (serialize self.compute.write).length
      = 8 + (serialize self.mvhd.compute.write).length
          + (serialize self.trak.compute.write).length := by
  rw [MoovBox_length_serialize]
  rfl

/-! ## The tree built by `write_aac_mp4` -/

section Tree

variable (chunks : List u32) (data : List u8)
  (sample_rate number_of_samples max_samples_per_chunk : Nat) (ind : Indeterminate)

theorem aac_mp4_moov_stsd :
    (aac_mp4_moov chunks sample_rate number_of_samples max_samples_per_chunk
      ind).trak.mdia.minf.stbl.stsd
      = ⟨⟨AtomHeader.zero, uint8_t 0, u24.new 0, u32.zero⟩, [aac_mp4_sd sample_rate ind]⟩ :=
  rfl

theorem aac_mp4_moov_stts_count :
    (aac_mp4_moov chunks sample_rate number_of_samples max_samples_per_chunk
      ind).trak.mdia.minf.stbl.stts.number_of_entries.to_uint32_t
      = if number_of_samples % max_samples_per_chunk = 0 then 1 else 2 := by
  show (u32.new _).to_uint32_t = _
  rw [u32_to_new]
  split <;> rfl

theorem aac_mp4_moov_stsc_count :
    (aac_mp4_moov chunks sample_rate number_of_samples max_samples_per_chunk
      ind).trak.mdia.minf.stbl.stsc.number_of_entries.to_uint32_t = 1 := by
  show (u32.new 1).to_uint32_t = _
  rw [u32_to_new]
  rfl

theorem aac_mp4_moov_stsz_entries :
    (aac_mp4_moov chunks sample_rate number_of_samples max_samples_per_chunk
      ind).trak.mdia.minf.stbl.stsz.entries = chunks := rfl

theorem aac_mp4_moov_dref_count :
    (aac_mp4_moov chunks sample_rate number_of_samples max_samples_per_chunk
      ind).trak.mdia.minf.dinf.dref.entry_count.to_uint32_t = 1 := by
  show (u32.new 1).to_uint32_t = _
  rw [u32_to_new]
  rfl

theorem aac_mp4_moov_elst_count :
    (aac_mp4_moov chunks sample_rate number_of_samples max_samples_per_chunk
      ind).trak.edts.elst.entry_count.to_uint32_t = 1 := by
  show (u32.new 1).to_uint32_t = _
  rw [u32_to_new]
  rfl

/-- The size field of `moov` after `moov.compute()`, for every input. -/
theorem aac_mp4_moov_compute_size :
    (aac_mp4_moov chunks sample_rate number_of_samples max_samples_per_chunk
      ind).compute.header.size.to_uint32_t
      = (615 + 8 * (if number_of_samples % max_samples_per_chunk = 0 then 1 else 2)
          + 4 * chunks.length) % 2 ^ 32 := by
  simp only [MoovBox_compute_size, MvhdAtom_compute_size, TrakBox_compute_size,
    TkhdAtom_compute_size, EdtsBox_compute_size, MdiaBox_compute_size, MdhdAtom_compute_size,
    HdlrAtom_compute_size, MinfBox_compute_size, SmhdAtom_compute_size, DinfBox_compute_size,
    StblBox_compute_size, SttsAtom_compute_size, StscAtom_compute_size, StszBox_compute_size,
    StcoAtom_compute_size, aac_mp4_moov_stsd, StsdBox_compute_size, aac_mp4_moov_stts_count,
    aac_mp4_moov_stsc_count, aac_mp4_moov_stsz_entries, aac_mp4_moov_dref_count]
  split <;> omega

/-- The number of octets `moov.write` emits after `moov.compute()`. -/
theorem aac_mp4_moov_compute_length :
    (serialize (aac_mp4_moov chunks sample_rate number_of_samples max_samples_per_chunk
      ind).compute.write).length
      = 615 + 8 * (if number_of_samples % max_samples_per_chunk = 0 then 1 else 2)
          + 4 * chunks.length := by
  simp only [MoovBox_compute_length, MvhdAtom_length_serialize, TrakBox_compute_length,
    TkhdAtom_length_serialize, EdtsBox_compute_length, MdiaBox_compute_length,
    MdhdAtom_length_serialize, HdlrAtom_length_serialize, MinfBox_compute_length,
    SmhdAtom_length_serialize, DinfBox_compute_length, StblBox_compute_length,
    SttsAtom_compute_length, StscAtom_compute_length, StszBox_compute_length,
    StcoAtom_length_serialize, aac_mp4_moov_stsd, StsdBox_compute_length,
    aac_mp4_moov_stts_count, aac_mp4_moov_stsc_count, aac_mp4_moov_stsz_entries,
    aac_mp4_moov_elst_count]
  split <;> omega

end Tree

section Written

variable {S : Type} [ByteSink S] [LawfulByteSink S]
variable (chunks : List u32) (data : List u8)
  (sample_rate number_of_samples max_samples_per_chunk : Nat) (ind : Indeterminate)

theorem count_bytes_eq (w : DummyWriter → DummyWriter) (l : List u8)
    (h : ∀ d, w d = ByteSink.write d l) : count_bytes w = l.length := by
  simp [count_bytes, h, DummyWriter_bytes_written_write]

/-- `write_aac_mp4` returns when neither divisor is zero, and what it hands to
the sink is `ftyp`, then `moov`, then `mdat`. -/
theorem write_aac_mp4_eq (s : S) (hsr : sample_rate ≠ 0) (hf : max_samples_per_chunk ≠ 0) :
    write_aac_mp4 s chunks data sample_rate number_of_samples max_samples_per_chunk ind
      = Except.ok (ByteSink.write s (serialize aac_mp4_ftyp.write
          ++ (serialize (aac_mp4_moov_written chunks sample_rate number_of_samples
                max_samples_per_chunk ind).write
          ++ serialize (aac_mp4_mdat data).write))) := by
  simp only [write_aac_mp4, hsr, hf, if_false, FtypAtom_write_eq, MoovBox_write_eq,
    RefMdatBox_write_eq, LawfulByteSink.write_write, List.append_assoc]

theorem aac_mp4_chunk_offset_eq :
    aac_mp4_chunk_offset chunks sample_rate number_of_samples max_samples_per_chunk ind
      = u32.new (uint32_t (uint32_t (aac_mp4_ftyp.header.size.to_uint32_t
          + (aac_mp4_moov chunks sample_rate number_of_samples max_samples_per_chunk
              ind).compute.header.size.to_uint32_t) + 8)) := rfl

theorem aac_mp4_moov_written_header :
    (aac_mp4_moov_written chunks sample_rate number_of_samples max_samples_per_chunk ind).header
      = (aac_mp4_moov chunks sample_rate number_of_samples max_samples_per_chunk
          ind).compute.header := rfl

theorem MoovBox_serialize_eq (self : MoovBox) :
    serialize self.write = serialize self.header.write
      ++ (serialize self.mvhd.write ++ serialize self.trak.write) := by
  show (self.write (⟨[]⟩ : StreamAdapter)).stream = _
  simp only [MoovBox.write, AtomHeader_write_eq, MvhdAtom_write_eq, TrakBox_write_eq,
    LawfulByteSink.write_write, StreamAdapter_stream_write, List.nil_append,
    List.append_assoc]

theorem TrakBox_serialize_eq (self : TrakBox) :
    serialize self.write = serialize self.header.write
      ++ (serialize self.tkhd.write ++ (serialize self.edts.write ++ serialize self.mdia.write)) := by
  show (self.write (⟨[]⟩ : StreamAdapter)).stream = _
  simp only [TrakBox.write, AtomHeader_write_eq, TkhdAtom_write_eq, EdtsBox_write_eq,
    MdiaBox_write_eq, LawfulByteSink.write_write, StreamAdapter_stream_write, List.nil_append,
    List.append_assoc]

theorem MdiaBox_serialize_eq (self : MdiaBox) :
    serialize self.write = serialize self.header.write
      ++ (serialize self.mdhd.write ++ (serialize self.hdlr.write ++ serialize self.minf.write)) := by
  show (self.write (⟨[]⟩ : StreamAdapter)).stream = _
  simp only [MdiaBox.write, AtomHeader_write_eq, MdhdAtom_write_eq, HdlrAtom_write_eq,
    MinfBox_write_eq, LawfulByteSink.write_write, StreamAdapter_stream_write, List.nil_append,
    List.append_assoc]

theorem MinfBox_serialize_eq (self : MinfBox) :
    serialize self.write = serialize self.header.write
      ++ (serialize self.smhd.write ++ (serialize self.dinf.write ++ serialize self.stbl.write)) := by
  show (self.write (⟨[]⟩ : StreamAdapter)).stream = _
  simp only [MinfBox.write, AtomHeader_write_eq, SmhdAtom_write_eq, DinfBox_write_eq,
    StblBox_write_eq, LawfulByteSink.write_write, StreamAdapter_stream_write, List.nil_append,
    List.append_assoc]

theorem StblBox_serialize_eq (self : StblBox) :
    serialize self.write = serialize self.header.write
      ++ (serialize self.stsd.write ++ (serialize self.stts.write
      ++ (serialize self.stsc.write ++ (serialize self.stsz.write
      ++ serialize self.stco.write)))) := by
  show (self.write (⟨[]⟩ : StreamAdapter)).stream = _
  simp only [StblBox.write, AtomHeader_write_eq, StsdBox_write_eq, SttsAtom_write_eq,
    StscAtom_write_eq, StszBox_write_eq, StcoAtom_write_eq, LawfulByteSink.write_write,
    StreamAdapter_stream_write, List.nil_append, List.append_assoc]

theorem StcoAtom_serialize_eq (self : StcoAtom) :
    serialize self.write = serialize self.header.write
      ++ ([self.version, self.flags.octets_0, self.flags.octets_1, self.flags.octets_2]
      ++ (self.number_of_entries.octets ++ (self.entries.get 0 (by decide)).octets)) := by
  show (self.write (⟨[]⟩ : StreamAdapter)).stream = _
  simp only [StcoAtom.write, AtomHeader_write_eq, write_u8, write_u24, write_u32,
    LawfulByteSink.write_write, StreamAdapter_stream_write, List.nil_append, u32.octets,
    List.cons_append, List.nil_append, List.append_assoc]

theorem RefMdatBox_serialize_eq (self : RefMdatBox) :
    serialize self.write = serialize self.header.write ++ self.data := by
  show (self.write (⟨[]⟩ : StreamAdapter)).stream = _
  simp only [RefMdatBox.write, AtomHeader_write_eq, write_vector, List.take_length,
    LawfulByteSink.write_write, StreamAdapter_stream_write, List.nil_append]

/-- The octets of `moov` end with the octets of `stco`. -/
theorem MoovBox_serialize_ends_with_stco (self : MoovBox) :
    ∃ before : List u8,
      serialize self.write = before ++ serialize self.trak.mdia.minf.stbl.stco.write := by
  refine ⟨serialize self.header.write ++ (serialize self.mvhd.write
    ++ (serialize self.trak.header.write ++ (serialize self.trak.tkhd.write
    ++ (serialize self.trak.edts.write ++ (serialize self.trak.mdia.header.write
    ++ (serialize self.trak.mdia.mdhd.write ++ (serialize self.trak.mdia.hdlr.write
    ++ (serialize self.trak.mdia.minf.header.write ++ (serialize self.trak.mdia.minf.smhd.write
    ++ (serialize self.trak.mdia.minf.dinf.write
    ++ (serialize self.trak.mdia.minf.stbl.header.write
    ++ (serialize self.trak.mdia.minf.stbl.stsd.write
    ++ (serialize self.trak.mdia.minf.stbl.stts.write
    ++ (serialize self.trak.mdia.minf.stbl.stsc.write
    ++ serialize self.trak.mdia.minf.stbl.stsz.write)))))))))))))), ?_⟩
  simp only [MoovBox_serialize_eq, TrakBox_serialize_eq, MdiaBox_serialize_eq,
    MinfBox_serialize_eq, StblBox_serialize_eq, List.append_assoc]

/-- Overwriting `stco.entries` changes no size field and no length. -/
theorem aac_mp4_moov_written_length :
    (serialize (aac_mp4_moov_written chunks sample_rate number_of_samples
      max_samples_per_chunk ind).write).length
      = 615 + 8 * (if number_of_samples % max_samples_per_chunk = 0 then 1 else 2)
          + 4 * chunks.length := by
  rw [← aac_mp4_moov_compute_length chunks sample_rate number_of_samples
    max_samples_per_chunk ind]
  simp only [MoovBox_length_serialize, TrakBox_length_serialize, MdiaBox_length_serialize,
    MinfBox_length_serialize, StblBox_length_serialize, StcoAtom_length_serialize]
  rfl

theorem aac_mp4_moov_written_size :
    (aac_mp4_moov_written chunks sample_rate number_of_samples max_samples_per_chunk
      ind).header.size.to_uint32_t
      = (615 + 8 * (if number_of_samples % max_samples_per_chunk = 0 then 1 else 2)
          + 4 * chunks.length) % 2 ^ 32 :=
  aac_mp4_moov_compute_size chunks sample_rate number_of_samples max_samples_per_chunk ind

theorem aac_mp4_ftyp_length : (serialize aac_mp4_ftyp.write).length = 24 :=
  FtypAtom_length_serialize _

theorem aac_mp4_ftyp_size : aac_mp4_ftyp.header.size.to_uint32_t = 24 :=
  FtypAtom_compute_size _

theorem aac_mp4_mdat_length (data : List u8) :
    (serialize (aac_mp4_mdat data).write).length = 8 + data.length :=
  RefMdatBox_compute_length _

theorem output_length_eq (hsr : sample_rate ≠ 0) (hf : max_samples_per_chunk ≠ 0) :
    output_length chunks data sample_rate number_of_samples max_samples_per_chunk ind
      = 24 + (615 + 8 * (if number_of_samples % max_samples_per_chunk = 0 then 1 else 2)
          + 4 * chunks.length) + (8 + data.length) := by
  simp only [output_length, write_aac_mp4_eq _ _ _ _ _ _ _ hsr hf,
    DummyWriter_bytes_written_write, List.length_append, aac_mp4_ftyp_length,
    aac_mp4_moov_written_length, aac_mp4_mdat_length]
  show 0 + _ = _
  omega

end Written

/-! ## The claims -/

/-- C1: with a nonzero sample rate and frame length and an output shorter than
2^32 octets, the output is some octets, then the `stco` box with its one
entry, then the eight octets of the `mdat` header, then `data`; the value of
that entry is the number of octets in front of `data`, so the output from that
offset on is exactly `data`. -/
theorem stco_entry_is_mdat_payload_offset (chunks : List u32) (data : List u8)
    (sample_rate number_of_samples max_samples_per_chunk : Nat) (ind : Indeterminate)
    (hsr : 0 < sample_rate) (hf : 0 < max_samples_per_chunk)
    (hlen : output_length chunks data sample_rate number_of_samples max_samples_per_chunk ind
      < 2 ^ 32) :
    ∃ (out : StreamAdapter) (before : List u8),
      write_aac_mp4 (⟨[]⟩ : StreamAdapter) chunks data sample_rate number_of_samples
        max_samples_per_chunk ind = Except.ok out
      ∧ out.stream = before
          ++ (serialize (aac_mp4_stbl chunks sample_rate number_of_samples
                max_samples_per_chunk ind).stco.write
          ++ (serialize (aac_mp4_mdat data).header.write ++ data))
      ∧ serialize (aac_mp4_stbl chunks sample_rate number_of_samples
            max_samples_per_chunk ind).stco.write
          = [0, 0, 0, 20, 115, 116, 99, 111, 0, 0, 0, 0, 0, 0, 0, 1]
            ++ (aac_mp4_chunk_offset chunks sample_rate number_of_samples
                  max_samples_per_chunk ind).octets
      ∧ (serialize (aac_mp4_mdat data).header.write).length = 8
      ∧ (aac_mp4_chunk_offset chunks sample_rate number_of_samples max_samples_per_chunk
            ind).to_uint32_t = before.length + 20 + 8
      ∧ out.stream.drop (aac_mp4_chunk_offset chunks sample_rate number_of_samples
            max_samples_per_chunk ind).to_uint32_t = data := by
  have hsr' : sample_rate ≠ 0 := by omega
  have hf' : max_samples_per_chunk ≠ 0 := by omega
  rw [output_length_eq chunks data sample_rate number_of_samples max_samples_per_chunk ind
    hsr' hf'] at hlen
  obtain ⟨p, hp⟩ := MoovBox_serialize_ends_with_stco
    (aac_mp4_moov_written chunks sample_rate number_of_samples max_samples_per_chunk ind)
  have hstco : (serialize (aac_mp4_stbl chunks sample_rate number_of_samples
      max_samples_per_chunk ind).stco.write).length = 20 := StcoAtom_length_serialize _
  have hplen : p.length + 20 = 615
      + 8 * (if number_of_samples % max_samples_per_chunk = 0 then 1 else 2)
      + 4 * chunks.length := by
    have h := aac_mp4_moov_written_length chunks sample_rate number_of_samples
      max_samples_per_chunk ind
    rw [hp, List.length_append] at h
    have h2 : (serialize (aac_mp4_moov_written chunks sample_rate number_of_samples
      max_samples_per_chunk ind).trak.mdia.minf.stbl.stco.write).length = 20 :=
      StcoAtom_length_serialize _
    omega
  have hoff : (aac_mp4_chunk_offset chunks sample_rate number_of_samples
      max_samples_per_chunk ind).to_uint32_t
      = (serialize aac_mp4_ftyp.write ++ p).length + 20 + 8 := by
    rw [aac_mp4_chunk_offset_eq, u32_to_new, aac_mp4_ftyp_size, aac_mp4_moov_compute_size,
      List.length_append, aac_mp4_ftyp_length]
    simp only [uint32_t]
    split at hlen <;> rename_i hk <;> simp only [hk, if_true, if_false] at hplen ⊢ <;> omega
  have hout : (serialize aac_mp4_ftyp.write
      ++ (serialize (aac_mp4_moov_written chunks sample_rate number_of_samples
            max_samples_per_chunk ind).write
      ++ serialize (aac_mp4_mdat data).write))
      = (serialize aac_mp4_ftyp.write ++ p)
          ++ (serialize (aac_mp4_stbl chunks sample_rate number_of_samples
                max_samples_per_chunk ind).stco.write
          ++ (serialize (aac_mp4_mdat data).header.write ++ data)) := by
    rw [hp, RefMdatBox_serialize_eq]
    simp only [List.append_assoc]
    rfl
  refine ⟨_, serialize aac_mp4_ftyp.write ++ p,
    write_aac_mp4_eq chunks data sample_rate number_of_samples max_samples_per_chunk ind _
      hsr' hf', ?_, ?_, AtomHeader_length_serialize _, hoff, ?_⟩
  · rw [StreamAdapter_stream_write, List.nil_append]
    exact hout
  · rw [StcoAtom_serialize_eq, AtomHeader_serialize_eq]
    rfl
  · rw [StreamAdapter_stream_write, List.nil_append, hout, hoff, ← List.append_assoc,
      ← List.append_assoc]
    apply List.drop_left'
    simp only [List.length_append, hstco, AtomHeader_length_serialize]

section Sizes

variable (chunks : List u32) (data : List u8)
  (sample_rate number_of_samples max_samples_per_chunk : Nat) (ind : Indeterminate)

theorem size_is_bytes_written_of (header : AtomHeader) (w : DummyWriter → DummyWriter)
    (l : List u8) (n : Nat) (hw : ∀ d, w d = ByteSink.write d l) (hl : l.length = n)
    (hs : header.size.to_uint32_t = n) : size_is_bytes_written header w := by
  rw [size_is_bytes_written, count_bytes_eq w l hw, hl, hs]

theorem aac_mp4_trak_size :
    (aac_mp4_moov_written chunks sample_rate number_of_samples max_samples_per_chunk
      ind).trak.header.size.to_uint32_t
      = (499 + 8 * (if number_of_samples % max_samples_per_chunk = 0 then 1 else 2)
          + 4 * chunks.length) % 2 ^ 32 := by
  show (TrakBox.compute (aac_mp4_moov chunks sample_rate number_of_samples max_samples_per_chunk
      ind).trak).header.size.to_uint32_t = _
  simp only [MoovBox_compute_size, MvhdAtom_compute_size, TrakBox_compute_size,
    TkhdAtom_compute_size, EdtsBox_compute_size, MdiaBox_compute_size, MdhdAtom_compute_size,
    HdlrAtom_compute_size, MinfBox_compute_size, SmhdAtom_compute_size, DinfBox_compute_size,
    StblBox_compute_size, SttsAtom_compute_size, StscAtom_compute_size, StszBox_compute_size,
    StcoAtom_compute_size, aac_mp4_moov_stsd, StsdBox_compute_size, aac_mp4_moov_stts_count,
    aac_mp4_moov_stsc_count, aac_mp4_moov_stsz_entries, aac_mp4_moov_dref_count]
  split <;> omega

theorem aac_mp4_trak_length :
    (serialize (aac_mp4_moov_written chunks sample_rate number_of_samples max_samples_per_chunk
      ind).trak.write).length
      = 499 + 8 * (if number_of_samples % max_samples_per_chunk = 0 then 1 else 2)
          + 4 * chunks.length := by
  have h : (serialize (TrakBox.compute
      (aac_mp4_moov chunks sample_rate number_of_samples max_samples_per_chunk
      ind).trak).write).length
      = 499 + 8 * (if number_of_samples % max_samples_per_chunk = 0 then 1 else 2)
          + 4 * chunks.length := by
    simp only [MoovBox_compute_length, MvhdAtom_length_serialize, TrakBox_compute_length,
    TkhdAtom_length_serialize, EdtsBox_compute_length, MdiaBox_compute_length,
    MdhdAtom_length_serialize, HdlrAtom_length_serialize, MinfBox_compute_length,
    SmhdAtom_length_serialize, DinfBox_compute_length, StblBox_compute_length,
    SttsAtom_compute_length, StscAtom_compute_length, StszBox_compute_length,
    StcoAtom_length_serialize, aac_mp4_moov_stsd, StsdBox_compute_length,
    aac_mp4_moov_stts_count, aac_mp4_moov_stsc_count, aac_mp4_moov_stsz_entries,
    aac_mp4_moov_elst_count]
    split <;> omega
  rw [← h]
  simp only [MoovBox_length_serialize, TrakBox_length_serialize, MdiaBox_length_serialize,
    MinfBox_length_serialize, StblBox_length_serialize, StcoAtom_length_serialize]
  rfl

theorem aac_mp4_mdia_size :
    (aac_mp4_moov_written chunks sample_rate number_of_samples max_samples_per_chunk
      ind).trak.mdia.header.size.to_uint32_t
      = (363 + 8 * (if number_of_samples % max_samples_per_chunk = 0 then 1 else 2)
          + 4 * chunks.length) % 2 ^ 32 := by
  show (MdiaBox.compute (aac_mp4_moov chunks sample_rate number_of_samples max_samples_per_chunk
      ind).trak.mdia).header.size.to_uint32_t = _
  simp only [MoovBox_compute_size, MvhdAtom_compute_size, TrakBox_compute_size,
    TkhdAtom_compute_size, EdtsBox_compute_size, MdiaBox_compute_size, MdhdAtom_compute_size,
    HdlrAtom_compute_size, MinfBox_compute_size, SmhdAtom_compute_size, DinfBox_compute_size,
    StblBox_compute_size, SttsAtom_compute_size, StscAtom_compute_size, StszBox_compute_size,
    StcoAtom_compute_size, aac_mp4_moov_stsd, StsdBox_compute_size, aac_mp4_moov_stts_count,
    aac_mp4_moov_stsc_count, aac_mp4_moov_stsz_entries, aac_mp4_moov_dref_count]
  split <;> omega

theorem aac_mp4_mdia_length :
    (serialize (aac_mp4_moov_written chunks sample_rate number_of_samples max_samples_per_chunk
      ind).trak.mdia.write).length
      = 363 + 8 * (if number_of_samples % max_samples_per_chunk = 0 then 1 else 2)
          + 4 * chunks.length := by
  have h : (serialize (MdiaBox.compute
      (aac_mp4_moov chunks sample_rate number_of_samples max_samples_per_chunk
      ind).trak.mdia).write).length
      = 363 + 8 * (if number_of_samples % max_samples_per_chunk = 0 then 1 else 2)
          + 4 * chunks.length := by
    simp only [MoovBox_compute_length, MvhdAtom_length_serialize, TrakBox_compute_length,
    TkhdAtom_length_serialize, EdtsBox_compute_length, MdiaBox_compute_length,
    MdhdAtom_length_serialize, HdlrAtom_length_serialize, MinfBox_compute_length,
    SmhdAtom_length_serialize, DinfBox_compute_length, StblBox_compute_length,
    SttsAtom_compute_length, StscAtom_compute_length, StszBox_compute_length,
    StcoAtom_length_serialize, aac_mp4_moov_stsd, StsdBox_compute_length,
    aac_mp4_moov_stts_count, aac_mp4_moov_stsc_count, aac_mp4_moov_stsz_entries,
    aac_mp4_moov_elst_count]
    split <;> omega
  rw [← h]
  simp only [MoovBox_length_serialize, TrakBox_length_serialize, MdiaBox_length_serialize,
    MinfBox_length_serialize, StblBox_length_serialize, StcoAtom_length_serialize]
  rfl

theorem aac_mp4_minf_size :
    (aac_mp4_moov_written chunks sample_rate number_of_samples max_samples_per_chunk
      ind).trak.mdia.minf.header.size.to_uint32_t
      = (278 + 8 * (if number_of_samples % max_samples_per_chunk = 0 then 1 else 2)
          + 4 * chunks.length) % 2 ^ 32 := by
  show (MinfBox.compute (aac_mp4_moov chunks sample_rate number_of_samples max_samples_per_chunk
      ind).trak.mdia.minf).header.size.to_uint32_t = _
  simp only [MoovBox_compute_size, MvhdAtom_compute_size, TrakBox_compute_size,
    TkhdAtom_compute_size, EdtsBox_compute_size, MdiaBox_compute_size, MdhdAtom_compute_size,
    HdlrAtom_compute_size, MinfBox_compute_size, SmhdAtom_compute_size, DinfBox_compute_size,
    StblBox_compute_size, SttsAtom_compute_size, StscAtom_compute_size, StszBox_compute_size,
    StcoAtom_compute_size, aac_mp4_moov_stsd, StsdBox_compute_size, aac_mp4_moov_stts_count,
    aac_mp4_moov_stsc_count, aac_mp4_moov_stsz_entries, aac_mp4_moov_dref_count]
  split <;> omega

theorem aac_mp4_minf_length :
    (serialize (aac_mp4_moov_written chunks sample_rate number_of_samples max_samples_per_chunk
      ind).trak.mdia.minf.write).length
      = 278 + 8 * (if number_of_samples % max_samples_per_chunk = 0 then 1 else 2)
          + 4 * chunks.length := by
  have h : (serialize (MinfBox.compute
      (aac_mp4_moov chunks sample_rate number_of_samples max_samples_per_chunk
      ind).trak.mdia.minf).write).length
      = 278 + 8 * (if number_of_samples % max_samples_per_chunk = 0 then 1 else 2)
          + 4 * chunks.length := by
    simp only [MoovBox_compute_length, MvhdAtom_length_serialize, TrakBox_compute_length,
    TkhdAtom_length_serialize, EdtsBox_compute_length, MdiaBox_compute_length,
    MdhdAtom_length_serialize, HdlrAtom_length_serialize, MinfBox_compute_length,
    SmhdAtom_length_serialize, DinfBox_compute_length, StblBox_compute_length,
    SttsAtom_compute_length, StscAtom_compute_length, StszBox_compute_length,
    StcoAtom_length_serialize, aac_mp4_moov_stsd, StsdBox_compute_length,
    aac_mp4_moov_stts_count, aac_mp4_moov_stsc_count, aac_mp4_moov_stsz_entries,
    aac_mp4_moov_elst_count]
    split <;> omega
  rw [← h]
  simp only [MoovBox_length_serialize, TrakBox_length_serialize, MdiaBox_length_serialize,
    MinfBox_length_serialize, StblBox_length_serialize, StcoAtom_length_serialize]
  rfl

theorem aac_mp4_stbl_size :
    (aac_mp4_moov_written chunks sample_rate number_of_samples max_samples_per_chunk
      ind).trak.mdia.minf.stbl.header.size.to_uint32_t
      = (218 + 8 * (if number_of_samples % max_samples_per_chunk = 0 then 1 else 2)
          + 4 * chunks.length) % 2 ^ 32 := by
  show (StblBox.compute (aac_mp4_moov chunks sample_rate number_of_samples max_samples_per_chunk
      ind).trak.mdia.minf.stbl).header.size.to_uint32_t = _
  simp only [MoovBox_compute_size, MvhdAtom_compute_size, TrakBox_compute_size,
    TkhdAtom_compute_size, EdtsBox_compute_size, MdiaBox_compute_size, MdhdAtom_compute_size,
    HdlrAtom_compute_size, MinfBox_compute_size, SmhdAtom_compute_size, DinfBox_compute_size,
    StblBox_compute_size, SttsAtom_compute_size, StscAtom_compute_size, StszBox_compute_size,
    StcoAtom_compute_size, aac_mp4_moov_stsd, StsdBox_compute_size, aac_mp4_moov_stts_count,
    aac_mp4_moov_stsc_count, aac_mp4_moov_stsz_entries, aac_mp4_moov_dref_count]
  split <;> omega

theorem aac_mp4_stbl_length :
    (serialize (aac_mp4_moov_written chunks sample_rate number_of_samples max_samples_per_chunk
      ind).trak.mdia.minf.stbl.write).length
      = 218 + 8 * (if number_of_samples % max_samples_per_chunk = 0 then 1 else 2)
          + 4 * chunks.length := by
  have h : (serialize (StblBox.compute
      (aac_mp4_moov chunks sample_rate number_of_samples max_samples_per_chunk
      ind).trak.mdia.minf.stbl).write).length
      = 218 + 8 * (if number_of_samples % max_samples_per_chunk = 0 then 1 else 2)
          + 4 * chunks.length := by
    simp only [MoovBox_compute_length, MvhdAtom_length_serialize, TrakBox_compute_length,
    TkhdAtom_length_serialize, EdtsBox_compute_length, MdiaBox_compute_length,
    MdhdAtom_length_serialize, HdlrAtom_length_serialize, MinfBox_compute_length,
    SmhdAtom_length_serialize, DinfBox_compute_length, StblBox_compute_length,
    SttsAtom_compute_length, StscAtom_compute_length, StszBox_compute_length,
    StcoAtom_length_serialize, aac_mp4_moov_stsd, StsdBox_compute_length,
    aac_mp4_moov_stts_count, aac_mp4_moov_stsc_count, aac_mp4_moov_stsz_entries,
    aac_mp4_moov_elst_count]
    split <;> omega
  rw [← h]
  simp only [MoovBox_length_serialize, TrakBox_length_serialize, MdiaBox_length_serialize,
    MinfBox_length_serialize, StblBox_length_serialize, StcoAtom_length_serialize]
  rfl

end Sizes

/-- C2: with a nonzero sample rate and frame length and an output shorter than
2^32 octets, every box of the tree that `write_aac_mp4` serializes (`ftyp`,
`moov` and all its descendants, `mdat`) has a size field equal to the number
of octets its `write` hands to a `DummyWriter`. -/
theorem size_fields_equal_bytes_written (chunks : List u32) (data : List u8)
    (sample_rate number_of_samples max_samples_per_chunk : Nat) (ind : Indeterminate)
    (hsr : 0 < sample_rate) (hf : 0 < max_samples_per_chunk)
    (hlen : output_length chunks data sample_rate number_of_samples max_samples_per_chunk ind
      < 2 ^ 32) :
    let ftyp := aac_mp4_ftyp
    let moov := aac_mp4_moov_written chunks sample_rate number_of_samples
      max_samples_per_chunk ind
    let trak := moov.trak
    let mdia := trak.mdia
    let minf := mdia.minf
    let dref := minf.dinf.dref
    let stbl := minf.stbl
    let mdat := aac_mp4_mdat data
    size_is_bytes_written ftyp.header ftyp.write
    ∧ size_is_bytes_written moov.header moov.write
    ∧ size_is_bytes_written moov.mvhd.header moov.mvhd.write
    ∧ size_is_bytes_written trak.header trak.write
    ∧ size_is_bytes_written trak.tkhd.header trak.tkhd.write
    ∧ size_is_bytes_written trak.edts.header trak.edts.write
    ∧ size_is_bytes_written trak.edts.elst.header trak.edts.elst.write
    ∧ size_is_bytes_written mdia.header mdia.write
    ∧ size_is_bytes_written mdia.mdhd.header mdia.mdhd.write
    ∧ size_is_bytes_written mdia.hdlr.header mdia.hdlr.write
    ∧ size_is_bytes_written minf.header minf.write
    ∧ size_is_bytes_written minf.smhd.header minf.smhd.write
    ∧ size_is_bytes_written minf.dinf.header minf.dinf.write
    ∧ size_is_bytes_written dref.header dref.write
    ∧ (dref.entry_count.to_uint32_t = 1
        ∧ ∀ url ∈ dref.data_entries.elems, size_is_bytes_written url.header url.write)
    ∧ size_is_bytes_written stbl.header stbl.write
    ∧ size_is_bytes_written stbl.stsd.header.header stbl.stsd.write
    ∧ (stbl.stsd.sample_description_entries.length = 1
        ∧ ∀ mp4a ∈ stbl.stsd.sample_description_entries,
          size_is_bytes_written mp4a.header.header mp4a.write
          ∧ size_is_bytes_written mp4a.esds.header mp4a.esds.write
          ∧ size_is_bytes_written mp4a.btrt.header mp4a.btrt.write)
    ∧ size_is_bytes_written stbl.stts.header stbl.stts.write
    ∧ size_is_bytes_written stbl.stsc.header stbl.stsc.write
    ∧ size_is_bytes_written stbl.stsz.header.header stbl.stsz.write
    ∧ size_is_bytes_written stbl.stco.header stbl.stco.write
    ∧ size_is_bytes_written mdat.header mdat.write := by
  intro ftyp moov trak mdia minf dref stbl mdat
  have hsr' : sample_rate ≠ 0 := by omega
  have hf' : max_samples_per_chunk ≠ 0 := by omega
  rw [output_length_eq chunks data sample_rate number_of_samples max_samples_per_chunk ind
    hsr' hf'] at hlen
  have hk : (if number_of_samples % max_samples_per_chunk = 0 then 1 else 2) ≤ 2 := by
    split <;> omega
  have h_ftyp : size_is_bytes_written ftyp.header ftyp.write :=
    size_is_bytes_written_of _ _ _ 24 (fun d => FtypAtom_write_eq _ d) aac_mp4_ftyp_length
      aac_mp4_ftyp_size
  have h_moov : size_is_bytes_written moov.header moov.write := by
    refine size_is_bytes_written_of _ _ _ _ (fun d => MoovBox_write_eq _ d)
      (aac_mp4_moov_written_length chunks sample_rate number_of_samples max_samples_per_chunk ind) ?_
    rw [show moov.header.size.to_uint32_t = _ from aac_mp4_moov_written_size chunks sample_rate number_of_samples max_samples_per_chunk ind]
    omega
  have h_moov_mvhd : size_is_bytes_written moov.mvhd.header moov.mvhd.write :=
    size_is_bytes_written_of _ _ _ 108 (fun d => MvhdAtom_write_eq _ d)
      (MvhdAtom_length_serialize _) (MvhdAtom_compute_size
          (aac_mp4_moov chunks sample_rate number_of_samples max_samples_per_chunk ind).mvhd)
  have h_trak : size_is_bytes_written trak.header trak.write := by
    refine size_is_bytes_written_of _ _ _ _ (fun d => TrakBox_write_eq _ d)
      (aac_mp4_trak_length chunks sample_rate number_of_samples max_samples_per_chunk ind) ?_
    rw [show trak.header.size.to_uint32_t = _ from aac_mp4_trak_size chunks sample_rate number_of_samples max_samples_per_chunk ind]
    omega
  have h_trak_tkhd : size_is_bytes_written trak.tkhd.header trak.tkhd.write :=
    size_is_bytes_written_of _ _ _ 92 (fun d => TkhdAtom_write_eq _ d)
      (TkhdAtom_length_serialize _) (TkhdAtom_compute_size
          (aac_mp4_moov chunks sample_rate number_of_samples max_samples_per_chunk ind).trak.tkhd)
  have h_trak_edts : size_is_bytes_written trak.edts.header trak.edts.write := by
    refine size_is_bytes_written_of _ _ _ 36 (fun d => EdtsBox_write_eq _ d) ?_ ?_
    · show (serialize (EdtsBox.compute
        (aac_mp4_moov chunks sample_rate number_of_samples max_samples_per_chunk ind).trak.edts).write).length = _
      simp only [EdtsBox_compute_length, EdtsBox_compute_length, aac_mp4_moov_elst_count,
        aac_mp4_moov_stsc_count, aac_mp4_moov_stsz_entries, aac_mp4_moov_stts_count,
        aac_mp4_moov_stsd, StsdBox_compute_length]
      try omega
    · show (EdtsBox.compute
        (aac_mp4_moov chunks sample_rate number_of_samples max_samples_per_chunk ind).trak.edts).header.size.to_uint32_t = _
      simp only [EdtsBox_compute_size, ElstAtom_compute_size, DrefBox_compute_size,
        aac_mp4_moov_dref_count, aac_mp4_moov_stsc_count, aac_mp4_moov_stsz_entries,
        aac_mp4_moov_stts_count, aac_mp4_moov_stsd, StsdBox_compute_size]
      try omega
  have h_trak_edts_elst : size_is_bytes_written trak.edts.elst.header trak.edts.elst.write := by
    refine size_is_bytes_written_of _ _ _ 28 (fun d => ElstAtom_write_eq _ d) ?_ ?_
    · show (serialize (ElstAtom.compute
        (aac_mp4_moov chunks sample_rate number_of_samples max_samples_per_chunk ind).trak.edts.elst).write).length = _
      simp only [ElstAtom_compute_length, EdtsBox_compute_length, aac_mp4_moov_elst_count,
        aac_mp4_moov_stsc_count, aac_mp4_moov_stsz_entries, aac_mp4_moov_stts_count,
        aac_mp4_moov_stsd, StsdBox_compute_length]
      try omega
    · show (ElstAtom.compute
        (aac_mp4_moov chunks sample_rate number_of_samples max_samples_per_chunk ind).trak.edts.elst).header.size.to_uint32_t = _
      simp only [ElstAtom_compute_size, ElstAtom_compute_size, DrefBox_compute_size,
        aac_mp4_moov_dref_count, aac_mp4_moov_stsc_count, aac_mp4_moov_stsz_entries,
        aac_mp4_moov_stts_count, aac_mp4_moov_stsd, StsdBox_compute_size]
      try omega
  have h_mdia : size_is_bytes_written mdia.header mdia.write := by
    refine size_is_bytes_written_of _ _ _ _ (fun d => MdiaBox_write_eq _ d)
      (aac_mp4_mdia_length chunks sample_rate number_of_samples max_samples_per_chunk ind) ?_
    rw [show mdia.header.size.to_uint32_t = _ from aac_mp4_mdia_size chunks sample_rate number_of_samples max_samples_per_chunk ind]
    omega
  have h_mdia_mdhd : size_is_bytes_written mdia.mdhd.header mdia.mdhd.write :=
    size_is_bytes_written_of _ _ _ 32 (fun d => MdhdAtom_write_eq _ d)
      (MdhdAtom_length_serialize _) (MdhdAtom_compute_size
          (aac_mp4_moov chunks sample_rate number_of_samples max_samples_per_chunk ind).trak.mdia.mdhd)
  have h_mdia_hdlr : size_is_bytes_written mdia.hdlr.header mdia.hdlr.write :=
    size_is_bytes_written_of _ _ _ 45 (fun d => HdlrAtom_write_eq _ d)
      (HdlrAtom_length_serialize _) (HdlrAtom_compute_size
          (aac_mp4_moov chunks sample_rate number_of_samples max_samples_per_chunk ind).trak.mdia.hdlr)
  have h_minf : size_is_bytes_written minf.header minf.write := by
    refine size_is_bytes_written_of _ _ _ _ (fun d => MinfBox_write_eq _ d)
      (aac_mp4_minf_length chunks sample_rate number_of_samples max_samples_per_chunk ind) ?_
    rw [show minf.header.size.to_uint32_t = _ from aac_mp4_minf_size chunks sample_rate number_of_samples max_samples_per_chunk ind]
    omega
  have h_minf_smhd : size_is_bytes_written minf.smhd.header minf.smhd.write :=
    size_is_bytes_written_of _ _ _ 16 (fun d => SmhdAtom_write_eq _ d)
      (SmhdAtom_length_serialize _) (SmhdAtom_compute_size
          (aac_mp4_moov chunks sample_rate number_of_samples max_samples_per_chunk ind).trak.mdia.minf.smhd)
  have h_minf_dinf : size_is_bytes_written minf.dinf.header minf.dinf.write := by
    refine size_is_bytes_written_of _ _ _ 36 (fun d => DinfBox_write_eq _ d) ?_ ?_
    · show (serialize (DinfBox.compute
        (aac_mp4_moov chunks sample_rate number_of_samples max_samples_per_chunk ind).trak.mdia.minf.dinf).write).length = _
      simp only [DinfBox_compute_length, EdtsBox_compute_length, aac_mp4_moov_elst_count,
        aac_mp4_moov_stsc_count, aac_mp4_moov_stsz_entries, aac_mp4_moov_stts_count,
        aac_mp4_moov_stsd, StsdBox_compute_length]
      try omega
    · show (DinfBox.compute
        (aac_mp4_moov chunks sample_rate number_of_samples max_samples_per_chunk ind).trak.mdia.minf.dinf).header.size.to_uint32_t = _
      simp only [DinfBox_compute_size, ElstAtom_compute_size, DrefBox_compute_size,
        aac_mp4_moov_dref_count, aac_mp4_moov_stsc_count, aac_mp4_moov_stsz_entries,
        aac_mp4_moov_stts_count, aac_mp4_moov_stsd, StsdBox_compute_size]
      try omega
  have h_dref : size_is_bytes_written dref.header dref.write := by
    refine size_is_bytes_written_of _ _ _ 28 (fun d => DrefBox_write_eq _ d) ?_ ?_
    · show (serialize (DrefBox.compute
        (aac_mp4_moov chunks sample_rate number_of_samples max_samples_per_chunk ind).trak.mdia.minf.dinf.dref).write).length = _
      simp only [DrefBox_compute_length, EdtsBox_compute_length, aac_mp4_moov_elst_count,
        aac_mp4_moov_stsc_count, aac_mp4_moov_stsz_entries, aac_mp4_moov_stts_count,
        aac_mp4_moov_stsd, StsdBox_compute_length]
      try omega
    · show (DrefBox.compute
        (aac_mp4_moov chunks sample_rate number_of_samples max_samples_per_chunk ind).trak.mdia.minf.dinf.dref).header.size.to_uint32_t = _
      simp only [DrefBox_compute_size, ElstAtom_compute_size, DrefBox_compute_size,
        aac_mp4_moov_dref_count, aac_mp4_moov_stsc_count, aac_mp4_moov_stsz_entries,
        aac_mp4_moov_stts_count, aac_mp4_moov_stsd, StsdBox_compute_size]
      try omega
  have h_dref_count : dref.entry_count.to_uint32_t = 1 := by
    show (u32.new 1).to_uint32_t = 1
    rw [u32_to_new]
    rfl
  have h_url : ∀ url ∈ dref.data_entries.elems,
      size_is_bytes_written url.header url.write := by
    intro url hurl
    have hlist : dref.data_entries.elems
        = [DataEntry.compute ⟨{ AtomHeader.zero with type := BoxType.new "url " }, uint8_t 1,
            u24.new 0⟩] := rfl
    rw [hlist, List.mem_singleton] at hurl
    subst hurl
    exact size_is_bytes_written_of _ _ _ 12 (fun d => DataEntry_write_eq _ d)
      (DataEntry_length_serialize _) (DataEntry_compute_size _)
  have h_stbl : size_is_bytes_written stbl.header stbl.write := by
    refine size_is_bytes_written_of _ _ _ _ (fun d => StblBox_write_eq _ d)
      (aac_mp4_stbl_length chunks sample_rate number_of_samples max_samples_per_chunk ind) ?_
    rw [show stbl.header.size.to_uint32_t = _ from aac_mp4_stbl_size chunks sample_rate number_of_samples max_samples_per_chunk ind]
    omega
  have h_stbl_stsd : size_is_bytes_written stbl.stsd.header.header stbl.stsd.write := by
    refine size_is_bytes_written_of _ _ _ 126 (fun d => StsdBox_write_eq _ d) ?_ ?_
    · show (serialize (StsdBox.compute
        (aac_mp4_moov chunks sample_rate number_of_samples max_samples_per_chunk ind).trak.mdia.minf.stbl.stsd).write).length = _
      simp only [StsdBox_compute_length, EdtsBox_compute_length, aac_mp4_moov_elst_count,
        aac_mp4_moov_stsc_count, aac_mp4_moov_stsz_entries, aac_mp4_moov_stts_count,
        aac_mp4_moov_stsd, StsdBox_compute_length]
      try omega
    · show (StsdBox.compute
        (aac_mp4_moov chunks sample_rate number_of_samples max_samples_per_chunk ind).trak.mdia.minf.stbl.stsd).header.header.size.to_uint32_t = _
      simp only [StsdBox_compute_size, ElstAtom_compute_size, DrefBox_compute_size,
        aac_mp4_moov_dref_count, aac_mp4_moov_stsc_count, aac_mp4_moov_stsz_entries,
        aac_mp4_moov_stts_count, aac_mp4_moov_stsd, StsdBox_compute_size]
      try omega
  have h_entries : stbl.stsd.sample_description_entries
      = [(aac_mp4_sd sample_rate ind).compute] := rfl
  have h_mp4a : ∀ mp4a ∈ stbl.stsd.sample_description_entries,
      size_is_bytes_written mp4a.header.header mp4a.write
      ∧ size_is_bytes_written mp4a.esds.header mp4a.esds.write
      ∧ size_is_bytes_written mp4a.btrt.header mp4a.btrt.write := by
    intro mp4a hmp4a
    rw [h_entries, List.mem_singleton] at hmp4a
    subst hmp4a
    exact ⟨size_is_bytes_written_of _ _ _ 110 (fun d => SampleDescriptionEntry_write_eq _ d)
        (SampleDescriptionEntry_length_serialize _) (SampleDescriptionEntry_compute_size _),
      size_is_bytes_written_of _ _ _ 54 (fun d => EsdsAtom_write_eq _ d)
        (EsdsAtom_length_serialize _) (EsdsAtom_compute_size (aac_mp4_sd sample_rate ind).esds),
      size_is_bytes_written_of _ _ _ 20 (fun d => BtrtAtom_write_eq _ d)
        (BtrtAtom_length_serialize _) (BtrtAtom_compute_size (aac_mp4_sd sample_rate ind).btrt)⟩
  have h_stts : size_is_bytes_written stbl.stts.header stbl.stts.write := by
    refine size_is_bytes_written_of _ _ _
      (16 + (if number_of_samples % max_samples_per_chunk = 0 then 1 else 2) * 8)
      (fun d => SttsAtom_write_eq _ d) ?_ ?_
    · show (serialize (SttsAtom.compute
        (aac_mp4_moov chunks sample_rate number_of_samples max_samples_per_chunk ind).trak.mdia.minf.stbl.stts).write).length = _
      rw [SttsAtom_compute_length, aac_mp4_moov_stts_count]
      omega
    · show (SttsAtom.compute
        (aac_mp4_moov chunks sample_rate number_of_samples max_samples_per_chunk ind).trak.mdia.minf.stbl.stts).header.size.to_uint32_t = _
      rw [SttsAtom_compute_size, aac_mp4_moov_stts_count]
      omega
  have h_stbl_stsc : size_is_bytes_written stbl.stsc.header stbl.stsc.write := by
    refine size_is_bytes_written_of _ _ _ 28 (fun d => StscAtom_write_eq _ d) ?_ ?_
    · show (serialize (StscAtom.compute
        (aac_mp4_moov chunks sample_rate number_of_samples max_samples_per_chunk ind).trak.mdia.minf.stbl.stsc).write).length = _
      simp only [StscAtom_compute_length, EdtsBox_compute_length, aac_mp4_moov_elst_count,
        aac_mp4_moov_stsc_count, aac_mp4_moov_stsz_entries, aac_mp4_moov_stts_count,
        aac_mp4_moov_stsd, StsdBox_compute_length]
      try omega
    · show (StscAtom.compute
        (aac_mp4_moov chunks sample_rate number_of_samples max_samples_per_chunk ind).trak.mdia.minf.stbl.stsc).header.size.to_uint32_t = _
      simp only [StscAtom_compute_size, ElstAtom_compute_size, DrefBox_compute_size,
        aac_mp4_moov_dref_count, aac_mp4_moov_stsc_count, aac_mp4_moov_stsz_entries,
        aac_mp4_moov_stts_count, aac_mp4_moov_stsd, StsdBox_compute_size]
      try omega
  have h_stsz : size_is_bytes_written stbl.stsz.header.header stbl.stsz.write := by
    refine size_is_bytes_written_of _ _ _ (20 + chunks.length * 4)
      (fun d => StszBox_write_eq _ d) ?_ ?_
    · show (serialize (StszBox.compute
        (aac_mp4_moov chunks sample_rate number_of_samples max_samples_per_chunk ind).trak.mdia.minf.stbl.stsz).write).length = _
      rw [StszBox_compute_length, aac_mp4_moov_stsz_entries]
    · show (StszBox.compute
        (aac_mp4_moov chunks sample_rate number_of_samples max_samples_per_chunk ind).trak.mdia.minf.stbl.stsz).header.header.size.to_uint32_t = _
      rw [StszBox_compute_size, aac_mp4_moov_stsz_entries]
      omega
  have h_stco : size_is_bytes_written stbl.stco.header stbl.stco.write :=
    size_is_bytes_written_of _ _ _ 20 (fun d => StcoAtom_write_eq _ d)
      (StcoAtom_length_serialize _)
      (StcoAtom_compute_size (aac_mp4_moov chunks sample_rate number_of_samples
        max_samples_per_chunk ind).trak.mdia.minf.stbl.stco)
  have h_mdat : size_is_bytes_written mdat.header mdat.write := by
    refine size_is_bytes_written_of _ _ _ _ (fun d => RefMdatBox_write_eq _ d)
      (aac_mp4_mdat_length data) ?_
    rw [show mdat.header.size.to_uint32_t = _ from RefMdatBox_compute_size (RefMdatBox.new data)]
    show (8 + data.length) % 2 ^ 32 = 8 + data.length
    omega
  exact ⟨h_ftyp, h_moov, h_moov_mvhd, h_trak, h_trak_tkhd, h_trak_edts, h_trak_edts_elst, h_mdia,
    h_mdia_mdhd, h_mdia_hdlr, h_minf, h_minf_smhd, h_minf_dinf, h_dref, ⟨h_dref_count, h_url⟩,
    h_stbl, h_stbl_stsd, ⟨rfl, h_mp4a⟩, h_stts, h_stbl_stsc, h_stsz, h_stco, h_mdat⟩

set_option maxRecDepth 8192 in
/-- C1 at two frames, 2048 samples, frames of 1024 samples and a payload of 238 octets. -/
theorem stco_entry_is_mdat_payload_offset_witness :
    (0 < 16000 ∧ 0 < 1024
      ∧ output_length two_frames payload_238 16000 2048 1024 zero_indeterminate < 2 ^ 32)
    ∧ ∃ out : StreamAdapter,
        write_aac_mp4 (⟨[]⟩ : StreamAdapter) two_frames payload_238 16000 2048 1024
          zero_indeterminate = Except.ok out
        ∧ out.stream.drop (aac_mp4_chunk_offset two_frames 16000 2048 1024
            zero_indeterminate).to_uint32_t = payload_238 :=
  ⟨⟨by decide, by decide, by decide⟩,
    match stco_entry_is_mdat_payload_offset two_frames payload_238 16000 2048 1024
      zero_indeterminate (by decide) (by decide) (by decide) with
    | ⟨out, _, h1, _, _, _, _, h6⟩ => ⟨out, h1, h6⟩⟩

set_option maxRecDepth 8192 in
/-- C2 at the same input, for `moov` and `mdat`. -/
theorem size_fields_equal_bytes_written_witness :
    (0 < 16000 ∧ 0 < 1024
      ∧ output_length two_frames payload_238 16000 2048 1024 zero_indeterminate < 2 ^ 32)
    ∧ size_is_bytes_written
        (aac_mp4_moov_written two_frames 16000 2048 1024 zero_indeterminate).header
        (aac_mp4_moov_written two_frames 16000 2048 1024 zero_indeterminate).write
    ∧ size_is_bytes_written (aac_mp4_mdat payload_238).header (aac_mp4_mdat payload_238).write :=
  ⟨⟨by decide, by decide, by decide⟩,
    (size_fields_equal_bytes_written two_frames payload_238 16000 2048 1024 zero_indeterminate
      (by decide) (by decide) (by decide)).2.1,
    (size_fields_equal_bytes_written two_frames payload_238 16000 2048 1024 zero_indeterminate
      (by decide) (by decide) (by decide)).2.2.2.2.2.2.2.2.2.2.2.2.2.2.2.2.2.2.2.2.2.2⟩

/-- C3, as stated, fails: with 2^30 - 156 frames the `moov` size field holds
2^32 - 1, the `ftyp` size field 24, and the `stco` entry holds 31, not
24 + (2^32 - 1) + 8. -/
theorem stco_entry_sum_counterexample :
    aac_mp4_ftyp.header.size.to_uint32_t = 24
    ∧ (aac_mp4_moov_written frames_2_30 16000 2048 1024
        zero_indeterminate).header.size.to_uint32_t = 4294967295
    ∧ (aac_mp4_chunk_offset frames_2_30 16000 2048 1024 zero_indeterminate).to_uint32_t = 31
    ∧ (aac_mp4_chunk_offset frames_2_30 16000 2048 1024 zero_indeterminate).to_uint32_t
        ≠ aac_mp4_ftyp.header.size.to_uint32_t
          + (aac_mp4_moov_written frames_2_30 16000 2048 1024
              zero_indeterminate).header.size.to_uint32_t + 8 := by
  have hlen : frames_2_30.length = 1073741668 := List.length_replicate _ _
  have hmoov : (aac_mp4_moov_written frames_2_30 16000 2048 1024
      zero_indeterminate).header.size.to_uint32_t = 4294967295 := by
    rw [aac_mp4_moov_written_size, hlen]
    decide
  have hoff : (aac_mp4_chunk_offset frames_2_30 16000 2048 1024
      zero_indeterminate).to_uint32_t = 31 := by
    rw [aac_mp4_chunk_offset_eq, u32_to_new, aac_mp4_ftyp_size, aac_mp4_moov_compute_size, hlen]
    decide
  refine ⟨aac_mp4_ftyp_size, hmoov, hoff, ?_⟩
  rw [hoff, hmoov, aac_mp4_ftyp_size]
  decide

/-- C3, amended: the `stco` entry that is serialized is the sum of the `ftyp`
size field, the `moov` size field and 8 reduced modulo 2^32; the three values
are the ones found in the output, the two size fields as the first four octets
of their boxes and the entry as the last four octets of `moov`. -/
theorem stco_entry_is_sum_mod (chunks : List u32) (data : List u8)
    (sample_rate number_of_samples max_samples_per_chunk : Nat) (ind : Indeterminate)
    (hsr : 0 < sample_rate) (hf : 0 < max_samples_per_chunk) :
    let ftyp := aac_mp4_ftyp
    let moov := aac_mp4_moov_written chunks sample_rate number_of_samples
      max_samples_per_chunk ind
    let entry := aac_mp4_chunk_offset chunks sample_rate number_of_samples
      max_samples_per_chunk ind
    (∃ out : StreamAdapter,
      write_aac_mp4 (⟨[]⟩ : StreamAdapter) chunks data sample_rate number_of_samples
        max_samples_per_chunk ind = Except.ok out
      ∧ out.stream = serialize ftyp.write
          ++ (serialize moov.write ++ serialize (aac_mp4_mdat data).write))
    ∧ (serialize ftyp.write).take 4 = ftyp.header.size.octets
    ∧ (serialize moov.write).take 4 = moov.header.size.octets
    ∧ (∃ before : List u8, serialize moov.write
        = before ++ ([0, 0, 0, 20, 115, 116, 99, 111, 0, 0, 0, 0, 0, 0, 0, 1] ++ entry.octets))
    ∧ entry.to_uint32_t
        = (ftyp.header.size.to_uint32_t + moov.header.size.to_uint32_t + 8) % 2 ^ 32
    ∧ (ftyp.header.size.to_uint32_t + moov.header.size.to_uint32_t + 8 < 2 ^ 32 →
        entry.to_uint32_t = ftyp.header.size.to_uint32_t + moov.header.size.to_uint32_t + 8) := by
  intro ftyp moov entry
  have hsr' : sample_rate ≠ 0 := by omega
  have hf' : max_samples_per_chunk ≠ 0 := by omega
  have hentry : entry.to_uint32_t
      = (ftyp.header.size.to_uint32_t + moov.header.size.to_uint32_t + 8) % 2 ^ 32 := by
    show (aac_mp4_chunk_offset chunks sample_rate number_of_samples max_samples_per_chunk
      ind).to_uint32_t = _
    rw [aac_mp4_chunk_offset_eq, u32_to_new]
    show _ = (aac_mp4_ftyp.header.size.to_uint32_t
      + (aac_mp4_moov chunks sample_rate number_of_samples max_samples_per_chunk
          ind).compute.header.size.to_uint32_t + 8) % 2 ^ 32
    simp only [uint32_t]
    omega
  refine ⟨⟨_, write_aac_mp4_eq chunks data sample_rate number_of_samples
      max_samples_per_chunk ind _ hsr' hf', ?_⟩, ?_, ?_, ?_, hentry, ?_⟩
  · rw [StreamAdapter_stream_write, List.nil_append]
  · rfl
  · rw [MoovBox_serialize_eq, AtomHeader_serialize_eq]
    rfl
  · obtain ⟨p, hp⟩ := MoovBox_serialize_ends_with_stco moov
    refine ⟨p, ?_⟩
    rw [hp, StcoAtom_serialize_eq, AtomHeader_serialize_eq]
    rfl
  · intro h
    rw [hentry]
    exact Nat.mod_eq_of_lt h

/-- C3 as amended, at two frames and a payload of 238 octets. -/
theorem stco_entry_is_sum_mod_witness :
    (0 < 16000 ∧ 0 < 1024)
    ∧ (aac_mp4_chunk_offset two_frames 16000 2048 1024 zero_indeterminate).to_uint32_t
        = (aac_mp4_ftyp.header.size.to_uint32_t
            + (aac_mp4_moov_written two_frames 16000 2048 1024
                zero_indeterminate).header.size.to_uint32_t + 8) % 2 ^ 32 :=
  ⟨⟨by decide, by decide⟩,
    (stco_entry_is_sum_mod two_frames payload_238 16000 2048 1024 zero_indeterminate
      (by decide) (by decide)).2.2.2.2.1⟩

/-- C4: building a `u16`, `u24` or `u32` from a value that fits its width and
converting it back returns the value. -/
theorem codec_round_trip_16_24_32 (v : Nat) :
    (v < 2 ^ 16 → (u16.new v).to_uint16_t = v)
    ∧ (v < 2 ^ 24 → (u24.new v).to_uint32_t = v)
    ∧ (v < 2 ^ 32 → (u32.new v).to_uint32_t = v) := by
  refine ⟨fun h => ?_, fun h => ?_, fun h => ?_⟩
  · rw [u16_to_new, Nat.mod_eq_of_lt h]
  · rw [u24_to_new, Nat.mod_eq_of_lt h]
  · rw [u32_to_new, Nat.mod_eq_of_lt h]

/-- C4 at one value of each width. -/
theorem codec_round_trip_16_24_32_witness :
    (0xABCD < 2 ^ 16 ∧ (u16.new 0xABCD).to_uint16_t = 0xABCD)
    ∧ (0xABCDEF < 2 ^ 24 ∧ (u24.new 0xABCDEF).to_uint32_t = 0xABCDEF)
    ∧ (0xFFFFFFFF < 2 ^ 32 ∧ (u32.new 0xFFFFFFFF).to_uint32_t = 0xFFFFFFFF) :=
  ⟨⟨by decide, (codec_round_trip_16_24_32 0xABCD).1 (by decide)⟩,
    ⟨by decide, (codec_round_trip_16_24_32 0xABCDEF).2.1 (by decide)⟩,
    ⟨by decide, (codec_round_trip_16_24_32 0xFFFFFFFF).2.2 (by decide)⟩⟩

/-- C5 fails on the code: the only conversion of `u64` returns the upper 32
bits of the encoded value, so `u64(1)` converts to 0; only 0 survives the
round trip. -/
theorem u64_conversion_returns_upper_half :
    (u64.new 1).to_uint32_t = 0
    ∧ (u64.new 1).to_uint32_t ≠ 1
    ∧ (∀ v : Nat, (u64.new v).to_uint32_t = v % 2 ^ 64 / 2 ^ 32)
    ∧ (∀ v : Nat, v < 2 ^ 64 → ((u64.new v).to_uint32_t = v ↔ v = 0)) := by
  refine ⟨by decide, by decide, u64_to_new, fun v hv => ?_⟩
  rw [u64_to_new, Nat.mod_eq_of_lt hv]
  omega

/-- C6, as stated, fails in its last part: `u24` built from the 32-bit value
2^24 holds the octets 0, 0, 0, which denote 0. -/
theorem u24_from_32_bit_counterexample :
    (16777216 < 2 ^ 32)
    ∧ (write_u24 (⟨[]⟩ : StreamAdapter) (u24.new 16777216)).stream = [0, 0, 0]
    ∧ big_endian_value [0, 0, 0] ≠ 16777216
    ∧ (u24.new 16777216).to_uint32_t ≠ 16777216 := by
  decide

/-- C6, amended: for a value that fits the width, `write` hands the sink
exactly 2, 3, 4 or 8 octets, octet `i` being `(v >> (w - 8 * (i + 1))) mod 256`,
and the octets denote `v` most significant first; `u24` built from a 32-bit
value denotes that value modulo 2^24. -/
theorem encoding_is_big_endian (v : Nat) :
    (v < 2 ^ 16 → ∀ (S : Type) [ByteSink S] (s : S),
      write_u16 s (u16.new v) = ByteSink.write s [v >>> 8 % 256, v >>> 0 % 256]
      ∧ big_endian_value [v >>> 8 % 256, v >>> 0 % 256] = v)
    ∧ (v < 2 ^ 24 → ∀ (S : Type) [ByteSink S] (s : S),
      write_u24 s (u24.new v)
        = ByteSink.write s [v >>> 16 % 256, v >>> 8 % 256, v >>> 0 % 256]
      ∧ big_endian_value [v >>> 16 % 256, v >>> 8 % 256, v >>> 0 % 256] = v)
    ∧ (v < 2 ^ 32 → ∀ (S : Type) [ByteSink S] (s : S),
      write_u32 s (u32.new v)
        = ByteSink.write s [v >>> 24 % 256, v >>> 16 % 256, v >>> 8 % 256, v >>> 0 % 256]
      ∧ big_endian_value [v >>> 24 % 256, v >>> 16 % 256, v >>> 8 % 256, v >>> 0 % 256] = v)
    ∧ (v < 2 ^ 64 → ∀ (S : Type) [ByteSink S] (s : S),
      write_u64 s (u64.new v)
        = ByteSink.write s [v >>> 56 % 256, v >>> 48 % 256, v >>> 40 % 256, v >>> 32 % 256,
            v >>> 24 % 256, v >>> 16 % 256, v >>> 8 % 256, v >>> 0 % 256]
      ∧ big_endian_value [v >>> 56 % 256, v >>> 48 % 256, v >>> 40 % 256, v >>> 32 % 256,
            v >>> 24 % 256, v >>> 16 % 256, v >>> 8 % 256, v >>> 0 % 256] = v)
    ∧ (v < 2 ^ 32 → ∀ (S : Type) [ByteSink S] (s : S),
      write_u24 s (u24.new v)
        = ByteSink.write s [v >>> 16 % 256, v >>> 8 % 256, v >>> 0 % 256]
      ∧ big_endian_value [v >>> 16 % 256, v >>> 8 % 256, v >>> 0 % 256] = v % 2 ^ 24) := by
  refine ⟨fun h S _ s => ⟨?_, ?_⟩, fun h S _ s => ⟨?_, ?_⟩, fun h S _ s => ⟨?_, ?_⟩,
    fun h S _ s => ⟨?_, ?_⟩, fun h S _ s => ⟨?_, ?_⟩⟩
  · simp only [write_u16, u16.new, uint16_t, uint8_t, Nat.mod_eq_of_lt h, Nat.shiftRight_zero]
    rfl
  · simp only [big_endian_value, List.foldl_cons, List.foldl_nil, Nat.shiftRight_eq_div_pow]
    omega
  · have h32 : v < 2 ^ 32 := by omega
    simp only [write_u24, u24.new, uint32_t, uint8_t, Nat.mod_eq_of_lt h32, Nat.shiftRight_zero]
    rfl
  · simp only [big_endian_value, List.foldl_cons, List.foldl_nil, Nat.shiftRight_eq_div_pow]
    omega
  · simp only [write_u32, u32.new, uint32_t, uint8_t, Nat.mod_eq_of_lt h, Nat.shiftRight_zero]
    rfl
  · simp only [big_endian_value, List.foldl_cons, List.foldl_nil, Nat.shiftRight_eq_div_pow]
    omega
  · simp only [write_u64, u64.new, uint64_t, uint8_t, Nat.mod_eq_of_lt h, Nat.shiftRight_zero]
    rfl
  · simp only [big_endian_value, List.foldl_cons, List.foldl_nil, Nat.shiftRight_eq_div_pow]
    omega
  · simp only [write_u24, u24.new, uint32_t, uint8_t, Nat.mod_eq_of_lt h, Nat.shiftRight_zero]
    rfl
  · simp only [big_endian_value, List.foldl_cons, List.foldl_nil, Nat.shiftRight_eq_div_pow]
    omega

/-- C6 as amended, at a 16-bit value and at a 32-bit value given to `u24`. -/
theorem encoding_is_big_endian_witness :
    (0x1234 < 2 ^ 16
      ∧ write_u16 (⟨[]⟩ : StreamAdapter) (u16.new 0x1234)
          = ByteSink.write ⟨[]⟩ [0x1234 >>> 8 % 256, 0x1234 >>> 0 % 256])
    ∧ (0x01020304 < 2 ^ 32
      ∧ big_endian_value [0x01020304 >>> 16 % 256, 0x01020304 >>> 8 % 256,
          0x01020304 >>> 0 % 256] = 0x01020304 % 2 ^ 24) :=
  ⟨⟨by decide, ((encoding_is_big_endian 0x1234).1 (by decide) StreamAdapter ⟨[]⟩).1⟩,
    ⟨by decide, ((encoding_is_big_endian 0x01020304).2.2.2.2 (by decide) StreamAdapter ⟨[]⟩).2⟩⟩

theorem SttsEntry_serialize_eq (self : SttsEntry) :
    serialize self.write = self.count.octets ++ self.duration.octets := by
  show (self.write (⟨[]⟩ : StreamAdapter)).stream = _
  simp only [SttsEntry.write, write_u32, LawfulByteSink.write_write,
    StreamAdapter_stream_write, List.nil_append, u32.octets]

theorem SttsAtom_serialize_eq (self : SttsAtom) :
    serialize self.write = serialize self.header.write
      ++ ([self.version, self.flags.octets_0, self.flags.octets_1, self.flags.octets_2]
      ++ (self.number_of_entries.octets
      ++ (self.entries.elems.take self.number_of_entries.to_uint32_t).flatMap
          (fun e => e.count.octets ++ e.duration.octets))) := by
  show (self.write (⟨[]⟩ : StreamAdapter)).stream = _
  simp only [SttsAtom.write, AtomHeader_write_eq, SttsEntry_write_entries_eq, write_u8,
    write_u24, write_u32, LawfulByteSink.write_write, StreamAdapter_stream_write,
    List.nil_append, u32.octets, List.cons_append, List.append_assoc, SttsEntry_serialize_eq]

theorem StszBox_serialize_eq (self : StszBox) :
    serialize self.write = serialize self.header.header.write
      ++ ([self.header.version, self.header.flags.octets_0, self.header.flags.octets_1,
            self.header.flags.octets_2]
      ++ (self.header.sample_size.octets ++ (self.header.number_of_entries.octets
      ++ self.entries.flatMap u32.octets))) := by
  show (self.write (⟨[]⟩ : StreamAdapter)).stream = _
  simp only [StszBox.write, StszAtomHeader.write, AtomHeader_write_eq, write_u32_entries_eq,
    write_u8, write_u24, write_u32, LawfulByteSink.write_write, StreamAdapter_stream_write,
    List.nil_append, List.cons_append, List.append_assoc, List.take_length]
  rfl

/-- The octets of `moov` contain, one after the other, the octets of `stts`,
`stsc`, `stsz` and `stco`, and end with them. -/
theorem MoovBox_serialize_sample_tables (self : MoovBox) :
    ∃ before : List u8,
      serialize self.write = before
        ++ (serialize self.trak.mdia.minf.stbl.stts.write
        ++ (serialize self.trak.mdia.minf.stbl.stsc.write
        ++ (serialize self.trak.mdia.minf.stbl.stsz.write
        ++ serialize self.trak.mdia.minf.stbl.stco.write))) := by
  refine ⟨serialize self.header.write ++ (serialize self.mvhd.write
    ++ (serialize self.trak.header.write ++ (serialize self.trak.tkhd.write
    ++ (serialize self.trak.edts.write ++ (serialize self.trak.mdia.header.write
    ++ (serialize self.trak.mdia.mdhd.write ++ (serialize self.trak.mdia.hdlr.write
    ++ (serialize self.trak.mdia.minf.header.write ++ (serialize self.trak.mdia.minf.smhd.write
    ++ (serialize self.trak.mdia.minf.dinf.write
    ++ (serialize self.trak.mdia.minf.stbl.header.write
    ++ serialize self.trak.mdia.minf.stbl.stsd.write))))))))))), ?_⟩
  simp only [MoovBox_serialize_eq, TrakBox_serialize_eq, MdiaBox_serialize_eq,
    MinfBox_serialize_eq, StblBox_serialize_eq, List.append_assoc]

/-- When neither divisor is zero the output of `write_aac_mp4` contains the
octets of `stts`, `stsc`, `stsz` and `stco` one after the other. -/
theorem write_aac_mp4_sample_tables (chunks : List u32) (data : List u8)
    (sample_rate number_of_samples max_samples_per_chunk : Nat) (ind : Indeterminate)
    (hsr : 0 < sample_rate) (hf : 0 < max_samples_per_chunk) :
    ∃ (out : StreamAdapter) (before after : List u8),
      write_aac_mp4 (⟨[]⟩ : StreamAdapter) chunks data sample_rate number_of_samples
        max_samples_per_chunk ind = Except.ok out
      ∧ out.stream = before
        ++ (serialize (aac_mp4_stbl chunks sample_rate number_of_samples max_samples_per_chunk
              ind).stts.write
        ++ (serialize (aac_mp4_stbl chunks sample_rate number_of_samples max_samples_per_chunk
              ind).stsc.write
        ++ (serialize (aac_mp4_stbl chunks sample_rate number_of_samples max_samples_per_chunk
              ind).stsz.write
        ++ (serialize (aac_mp4_stbl chunks sample_rate number_of_samples max_samples_per_chunk
              ind).stco.write
        ++ after)))) := by
  obtain ⟨p, hp⟩ := MoovBox_serialize_sample_tables
    (aac_mp4_moov_written chunks sample_rate number_of_samples max_samples_per_chunk ind)
  refine ⟨_, serialize aac_mp4_ftyp.write ++ p, serialize (aac_mp4_mdat data).write,
    write_aac_mp4_eq chunks data sample_rate number_of_samples max_samples_per_chunk ind _
      (by omega) (by omega), ?_⟩
  rw [StreamAdapter_stream_write, List.nil_append, hp]
  simp only [List.append_assoc]
  rfl

theorem u32_new_eq_of_lt (v : Nat) (h : v < 2 ^ 32) : (u32.new v).to_uint32_t = v := by
  rw [u32_to_new, Nat.mod_eq_of_lt h]

theorem aac_mp4_stts_of_rem_eq_zero (chunks : List u32)
    (sample_rate number_of_samples max_samples_per_chunk : Nat) (ind : Indeterminate)
    (h : number_of_samples % max_samples_per_chunk = 0) :
    (aac_mp4_stbl chunks sample_rate number_of_samples max_samples_per_chunk ind).stts
      = { header := ⟨u32.new 24, BoxType.new "stts"⟩
          version := 0
          flags := u24.new 0
          number_of_entries := u32.new 1
          entries := ⟨[⟨u32.new (number_of_samples / max_samples_per_chunk),
                        u32.new max_samples_per_chunk⟩, ⟨u32.zero, u32.zero⟩], rfl⟩ } := by
  have h1 : (u32.new 1).to_uint32_t = 1 := u32_new_eq_of_lt 1 (by decide)
  show SttsAtom.compute
    { header := AtomHeader.zero
      version := uint8_t 0
      flags := u24.new 0
      number_of_entries := u32.new (if number_of_samples % max_samples_per_chunk = 0
        then 1 else 2)
      entries := ⟨[⟨u32.new (number_of_samples / max_samples_per_chunk),
                    u32.new max_samples_per_chunk⟩,
                   if number_of_samples % max_samples_per_chunk ≠ 0 then
                     ⟨u32.new 1, u32.new (number_of_samples % max_samples_per_chunk)⟩
                   else ⟨u32.zero, u32.zero⟩], rfl⟩ } = _
  simp only [h, if_true, ne_eq, not_true_eq_false, if_false, SttsAtom.compute, h1]
  rfl

theorem aac_mp4_stts_of_rem_ne_zero (chunks : List u32)
    (sample_rate number_of_samples max_samples_per_chunk : Nat) (ind : Indeterminate)
    (h : number_of_samples % max_samples_per_chunk ≠ 0) :
    (aac_mp4_stbl chunks sample_rate number_of_samples max_samples_per_chunk ind).stts
      = { header := ⟨u32.new 32, BoxType.new "stts"⟩
          version := 0
          flags := u24.new 0
          number_of_entries := u32.new 2
          entries := ⟨[⟨u32.new (number_of_samples / max_samples_per_chunk),
                        u32.new max_samples_per_chunk⟩,
                       ⟨u32.new 1, u32.new (number_of_samples % max_samples_per_chunk)⟩],
                      rfl⟩ } := by
  have h2 : (u32.new 2).to_uint32_t = 2 := u32_new_eq_of_lt 2 (by decide)
  show SttsAtom.compute
    { header := AtomHeader.zero
      version := uint8_t 0
      flags := u24.new 0
      number_of_entries := u32.new (if number_of_samples % max_samples_per_chunk = 0
        then 1 else 2)
      entries := ⟨[⟨u32.new (number_of_samples / max_samples_per_chunk),
                    u32.new max_samples_per_chunk⟩,
                   if number_of_samples % max_samples_per_chunk ≠ 0 then
                     ⟨u32.new 1, u32.new (number_of_samples % max_samples_per_chunk)⟩
                   else ⟨u32.zero, u32.zero⟩], rfl⟩ } = _
  simp only [h, if_false, ne_eq, not_false_eq_true, if_true, SttsAtom.compute, h2]
  rfl

/-- C7: for 32-bit `number_of_samples` n and frame length f > 0, the `stts`
atom that is serialized has one entry (n / f, f) when n % f = 0 and the two
entries (n / f, f), (1, n % f) otherwise, its `number_of_entries` being 1 or 2
accordingly; its octets are the header, version and flags, the count, and the
entries as big-endian pairs, and the output contains them. -/
theorem stts_duration_runs (chunks : List u32) (data : List u8)
    (sample_rate number_of_samples max_samples_per_chunk : Nat) (ind : Indeterminate)
    (hn : number_of_samples < 2 ^ 32) (hfr : max_samples_per_chunk < 2 ^ 32)
    (hf : 0 < max_samples_per_chunk) :
    let stts := (aac_mp4_stbl chunks sample_rate number_of_samples max_samples_per_chunk
      ind).stts
    (number_of_samples % max_samples_per_chunk = 0 →
      stts.number_of_entries.to_uint32_t = 1
      ∧ stts.emitted_entries
          = [(number_of_samples / max_samples_per_chunk, max_samples_per_chunk)]
      ∧ serialize stts.write
          = [0, 0, 0, 24, 115, 116, 116, 115, 0, 0, 0, 0, 0, 0, 0, 1]
            ++ (u32.new (number_of_samples / max_samples_per_chunk)).octets
            ++ (u32.new max_samples_per_chunk).octets)
    ∧ (number_of_samples % max_samples_per_chunk ≠ 0 →
      stts.number_of_entries.to_uint32_t = 2
      ∧ stts.emitted_entries
          = [(number_of_samples / max_samples_per_chunk, max_samples_per_chunk),
             (1, number_of_samples % max_samples_per_chunk)]
      ∧ serialize stts.write
          = [0, 0, 0, 32, 115, 116, 116, 115, 0, 0, 0, 0, 0, 0, 0, 2]
            ++ (u32.new (number_of_samples / max_samples_per_chunk)).octets
            ++ (u32.new max_samples_per_chunk).octets
            ++ [0, 0, 0, 1]
            ++ (u32.new (number_of_samples % max_samples_per_chunk)).octets)
    ∧ (0 < sample_rate →
        ∃ (out : StreamAdapter) (before after : List u8),
          write_aac_mp4 (⟨[]⟩ : StreamAdapter) chunks data sample_rate number_of_samples
            max_samples_per_chunk ind = Except.ok out
          ∧ out.stream = before ++ (serialize stts.write ++ after)) := by
  intro stts
  have hfull : number_of_samples / max_samples_per_chunk < 2 ^ 32 :=
    lt_of_le_of_lt (Nat.div_le_self _ _) hn
  have hrem : number_of_samples % max_samples_per_chunk < 2 ^ 32 :=
    lt_trans (Nat.mod_lt _ hf) hfr
  have h1 : (u32.new 1).to_uint32_t = 1 := u32_new_eq_of_lt 1 (by decide)
  have h2 : (u32.new 2).to_uint32_t = 2 := u32_new_eq_of_lt 2 (by decide)
  refine ⟨fun hr => ?_, fun hr => ?_, fun hsr => ?_⟩
  · have hs : stts = _ := aac_mp4_stts_of_rem_eq_zero chunks sample_rate number_of_samples
      max_samples_per_chunk ind hr
    rw [hs]
    refine ⟨h1, ?_, ?_⟩
    · simp only [SttsAtom.emitted_entries, h1, List.take_succ_cons, List.take_zero,
        List.map_cons, List.map_nil, u32_new_eq_of_lt _ hfull, u32_new_eq_of_lt _ hfr]
    · simp only [SttsAtom_serialize_eq, AtomHeader_serialize_eq, h1, List.take_succ_cons,
        List.take_zero, List.flatMap_cons, List.flatMap_nil]
      rfl
  · have hs : stts = _ := aac_mp4_stts_of_rem_ne_zero chunks sample_rate number_of_samples
      max_samples_per_chunk ind hr
    rw [hs]
    refine ⟨h2, ?_, ?_⟩
    · simp only [SttsAtom.emitted_entries, h2, List.take_succ_cons, List.take_zero,
        List.map_cons, List.map_nil, u32_new_eq_of_lt _ hfull, u32_new_eq_of_lt _ hfr,
        u32_new_eq_of_lt _ hrem, h1]
    · simp only [SttsAtom_serialize_eq, AtomHeader_serialize_eq, h2, List.take_succ_cons,
        List.take_zero, List.flatMap_cons, List.flatMap_nil]
      rfl
  · obtain ⟨out, before, after, h, hout⟩ := write_aac_mp4_sample_tables chunks data sample_rate
      number_of_samples max_samples_per_chunk ind hsr hf
    exact ⟨out, before, _, h, hout⟩

/-- C7 at 1500 samples in frames of 1024: the runs are (1, 1024) and (1, 476). -/
theorem stts_duration_runs_witness :
    (1500 < 2 ^ 32 ∧ 1024 < 2 ^ 32 ∧ 0 < 1024 ∧ 1500 % 1024 ≠ 0)
    ∧ (aac_mp4_stbl two_frames 16000 1500 1024 zero_indeterminate).stts.emitted_entries
        = [(1, 1024), (1, 476)] :=
  ⟨⟨by decide, by decide, by decide, by decide⟩,
    ((stts_duration_runs two_frames payload_238 16000 1500 1024 zero_indeterminate
      (by decide) (by decide) (by decide)).2.1 (by decide)).2.1⟩

/-- C8, as stated, fails: with two frames, 1024 samples and a frame length of
1024 the call completes and the one `stts` entry has count 1, not 2. -/
theorem stts_count_sum_counterexample :
    (∃ out : StreamAdapter,
      write_aac_mp4 (⟨[]⟩ : StreamAdapter) two_frames payload_238 16000 1024 1024
        zero_indeterminate = Except.ok out)
    ∧ (aac_mp4_stbl two_frames 16000 1024 1024 zero_indeterminate).stts.emitted_counts.sum = 1
    ∧ two_frames.length = 2
    ∧ (aac_mp4_stbl two_frames 16000 1024 1024 zero_indeterminate).stts.emitted_counts.sum
        ≠ two_frames.length := by
  refine ⟨⟨_, write_aac_mp4_eq _ _ _ _ _ _ _ (by decide) (by decide)⟩, ?_, rfl, ?_⟩ <;> decide

/-- C8, amended: for a 32-bit `number_of_samples` n and a frame length f > 0
the counts of the `stts` entries that are emitted sum to n / f, plus 1 when
n % f is not 0, whatever the frame list is; with a nonzero sample rate the call
completes and its output contains that `stts`. -/
theorem stts_count_sum (chunks : List u32) (data : List u8)
    (sample_rate number_of_samples max_samples_per_chunk : Nat) (ind : Indeterminate)
    (hn : number_of_samples < 2 ^ 32) (hf : 0 < max_samples_per_chunk) :
    let stts := (aac_mp4_stbl chunks sample_rate number_of_samples max_samples_per_chunk
      ind).stts
    stts.emitted_counts.sum
      = number_of_samples / max_samples_per_chunk
        + (if number_of_samples % max_samples_per_chunk = 0 then 0 else 1)
    ∧ (0 < sample_rate →
        ∃ (out : StreamAdapter) (before after : List u8),
          write_aac_mp4 (⟨[]⟩ : StreamAdapter) chunks data sample_rate number_of_samples
            max_samples_per_chunk ind = Except.ok out
          ∧ out.stream = before ++ (serialize stts.write ++ after)) := by
  intro stts
  have hfull : number_of_samples / max_samples_per_chunk < 2 ^ 32 :=
    lt_of_le_of_lt (Nat.div_le_self _ _) hn
  have h1 : (u32.new 1).to_uint32_t = 1 := u32_new_eq_of_lt 1 (by decide)
  have h2 : (u32.new 2).to_uint32_t = 2 := u32_new_eq_of_lt 2 (by decide)
  refine ⟨?_, fun hsr => ?_⟩
  · by_cases hr : number_of_samples % max_samples_per_chunk = 0
    · have hs : stts = _ := aac_mp4_stts_of_rem_eq_zero chunks sample_rate number_of_samples
        max_samples_per_chunk ind hr
      rw [hs]
      simp only [SttsAtom.emitted_counts, h1, List.take_succ_cons, List.take_zero,
        List.map_cons, List.map_nil, u32_new_eq_of_lt _ hfull, List.sum_cons, List.sum_nil, hr,
        if_true]
    · have hs : stts = _ := aac_mp4_stts_of_rem_ne_zero chunks sample_rate number_of_samples
        max_samples_per_chunk ind hr
      rw [hs]
      simp only [SttsAtom.emitted_counts, h2, h1, List.take_succ_cons, List.take_zero,
        List.map_cons, List.map_nil, u32_new_eq_of_lt _ hfull, List.sum_cons, List.sum_nil, hr,
        if_false, Nat.add_zero]
  · obtain ⟨out, before, after, h, hout⟩ := write_aac_mp4_sample_tables chunks data sample_rate
      number_of_samples max_samples_per_chunk ind hsr hf
    exact ⟨out, before, _, h, hout⟩

/-- C8 as amended, at 1500 samples in frames of 1024. -/
theorem stts_count_sum_witness :
    (1500 < 2 ^ 32 ∧ 0 < 1024)
    ∧ (aac_mp4_stbl two_frames 16000 1500 1024 zero_indeterminate).stts.emitted_counts.sum
        = 2 :=
  ⟨⟨by decide, by decide⟩,
    (stts_count_sum two_frames payload_238 16000 1500 1024 zero_indeterminate (by decide)
      (by decide)).1⟩

/-- C9: for a frame list of fewer than 2^32 entries the `stsz` atom that is
serialized has `sample_size` 0, `number_of_entries` equal to the length of the
list and the list itself as its table; its octets are the header, version and
flags, the two fields, and the four octets of every entry in list order, most
significant first, and the output contains them. -/
theorem stsz_table_is_chunks (chunks : List u32) (data : List u8)
    (sample_rate number_of_samples max_samples_per_chunk : Nat) (ind : Indeterminate)
    (hc : chunks.length < 2 ^ 32) :
    let stsz := (aac_mp4_stbl chunks sample_rate number_of_samples max_samples_per_chunk
      ind).stsz
    stsz.header.sample_size.to_uint32_t = 0
    ∧ stsz.header.number_of_entries.to_uint32_t = chunks.length
    ∧ stsz.entries = chunks
    ∧ serialize stsz.write
        = stsz.header.header.size.octets ++ [115, 116, 115, 122] ++ [0, 0, 0, 0]
          ++ [0, 0, 0, 0] ++ (u32.new chunks.length).octets ++ chunks.flatMap u32.octets
    ∧ (∀ v : Nat, v < 2 ^ 32 →
        (u32.new v).octets = [v >>> 24 % 256, v >>> 16 % 256, v >>> 8 % 256, v % 256]
        ∧ big_endian_value (u32.new v).octets = v)
    ∧ (0 < sample_rate → 0 < max_samples_per_chunk →
        ∃ (out : StreamAdapter) (before after : List u8),
          write_aac_mp4 (⟨[]⟩ : StreamAdapter) chunks data sample_rate number_of_samples
            max_samples_per_chunk ind = Except.ok out
          ∧ out.stream = before ++ (serialize stsz.write ++ after)) := by
  intro stsz
  refine ⟨?_, ?_, rfl, ?_, fun v hv => ⟨?_, ?_⟩, fun hsr hf => ?_⟩
  · show (u32.new 0).to_uint32_t = 0
    exact u32_new_eq_of_lt 0 (by decide)
  · show (u32.new chunks.length).to_uint32_t = chunks.length
    exact u32_new_eq_of_lt _ hc
  · rw [StszBox_serialize_eq, AtomHeader_serialize_eq]
    rfl
  · simp only [u32.octets, u32.new, uint32_t, uint8_t, Nat.mod_eq_of_lt hv]
    rfl
  · simp only [u32.octets, u32.new, uint32_t, uint8_t, Nat.mod_eq_of_lt hv, big_endian_value,
      List.foldl_cons, List.foldl_nil, Nat.shiftRight_eq_div_pow]
    omega
  · obtain ⟨out, before, after, h, hout⟩ := write_aac_mp4_sample_tables chunks data sample_rate
      number_of_samples max_samples_per_chunk ind hsr hf
    refine ⟨out, before ++ (serialize (aac_mp4_stbl chunks sample_rate number_of_samples
      max_samples_per_chunk ind).stts.write ++ serialize (aac_mp4_stbl chunks sample_rate
      number_of_samples max_samples_per_chunk ind).stsc.write),
      serialize (aac_mp4_stbl chunks sample_rate number_of_samples max_samples_per_chunk
        ind).stco.write ++ after, h, ?_⟩
    rw [hout]
    simp only [List.append_assoc]

/-- C9 at the frame sizes 120 and 118. -/
theorem stsz_table_is_chunks_witness :
    (two_frames.length < 2 ^ 32)
    ∧ serialize (aac_mp4_stbl two_frames 16000 2048 1024 zero_indeterminate).stsz.write
        = [0, 0, 0, 28, 115, 116, 115, 122, 0, 0, 0, 0, 0, 0, 0, 0, 0, 0, 0, 2,
           0, 0, 0, 120, 0, 0, 0, 118] :=
  ⟨by decide,
    (stsz_table_is_chunks two_frames payload_238 16000 2048 1024 zero_indeterminate
      (by decide)).2.2.2.1⟩

/-! ## Field-by-field serialization -/

theorem Matrix_serialize_eq (self : Matrix) :
    serialize self.write = self.values.elems.flatMap u32.octets := by
  show (self.write (⟨[]⟩ : StreamAdapter)).stream = _
  simp only [Matrix.write, write_u32_entries_eq, StreamAdapter_stream_write, List.nil_append]
  rw [List.take_of_length_le (by rw [self.values.size_eq])]
  rfl

theorem MvhdAtom_serialize_eq (self : MvhdAtom) :
    serialize self.write = serialize self.header.write
      ++ ([self.version, self.flags.octets_0, self.flags.octets_1, self.flags.octets_2]
      ++ (self.creation_time.octets ++ (self.modification_time.octets
      ++ (self.timescale.octets ++ (self.duration.octets ++ (self.rate.octets
      ++ ([self.volume.octets_0, self.volume.octets_1] ++ (self.reserved.elems
      ++ (self.matrix.values.elems.flatMap u32.octets ++ (self.preview_time.octets
      ++ (self.preview_duration.octets ++ (self.poster_time.octets
      ++ (self.selection_time.octets ++ (self.selection_duration.octets
      ++ (self.current_time.octets ++ self.next_track_id.octets))))))))))))))) := by
  show (self.write (⟨[]⟩ : StreamAdapter)).stream = _
  simp only [MvhdAtom.write, AtomHeader_write_eq, Matrix_write_eq, Matrix_serialize_eq, write_u8,
    write_u16, write_u24, write_u32, write_array, LawfulByteSink.write_write,
    StreamAdapter_stream_write, List.nil_append, u32.octets, List.cons_append,
    List.append_assoc, List.take_of_length_le (Nat.le_of_eq self.reserved.size_eq)]

theorem TkhdAtom_serialize_eq (self : TkhdAtom) :
    serialize self.write = serialize self.header.write
      ++ ([self.version, self.flags.octets_0, self.flags.octets_1, self.flags.octets_2]
      ++ (self.creation_time.octets ++ (self.modification_time.octets
      ++ (self.track_id.octets ++ (self.reserved_0.octets ++ (self.duration.octets
      ++ ((self.reserved_1.get 0 (by decide)).octets
      ++ ((self.reserved_1.get 1 (by decide)).octets
      ++ ([self.layer.octets_0, self.layer.octets_1, self.alternate_group.octets_0,
            self.alternate_group.octets_1, self.volume.octets_0, self.volume.octets_1,
            self.reserved_2.octets_0, self.reserved_2.octets_1]
      ++ (self.matrix.values.elems.flatMap u32.octets
      ++ (self.width.octets ++ self.height.octets))))))))))) := by
  show (self.write (⟨[]⟩ : StreamAdapter)).stream = _
  simp only [TkhdAtom.write, AtomHeader_write_eq, Matrix_write_eq, Matrix_serialize_eq, write_u8,
    write_u16, write_u24, write_u32, LawfulByteSink.write_write,
    StreamAdapter_stream_write, List.nil_append, u32.octets, List.cons_append,
    List.append_assoc]

theorem MdhdAtom_serialize_eq (self : MdhdAtom) :
    serialize self.write = serialize self.header.write
      ++ ([self.version, self.flags.octets_0, self.flags.octets_1, self.flags.octets_2]
      ++ (self.creation_time.octets ++ (self.modification_time.octets
      ++ (self.timescale.octets ++ (self.duration.octets
      ++ [self.language.octets_0, self.language.octets_1, self.quality.octets_0,
           self.quality.octets_1]))))) := by
  show (self.write (⟨[]⟩ : StreamAdapter)).stream = _
  simp only [MdhdAtom.write, AtomHeader_write_eq, write_u8, write_u16, write_u24, write_u32,
    LawfulByteSink.write_write, StreamAdapter_stream_write, List.nil_append, u32.octets,
    List.cons_append, List.append_assoc]

theorem HdlrAtom_serialize_eq (self : HdlrAtom) :
    serialize self.write = serialize self.header.write
      ++ ([self.version, self.flags.octets_0, self.flags.octets_1, self.flags.octets_2]
      ++ (self.component_type.octets ++ (self.handler_type.octets
      ++ ((self.reserved.get 0 (by decide)).octets ++ ((self.reserved.get 1 (by decide)).octets
      ++ ((self.reserved.get 2 (by decide)).octets ++ self.name.elems)))))) := by
  show (self.write (⟨[]⟩ : StreamAdapter)).stream = _
  simp only [HdlrAtom.write, AtomHeader_write_eq, write_u8, write_u24, write_u32, write_array,
    LawfulByteSink.write_write, StreamAdapter_stream_write, List.nil_append, u32.octets,
    List.cons_append, List.append_assoc,
    List.take_of_length_le (Nat.le_of_eq self.name.size_eq)]

theorem ElstAtom_serialize_eq (self : ElstAtom) :
    serialize self.write = serialize self.header.write
      ++ ([self.version, self.flags.octets_0, self.flags.octets_1, self.flags.octets_2]
      ++ (self.entry_count.octets
      ++ (self.entries.elems.take self.entry_count.to_uint32_t).flatMap
          (fun e => e.segment_duration.octets ++ (e.media_time.octets
            ++ e.media_rate.octets)))) := by
  have he : ∀ e : ElstEntry, serialize e.write
      = e.segment_duration.octets ++ (e.media_time.octets ++ e.media_rate.octets) := by
    intro e
    show (e.write (⟨[]⟩ : StreamAdapter)).stream = _
    simp only [ElstEntry.write, write_u32, LawfulByteSink.write_write,
      StreamAdapter_stream_write, List.nil_append, u32.octets, List.cons_append]
  show (self.write (⟨[]⟩ : StreamAdapter)).stream = _
  simp only [ElstAtom.write, AtomHeader_write_eq, ElstEntry_write_entries_eq, write_u8,
    write_u24, write_u32, LawfulByteSink.write_write, StreamAdapter_stream_write,
    List.nil_append, u32.octets, List.cons_append, List.append_assoc, he]

theorem StscAtom_serialize_eq (self : StscAtom) :
    serialize self.write = serialize self.header.write
      ++ ([self.version, self.flags.octets_0, self.flags.octets_1, self.flags.octets_2]
      ++ (self.number_of_entries.octets
      ++ (self.entries.elems.take self.number_of_entries.to_uint32_t).flatMap
          (fun e => e.first_chunk.octets ++ (e.samples_per_chunk.octets
            ++ e.sample_description_id.octets)))) := by
  have he : ∀ e : StscEntry, serialize e.write
      = e.first_chunk.octets ++ (e.samples_per_chunk.octets
          ++ e.sample_description_id.octets) := by
    intro e
    show (e.write (⟨[]⟩ : StreamAdapter)).stream = _
    simp only [StscEntry.write, write_u32, LawfulByteSink.write_write,
      StreamAdapter_stream_write, List.nil_append, u32.octets, List.cons_append]
  show (self.write (⟨[]⟩ : StreamAdapter)).stream = _
  simp only [StscAtom.write, AtomHeader_write_eq, StscEntry_write_entries_eq, write_u8,
    write_u24, write_u32, LawfulByteSink.write_write, StreamAdapter_stream_write,
    List.nil_append, u32.octets, List.cons_append, List.append_assoc, he]

theorem EsdsAtom_serialize_eq (self : EsdsAtom) :
    serialize self.write = serialize self.header.write ++ self.version.octets
      ++ [self.desc.tag] ++ self.desc.size.elems
      ++ [self.desc.es_id.octets_0, self.desc.es_id.octets_1, self.desc.flags]
      ++ [self.desc.decoder_config.tag] ++ self.desc.decoder_config.size.elems
      ++ [self.desc.decoder_config.object_type, self.desc.decoder_config.flags,
          self.desc.decoder_config.buffer_size.octets_0,
          self.desc.decoder_config.buffer_size.octets_1,
          self.desc.decoder_config.buffer_size.octets_2]
      ++ self.desc.decoder_config.max_bit_rate.octets
      ++ self.desc.decoder_config.average_bit_rate.octets
      ++ [self.desc.decoder_config.decoder_specific.tag]
      ++ self.desc.decoder_config.decoder_specific.size.elems
      ++ self.desc.decoder_config.decoder_specific.specific.elems
      ++ [self.desc.sl_config.tag] ++ self.desc.sl_config.size.elems
      ++ [self.desc.sl_config.predefined] := by
  show (self.write (⟨[]⟩ : StreamAdapter)).stream = _
  simp only [EsdsAtom.write, ESDescriptor.write, DecoderConfiguration.write,
    DecoderSpecificInfo.write, SLConfigDescriptor.write, AtomHeader_write_eq, write_u8,
    write_u16, write_u24, write_u32, write_array, LawfulByteSink.write_write,
    StreamAdapter_stream_write, List.nil_append, u32.octets, List.cons_append,
    List.append_assoc,
    List.take_of_length_le (Nat.le_of_eq self.desc.size.size_eq),
    List.take_of_length_le (Nat.le_of_eq self.desc.decoder_config.size.size_eq),
    List.take_of_length_le (Nat.le_of_eq self.desc.decoder_config.decoder_specific.size.size_eq),
    List.take_of_length_le
      (Nat.le_of_eq self.desc.decoder_config.decoder_specific.specific.size_eq),
    List.take_of_length_le (Nat.le_of_eq self.desc.sl_config.size.size_eq)]

/-- The octets of `moov`, box by box. -/
theorem MoovBox_serialize_flat (self : MoovBox) :
    serialize self.write = serialize self.header.write
      ++ (serialize self.mvhd.write
      ++ (serialize self.trak.header.write
      ++ (serialize self.trak.tkhd.write
      ++ (serialize self.trak.edts.write
      ++ (serialize self.trak.mdia.header.write
      ++ (serialize self.trak.mdia.mdhd.write
      ++ (serialize self.trak.mdia.hdlr.write
      ++ (serialize self.trak.mdia.minf.header.write
      ++ (serialize self.trak.mdia.minf.smhd.write
      ++ (serialize self.trak.mdia.minf.dinf.write
      ++ (serialize self.trak.mdia.minf.stbl.header.write
      ++ (serialize self.trak.mdia.minf.stbl.stsd.write
      ++ (serialize self.trak.mdia.minf.stbl.stts.write
      ++ (serialize self.trak.mdia.minf.stbl.stsc.write
      ++ (serialize self.trak.mdia.minf.stbl.stsz.write
      ++ serialize self.trak.mdia.minf.stbl.stco.write))))))))))))))) := by
  simp only [MoovBox_serialize_eq, TrakBox_serialize_eq, MdiaBox_serialize_eq,
    MinfBox_serialize_eq, StblBox_serialize_eq, List.append_assoc]

theorem infix_head (a b : List u8) : a <:+: a ++ b :=
  (List.prefix_append a b).isInfix

theorem infix_tail (a b c : List u8) (h : a <:+: c) : a <:+: b ++ c :=
  List.IsInfix.trans h (List.suffix_append b c).isInfix

/-- The output of a completed call and the boxes found in it. -/
theorem write_aac_mp4_boxes (chunks : List u32) (data : List u8)
    (sample_rate number_of_samples max_samples_per_chunk : Nat) (ind : Indeterminate)
    (hsr : 0 < sample_rate) (hf : 0 < max_samples_per_chunk) :
    ∃ out : StreamAdapter,
      write_aac_mp4 (⟨[]⟩ : StreamAdapter) chunks data sample_rate number_of_samples
        max_samples_per_chunk ind = Except.ok out
      ∧ out.stream = serialize aac_mp4_ftyp.write
          ++ (serialize (aac_mp4_moov_written chunks sample_rate number_of_samples
                max_samples_per_chunk ind).write
          ++ serialize (aac_mp4_mdat data).write)
      ∧ (let moov := aac_mp4_moov_written chunks sample_rate number_of_samples
            max_samples_per_chunk ind
         serialize moov.mvhd.write <:+: out.stream
         ∧ serialize moov.trak.tkhd.write <:+: out.stream
         ∧ serialize moov.trak.edts.write <:+: out.stream
         ∧ serialize moov.trak.mdia.mdhd.write <:+: out.stream
         ∧ serialize moov.trak.mdia.hdlr.write <:+: out.stream
         ∧ serialize moov.trak.mdia.minf.dinf.write <:+: out.stream
         ∧ serialize moov.trak.mdia.minf.stbl.stsd.write <:+: out.stream
         ∧ serialize moov.trak.mdia.minf.stbl.stts.write <:+: out.stream
         ∧ serialize moov.trak.mdia.minf.stbl.stsc.write <:+: out.stream
         ∧ serialize moov.trak.mdia.minf.stbl.stsz.write <:+: out.stream
         ∧ serialize moov.trak.mdia.minf.stbl.stco.write <:+: out.stream) := by
  refine ⟨_, write_aac_mp4_eq chunks data sample_rate number_of_samples
    max_samples_per_chunk ind _ (by omega) (by omega), ?_, ?_⟩
  · rw [StreamAdapter_stream_write, List.nil_append]
  · intro moov
    rw [StreamAdapter_stream_write, List.nil_append, MoovBox_serialize_flat]
    simp only [List.append_assoc]
    refine ⟨?_, ?_, ?_, ?_, ?_, ?_, ?_, ?_, ?_, ?_, ?_⟩ <;>
      repeat (first | with_reducible exact infix_head _ _ | with_reducible apply infix_tail)

theorem aac_mp4_stsc_eq (chunks : List u32)
    (sample_rate number_of_samples max_samples_per_chunk : Nat) (ind : Indeterminate) :
    (aac_mp4_stbl chunks sample_rate number_of_samples max_samples_per_chunk ind).stsc
      = { header := ⟨u32.new 28, BoxType.new "stsc"⟩
          version := 0
          flags := u24.new 0
          number_of_entries := u32.new 1
          entries := ⟨[⟨u32.new 1,
                        u32.new (uint32_t (uint32_t (number_of_samples
                          + max_samples_per_chunk) + 2 ^ 32 - 1) / max_samples_per_chunk),
                        u32.new 1⟩], rfl⟩ } := by
  have h1 : (u32.new 1).to_uint32_t = 1 := u32_new_eq_of_lt 1 (by decide)
  show StscAtom.compute
    { header := AtomHeader.zero
      version := uint8_t 0
      flags := u24.new 0
      number_of_entries := u32.new 1
      entries := ⟨[⟨u32.new 1,
                    u32.new (uint32_t (uint32_t (number_of_samples
                      + max_samples_per_chunk) + 2 ^ 32 - 1) / max_samples_per_chunk),
                    u32.new 1⟩], rfl⟩ } = _
  simp only [StscAtom.compute, h1]
  rfl

/-- The `stsc` atom that is serialized, for every input: one entry whose
`samples_per_chunk` is the 32-bit value of `(n + f - 1) / f`. -/
theorem aac_mp4_stsc_entries (chunks : List u32)
    (sample_rate number_of_samples max_samples_per_chunk : Nat) (ind : Indeterminate) :
    (aac_mp4_stbl chunks sample_rate number_of_samples max_samples_per_chunk
        ind).stsc.emitted_entries
      = [(1, (uint32_t (uint32_t (number_of_samples + max_samples_per_chunk) + 2 ^ 32 - 1)
            / max_samples_per_chunk) % 2 ^ 32, 1)]
    ∧ serialize (aac_mp4_stbl chunks sample_rate number_of_samples max_samples_per_chunk
        ind).stsc.write
      = [0, 0, 0, 28, 115, 116, 115, 99, 0, 0, 0, 0, 0, 0, 0, 1, 0, 0, 0, 1]
        ++ (u32.new (uint32_t (uint32_t (number_of_samples + max_samples_per_chunk)
              + 2 ^ 32 - 1) / max_samples_per_chunk)).octets
        ++ [0, 0, 0, 1] := by
  have h1 : (u32.new 1).to_uint32_t = 1 := u32_new_eq_of_lt 1 (by decide)
  rw [aac_mp4_stsc_eq]
  refine ⟨?_, ?_⟩
  · simp only [StscAtom.emitted_entries, h1, List.take_succ_cons, List.take_zero,
      List.map_cons, List.map_nil, u32_to_new]
  · simp only [StscAtom_serialize_eq, AtomHeader_serialize_eq, h1, List.take_succ_cons,
      List.take_zero, List.flatMap_cons, List.flatMap_nil]
    rfl

/-- C11 fails on the code: with 2^32 - 1 samples in frames of 1024 the sum
`n + f - 1` wraps to 1022, so the one `stsc` entry that is serialized has
`samples_per_chunk` 0, while the ceiling of n / f is 4194304 (it is the least q
with n ≤ q * f, and it is the sum of the `stts` counts of the same output).
Whenever `n + f ≤ 2^32` the entry holds the ceiling. -/
theorem stsc_samples_per_chunk_wraps :
    (∃ out : StreamAdapter,
      write_aac_mp4 (⟨[]⟩ : StreamAdapter) two_frames payload_238 16000 4294967295 1024
        zero_indeterminate = Except.ok out
      ∧ serialize (aac_mp4_stbl two_frames 16000 4294967295 1024
          zero_indeterminate).stsc.write <:+: out.stream)
    ∧ (aac_mp4_stbl two_frames 16000 4294967295 1024 zero_indeterminate).stsc.emitted_entries
        = [(1, 0, 1)]
    ∧ serialize (aac_mp4_stbl two_frames 16000 4294967295 1024 zero_indeterminate).stsc.write
        = [0, 0, 0, 28, 115, 116, 115, 99, 0, 0, 0, 0, 0, 0, 0, 1,
           0, 0, 0, 1, 0, 0, 0, 0, 0, 0, 0, 1]
    ∧ (4294967295 < 2 ^ 32 ∧ 4194303 * 1024 < 4294967295 ∧ 4294967295 ≤ 4194304 * 1024)
    ∧ (aac_mp4_stbl two_frames 16000 4294967295 1024
        zero_indeterminate).stts.emitted_counts.sum = 4194304
    ∧ (∀ (chunks : List u32) (sample_rate n f : Nat) (ind : Indeterminate),
        0 < f → n + f ≤ 2 ^ 32 →
        (aac_mp4_stbl chunks sample_rate n f ind).stsc.emitted_entries
          = [(1, (n + f - 1) / f, 1)]) := by
  refine ⟨?_, ?_, ?_, by decide, ?_, ?_⟩
  · obtain ⟨out, h, _, hb⟩ := write_aac_mp4_boxes two_frames payload_238 16000 4294967295 1024
      zero_indeterminate (by decide) (by decide)
    exact ⟨out, h, hb.2.2.2.2.2.2.2.2.1⟩
  · rw [(aac_mp4_stsc_entries _ _ _ _ _).1]
    decide
  · rw [(aac_mp4_stsc_entries _ _ _ _ _).2]
    decide
  · decide
  · intro chunks sample_rate n f ind hf hnf
    rw [(aac_mp4_stsc_entries _ _ _ _ _).1]
    have h1 : uint32_t (uint32_t (n + f) + 2 ^ 32 - 1) = n + f - 1 := by
      simp only [uint32_t]
      omega
    have h2 : (n + f - 1) / f ≤ n + f - 1 := Nat.div_le_self _ _
    rw [h1, Nat.mod_eq_of_lt (by omega)]

theorem EdtsBox_serialize_eq (self : EdtsBox) :
    serialize self.write = serialize self.header.write ++ serialize self.elst.write := by
  show (self.write (⟨[]⟩ : StreamAdapter)).stream = _
  simp only [EdtsBox.write, AtomHeader_write_eq, ElstAtom_write_eq, LawfulByteSink.write_write,
    StreamAdapter_stream_write, List.nil_append]

theorem EdtsBox_compute_header (self : EdtsBox) :
    self.compute.header = ⟨u32.new 36, BoxType.new "edts"⟩ := by
  simp only [EdtsBox.compute, ElstAtom_compute_size]
  rfl

/-- The octets of `mvhd`, `tkhd` and `edts` that are serialized, for every
input; `d` is the value assigned to the three duration fields. -/
theorem aac_mp4_movie_duration_octets (chunks : List u32)
    (sample_rate number_of_samples max_samples_per_chunk : Nat) (ind : Indeterminate) :
    let moov := aac_mp4_moov_written chunks sample_rate number_of_samples
      max_samples_per_chunk ind
    let d := u32.new (uint32_t (number_of_samples * 1000) / sample_rate)
    moov.mvhd.duration = d
    ∧ moov.trak.tkhd.duration = d
    ∧ moov.trak.edts.elst.entry_count.to_uint32_t = 1
    ∧ moov.trak.edts.elst.entries.elems.map (fun e => e.segment_duration) = [d]
    ∧ serialize moov.mvhd.write
        = [0, 0, 0, 108, 109, 118, 104, 100, 0, 0, 0, 0, 0, 0, 0, 0, 0, 0, 0, 0,
           0, 0, 3, 232]
          ++ d.octets
          ++ [0, 1, 0, 0, 1, 0, 0, 0, 0, 0, 0, 0, 0, 0, 0, 0,
              0, 1, 0, 0, 0, 0, 0, 0, 0, 0, 0, 0, 0, 0, 0, 0, 0, 1, 0, 0, 0, 0, 0, 0,
              0, 0, 0, 0, 0, 0, 0, 0, 64, 0, 0, 0,
              0, 0, 0, 0, 0, 0, 0, 0, 0, 0, 0, 0, 0, 0, 0, 0, 0, 0, 0, 0, 0, 0, 0, 0,
              0, 0, 0, 2]
    ∧ serialize moov.trak.tkhd.write
        = [0, 0, 0, 92, 116, 107, 104, 100, 0, 0, 0, 3, 0, 0, 0, 0, 0, 0, 0, 0, 0, 0, 0, 1,
           0, 0, 0, 0]
          ++ d.octets
          ++ [0, 0, 0, 0, 0, 0, 0, 0, 0, 0, 0, 1, 1, 0, 0, 0,
              0, 1, 0, 0, 0, 0, 0, 0, 0, 0, 0, 0, 0, 0, 0, 0, 0, 1, 0, 0, 0, 0, 0, 0,
              0, 0, 0, 0, 0, 0, 0, 0, 64, 0, 0, 0, 0, 0, 0, 0, 0, 0, 0, 0]
    ∧ serialize moov.trak.edts.write
        = [0, 0, 0, 36, 101, 100, 116, 115, 0, 0, 0, 28, 101, 108, 115, 116,
           0, 0, 0, 0, 0, 0, 0, 1]
          ++ d.octets
          ++ [0, 0, 8, 0, 0, 1, 0, 0] := by
  intro moov d
  have h1 : (u32.new 1).to_uint32_t = 1 := u32_new_eq_of_lt 1 (by decide)
  have hcount : moov.trak.edts.elst.entry_count = u32.new 1 := rfl
  refine ⟨rfl, rfl, by rw [hcount, h1], rfl, ?_, ?_, ?_⟩
  · rw [MvhdAtom_serialize_eq, AtomHeader_serialize_eq]
    rfl
  · rw [TkhdAtom_serialize_eq, AtomHeader_serialize_eq]
    rfl
  · have hh : moov.trak.edts.header = ⟨u32.new 36, BoxType.new "edts"⟩ :=
      EdtsBox_compute_header _
    rw [EdtsBox_serialize_eq, ElstAtom_serialize_eq, hh, AtomHeader_serialize_eq,
      AtomHeader_serialize_eq, hcount, h1]
    rfl

/-- While `number_of_samples * 1000` stays below 2^32 the three movie durations
hold that product divided by the sample rate, rounded down; the field is found
in the octets of its box, and the boxes in the output. -/
theorem aac_mp4_movie_durations_exact (chunks : List u32) (data : List u8)
    (sample_rate number_of_samples max_samples_per_chunk : Nat) (ind : Indeterminate)
    (hsr : 0 < sample_rate) (hn : number_of_samples * 1000 < 2 ^ 32) :
    let moov := aac_mp4_moov_written chunks sample_rate number_of_samples
      max_samples_per_chunk ind
    let d := u32.new (number_of_samples * 1000 / sample_rate)
    d.to_uint32_t = number_of_samples * 1000 / sample_rate
    ∧ moov.mvhd.duration = d
    ∧ moov.trak.tkhd.duration = d
    ∧ moov.trak.edts.elst.entry_count.to_uint32_t = 1
    ∧ moov.trak.edts.elst.entries.elems.map (fun e => e.segment_duration) = [d]
    ∧ (serialize moov.mvhd.write).drop 24 = d.octets ++ (serialize moov.mvhd.write).drop 28
    ∧ (serialize moov.trak.tkhd.write).drop 28
        = d.octets ++ (serialize moov.trak.tkhd.write).drop 32
    ∧ (serialize moov.trak.edts.write).drop 24
        = d.octets ++ (serialize moov.trak.edts.write).drop 28
    ∧ (0 < max_samples_per_chunk →
        ∃ out : StreamAdapter,
          write_aac_mp4 (⟨[]⟩ : StreamAdapter) chunks data sample_rate number_of_samples
            max_samples_per_chunk ind = Except.ok out
          ∧ serialize moov.mvhd.write <:+: out.stream
          ∧ serialize moov.trak.tkhd.write <:+: out.stream
          ∧ serialize moov.trak.edts.write <:+: out.stream) := by
  intro moov d
  have hwrap : uint32_t (number_of_samples * 1000) = number_of_samples * 1000 :=
    Nat.mod_eq_of_lt hn
  have hq : number_of_samples * 1000 / sample_rate < 2 ^ 32 :=
    lt_of_le_of_lt (Nat.div_le_self _ _) hn
  obtain ⟨h1, h2, h3, h4, h5, h6, h7⟩ := aac_mp4_movie_duration_octets chunks sample_rate
    number_of_samples max_samples_per_chunk ind
  rw [hwrap] at h1 h2 h4 h5 h6 h7
  refine ⟨u32_new_eq_of_lt _ hq, h1, h2, h3, h4, ?_, ?_, ?_, fun hf => ?_⟩
  · rw [h5]
    rfl
  · rw [h6]
    rfl
  · rw [h7]
    rfl
  · obtain ⟨out, h, _, hb⟩ := write_aac_mp4_boxes chunks data sample_rate number_of_samples
      max_samples_per_chunk ind hsr hf
    exact ⟨out, h, hb.1, hb.2.1, hb.2.2.1⟩

theorem aac_mp4_ftyp_octets :
    serialize aac_mp4_ftyp.write
      = [0, 0, 0, 24, 102, 116, 121, 112, 105, 115, 111, 109, 0, 0, 2, 0,
         105, 115, 111, 109, 109, 112, 52, 49] := by
  decide

/-- C13, as stated, fails: the size field of `ftyp` holds 24 and `ftyp` is
serialized as 24 octets, whatever the input. -/
theorem ftyp_size_counterexample :
    aac_mp4_ftyp.header.size.to_uint32_t = 24
    ∧ aac_mp4_ftyp.header.size.to_uint32_t ≠ 20
    ∧ (serialize aac_mp4_ftyp.write).length = 24
    ∧ (emitted (write_aac_mp4 (⟨[]⟩ : StreamAdapter) two_frames payload_238 16000 2048 1024
        zero_indeterminate)).take 24
        = [0, 0, 0, 24, 102, 116, 121, 112, 105, 115, 111, 109, 0, 0, 2, 0,
           105, 115, 111, 109, 109, 112, 52, 49] := by
  refine ⟨aac_mp4_ftyp_size, ?_, aac_mp4_ftyp_length, ?_⟩
  · rw [aac_mp4_ftyp_size]
    decide
  · rw [write_aac_mp4_eq _ _ _ _ _ _ _ (by decide) (by decide)]
    show List.take 24 ([] ++ (serialize aac_mp4_ftyp.write ++ _)) = _
    rw [List.nil_append, List.take_left' aac_mp4_ftyp_length, aac_mp4_ftyp_octets]

/-- C13, amended: for every input the `ftyp` box is 24 (0x18) octets long; its
size field holds 24 and its octets are the size, "ftyp", "isom", 0x00000200,
"isom" and "mp41"; they are the first octets handed to the sink, also when
the call then traps on a zero divisor. -/
theorem ftyp_is_24_octets (chunks : List u32) (data : List u8)
    (sample_rate number_of_samples max_samples_per_chunk : Nat) (ind : Indeterminate) :
    aac_mp4_ftyp.header.size.to_uint32_t = 24
    ∧ serialize aac_mp4_ftyp.write
        = (u32.new 24).octets ++ [102, 116, 121, 112] ++ [105, 115, 111, 109]
          ++ (u32.new 0x00000200).octets ++ [105, 115, 111, 109] ++ [109, 112, 52, 49]
    ∧ serialize aac_mp4_ftyp.write
        = [0, 0, 0, 24, 102, 116, 121, 112, 105, 115, 111, 109, 0, 0, 2, 0,
           105, 115, 111, 109, 109, 112, 52, 49]
    ∧ ("ftyp".toList.map Char.toNat = [102, 116, 121, 112]
        ∧ "isom".toList.map Char.toNat = [105, 115, 111, 109]
        ∧ "mp41".toList.map Char.toNat = [109, 112, 52, 49])
    ∧ (emitted (write_aac_mp4 (⟨[]⟩ : StreamAdapter) chunks data sample_rate number_of_samples
        max_samples_per_chunk ind)).take 24 = serialize aac_mp4_ftyp.write := by
  refine ⟨aac_mp4_ftyp_size, ?_, aac_mp4_ftyp_octets, by decide, ?_⟩
  · rw [aac_mp4_ftyp_octets]
    decide
  · by_cases hsr : sample_rate = 0
    · simp only [write_aac_mp4, hsr, if_true, emitted, FtypAtom_write_eq,
        StreamAdapter_stream_write, List.nil_append]
      exact List.take_of_length_le (Nat.le_of_eq aac_mp4_ftyp_length)
    · by_cases hf : max_samples_per_chunk = 0
      · simp only [write_aac_mp4, hsr, hf, if_true, if_false, emitted, FtypAtom_write_eq,
          StreamAdapter_stream_write, List.nil_append]
        exact List.take_of_length_le (Nat.le_of_eq aac_mp4_ftyp_length)
      · rw [write_aac_mp4_eq _ _ _ _ _ _ _ hsr hf]
        show List.take 24 ([] ++ (serialize aac_mp4_ftyp.write ++ _)) = _
        rw [List.nil_append, List.take_left' aac_mp4_ftyp_length]

/-- C14: with a nonzero sample rate and frame length the call returns, and
what it has handed to the sink is the octets of `ftyp`, those of `moov`, the
`mdat` header and `data`, in this order and nothing else; the `mdat` header is
the big-endian (8 + |data|) mod 2^32 followed by "mdat", and the last |data|
octets of the output are `data`. -/
theorem output_is_ftyp_moov_mdat {S : Type} [ByteSink S] [LawfulByteSink S] (s : S)
    (chunks : List u32) (data : List u8)
    (sample_rate number_of_samples max_samples_per_chunk : Nat) (ind : Indeterminate)
    (hsr : 0 < sample_rate) (hf : 0 < max_samples_per_chunk) :
    write_aac_mp4 s chunks data sample_rate number_of_samples max_samples_per_chunk ind
      = Except.ok (ByteSink.write s
          (serialize aac_mp4_ftyp.write
            ++ serialize (aac_mp4_moov_written chunks sample_rate number_of_samples
                max_samples_per_chunk ind).write
            ++ ((u32.new ((8 + data.length) % 2 ^ 32)).octets ++ [109, 100, 97, 116])
            ++ data))
    ∧ big_endian_value (u32.new ((8 + data.length) % 2 ^ 32)).octets
        = (8 + data.length) % 2 ^ 32
    ∧ "mdat".toList.map Char.toNat = [109, 100, 97, 116]
    ∧ (∃ out : StreamAdapter,
        write_aac_mp4 (⟨[]⟩ : StreamAdapter) chunks data sample_rate number_of_samples
          max_samples_per_chunk ind = Except.ok out
        ∧ out.stream.drop (out.stream.length - data.length) = data) := by
  have hsr' : sample_rate ≠ 0 := by omega
  have hf' : max_samples_per_chunk ≠ 0 := by omega
  have hmdat : serialize (aac_mp4_mdat data).write
      = ((u32.new ((8 + data.length) % 2 ^ 32)).octets ++ [109, 100, 97, 116]) ++ data := by
    rw [RefMdatBox_serialize_eq, AtomHeader_serialize_eq]
    have hsize : (aac_mp4_mdat data).header.size = u32.new ((8 + data.length) % 2 ^ 32) := by
      show u32.new (uint64_t (sizeof_AtomHeader + data.length)) = _
      simp only [u32.new, uint64_t, uint32_t, sizeof_AtomHeader]
      have e : (4 + 4 + data.length) % 2 ^ 64 % 2 ^ 32
          = (8 + data.length) % 2 ^ 32 % 2 ^ 32 := by omega
      rw [e]
    rw [hsize]
    rfl
  refine ⟨?_, ?_, by decide, ⟨_, write_aac_mp4_eq chunks data sample_rate number_of_samples
    max_samples_per_chunk ind _ hsr' hf', ?_⟩⟩
  · rw [write_aac_mp4_eq chunks data sample_rate number_of_samples max_samples_per_chunk ind
      s hsr' hf', hmdat]
    simp only [List.append_assoc]
  · have hlt : (8 + data.length) % 2 ^ 32 < 2 ^ 32 := Nat.mod_lt _ (by decide)
    generalize (8 + data.length) % 2 ^ 32 = v at hlt
    simp only [u32.octets, u32.new, uint32_t, uint8_t, Nat.mod_eq_of_lt hlt, big_endian_value,
      List.foldl_cons, List.foldl_nil, Nat.shiftRight_eq_div_pow]
    omega
  · rw [StreamAdapter_stream_write, List.nil_append, hmdat]
    simp only [← List.append_assoc]
    rw [List.length_append, Nat.add_sub_cancel]
    exact List.drop_left _ _

set_option maxRecDepth 8192 in
/-- C14 at two frames and a payload of 238 octets. -/
theorem output_is_ftyp_moov_mdat_witness :
    (0 < 16000 ∧ 0 < 1024)
    ∧ ∃ out : StreamAdapter,
        write_aac_mp4 (⟨[]⟩ : StreamAdapter) two_frames payload_238 16000 2048 1024
          zero_indeterminate = Except.ok out
        ∧ out.stream.drop (out.stream.length - payload_238.length) = payload_238 :=
  ⟨⟨by decide, by decide⟩,
    (output_is_ftyp_moov_mdat (⟨[]⟩ : StreamAdapter) two_frames payload_238 16000 2048 1024
      zero_indeterminate (by decide) (by decide)).2.2.2⟩

theorem write_aac_mp4_zero_frame_length {S : Type} [ByteSink S] [LawfulByteSink S] (s : S)
    (chunks : List u32) (data : List u8) (sample_rate number_of_samples : Nat)
    (ind : Indeterminate) :
    write_aac_mp4 s chunks data sample_rate number_of_samples 0 ind
      = Except.error ⟨ByteSink.write s (serialize aac_mp4_ftyp.write)⟩ := by
  by_cases hsr : sample_rate = 0
  · simp only [write_aac_mp4, hsr, if_true, FtypAtom_write_eq]
  · simp only [write_aac_mp4, hsr, if_true, if_false, FtypAtom_write_eq]

theorem RefMdatBox_size_field (data : List u8) :
    (aac_mp4_mdat data).header.size.to_uint32_t = (8 + data.length) % 2 ^ 32 :=
  RefMdatBox_compute_size (RefMdatBox.new data)

theorem aac_mp4_stsz_size_field (chunks : List u32)
    (sample_rate number_of_samples max_samples_per_chunk : Nat) (ind : Indeterminate) :
    (aac_mp4_stbl chunks sample_rate number_of_samples max_samples_per_chunk
      ind).stsz.header.header.size.to_uint32_t = (20 + chunks.length * 4) % 2 ^ 32 :=
  StszBox_compute_size
    (aac_mp4_moov chunks sample_rate number_of_samples max_samples_per_chunk
      ind).trak.mdia.minf.stbl.stsz

/-- C16, as stated, fails: with a payload of 2^32 - 8 octets the call returns
and the `mdat` size field holds 0, the exact size 2^32 reduced modulo 2^32;
with 2^30 frames it returns and the `stsz` size field holds 20. -/
theorem capacity_overflow_counterexample :
    (∃ out : StreamAdapter,
      write_aac_mp4 (⟨[]⟩ : StreamAdapter) two_frames payload_4g 16000 2048 1024
        zero_indeterminate = Except.ok out)
    ∧ 2 ^ 32 ≤ 8 + payload_4g.length
    ∧ (aac_mp4_mdat payload_4g).header.size.to_uint32_t = 0
    ∧ (aac_mp4_mdat payload_4g).header.size.to_uint32_t = (8 + payload_4g.length) % 2 ^ 32
    ∧ (∃ out : StreamAdapter,
      write_aac_mp4 (⟨[]⟩ : StreamAdapter) frames_4g payload_238 16000 2048 1024
        zero_indeterminate = Except.ok out)
    ∧ 2 ^ 32 ≤ 20 + 4 * frames_4g.length
    ∧ (aac_mp4_stbl frames_4g 16000 2048 1024
        zero_indeterminate).stsz.header.header.size.to_uint32_t = 20
    ∧ (aac_mp4_stbl frames_4g 16000 2048 1024
        zero_indeterminate).stsz.header.header.size.to_uint32_t
          = (20 + 4 * frames_4g.length) % 2 ^ 32 := by
  have hp : payload_4g.length = 4294967288 := List.length_replicate _ _
  have hc : frames_4g.length = 1073741824 := List.length_replicate _ _
  refine ⟨⟨_, write_aac_mp4_eq _ _ _ _ _ _ _ (by decide) (by decide)⟩, ?_, ?_, ?_,
    ⟨_, write_aac_mp4_eq _ _ _ _ _ _ _ (by decide) (by decide)⟩, ?_, ?_, ?_⟩
  · rw [hp]
    decide
  · rw [RefMdatBox_size_field, hp]
    decide
  · rw [RefMdatBox_size_field]
  · rw [hc]
    decide
  · rw [aac_mp4_stsz_size_field, hc]
    decide
  · rw [aac_mp4_stsz_size_field, hc]

/-- C16, amended: `write_aac_mp4` detects no overflow. With a nonzero sample
rate and frame length it returns for every frame list and payload, and the
size fields hold the exact sizes reduced modulo 2^32: (20 + 4 * frames) mod
2^32 in `stsz`, (8 + |data|) mod 2^32 in `mdat`, and in `moov`
(615 + 8 * runs + 4 * frames) mod 2^32, runs being the number of `stts`
entries. -/
theorem size_fields_wrap (chunks : List u32) (data : List u8)
    (sample_rate number_of_samples max_samples_per_chunk : Nat) (ind : Indeterminate)
    (hsr : 0 < sample_rate) (hf : 0 < max_samples_per_chunk) :
    (∃ out : StreamAdapter,
      write_aac_mp4 (⟨[]⟩ : StreamAdapter) chunks data sample_rate number_of_samples
        max_samples_per_chunk ind = Except.ok out
      ∧ out.stream = serialize aac_mp4_ftyp.write
          ++ (serialize (aac_mp4_moov_written chunks sample_rate number_of_samples
                max_samples_per_chunk ind).write
          ++ serialize (aac_mp4_mdat data).write))
    ∧ (aac_mp4_stbl chunks sample_rate number_of_samples max_samples_per_chunk
        ind).stsz.header.header.size.to_uint32_t = (20 + 4 * chunks.length) % 2 ^ 32
    ∧ (aac_mp4_mdat data).header.size.to_uint32_t = (8 + data.length) % 2 ^ 32
    ∧ (aac_mp4_moov_written chunks sample_rate number_of_samples max_samples_per_chunk
        ind).header.size.to_uint32_t
        = (615 + 8 * (if number_of_samples % max_samples_per_chunk = 0 then 1 else 2)
            + 4 * chunks.length) % 2 ^ 32 := by
  obtain ⟨out, h, hout, _⟩ := write_aac_mp4_boxes chunks data sample_rate number_of_samples
    max_samples_per_chunk ind hsr hf
  refine ⟨⟨out, h, hout⟩, ?_, RefMdatBox_size_field data,
    aac_mp4_moov_written_size chunks sample_rate number_of_samples max_samples_per_chunk ind⟩
  rw [aac_mp4_stsz_size_field, Nat.mul_comm]

/-- C16 as amended, at two frames and a payload of 238 octets. -/
theorem size_fields_wrap_witness :
    (0 < 16000 ∧ 0 < 1024)
    ∧ (aac_mp4_mdat payload_238).header.size.to_uint32_t = (8 + payload_238.length) % 2 ^ 32 :=
  ⟨⟨by decide, by decide⟩,
    (size_fields_wrap two_frames payload_238 16000 2048 1024 zero_indeterminate
      (by decide) (by decide)).2.2.1⟩

theorem aac_mp4_mdat_header (data : List u8) :
    (aac_mp4_mdat data).header
      = ⟨u32.new (uint64_t (8 + data.length)), BoxType.new "mdat"⟩ := rfl

theorem aac_mp4_stsz_eq (chunks : List u32)
    (sample_rate number_of_samples max_samples_per_chunk : Nat) (ind : Indeterminate) :
    (aac_mp4_stbl chunks sample_rate number_of_samples max_samples_per_chunk ind).stsz
      = { header :=
            { header := ⟨u32.new (uint64_t (20 + chunks.length * 4)), BoxType.new "stsz"⟩
              version := 0
              flags := u24.new 0
              sample_size := u32.new 0
              number_of_entries := u32.new chunks.length }
          entries := chunks } := rfl

theorem aac_mp4_stco_serialize (chunks : List u32)
    (sample_rate number_of_samples max_samples_per_chunk : Nat) (ind : Indeterminate) :
    serialize (aac_mp4_stbl chunks sample_rate number_of_samples max_samples_per_chunk
      ind).stco.write
      = [0, 0, 0, 20, 115, 116, 99, 111, 0, 0, 0, 0, 0, 0, 0, 1]
        ++ (aac_mp4_chunk_offset chunks sample_rate number_of_samples max_samples_per_chunk
              ind).octets := by
  rw [StcoAtom_serialize_eq, AtomHeader_serialize_eq]
  rfl

theorem aac_mp4_chunk_offset_value (chunks : List u32)
    (sample_rate number_of_samples max_samples_per_chunk : Nat) (ind : Indeterminate) :
    aac_mp4_chunk_offset chunks sample_rate number_of_samples max_samples_per_chunk ind
      = u32.new (uint32_t (uint32_t (24
          + (615 + 8 * (if number_of_samples % max_samples_per_chunk = 0 then 1 else 2)
              + 4 * chunks.length) % 2 ^ 32) + 8)) := by
  rw [aac_mp4_chunk_offset_eq, aac_mp4_ftyp_size, aac_mp4_moov_compute_size]

/-- C17: with a sample rate of 16000, frames of 1024 samples, 2048 samples, the
frame sizes 120 and 118 and any payload of 238 octets, `write_aac_mp4` returns
and its output holds `stts` with the one entry (2, 1024), `stsc` with the one
entry (1, 2, 1), `stsz` with the entries 120 and 118, `stco` with one entry
equal to `ftyp.size + moov.size + 8` (663), and `mdat` with size field 246
followed by the 238 octets of the payload. -/
theorem scenario_two_frames (data : List u8) (ind : Indeterminate) (hd : data.length = 238) :
    let moov := aac_mp4_moov_written two_frames 16000 2048 1024 ind
    let stbl := aac_mp4_stbl two_frames 16000 2048 1024 ind
    let mdat := aac_mp4_mdat data
    (∃ out : StreamAdapter,
      write_aac_mp4 (⟨[]⟩ : StreamAdapter) two_frames data 16000 2048 1024 ind = Except.ok out
      ∧ out.stream = serialize aac_mp4_ftyp.write
          ++ (serialize moov.write ++ serialize mdat.write)
      ∧ serialize stbl.stts.write <:+: out.stream
      ∧ serialize stbl.stsc.write <:+: out.stream
      ∧ serialize stbl.stsz.write <:+: out.stream
      ∧ serialize stbl.stco.write <:+: out.stream)
    ∧ two_frames.map u32.to_uint32_t = [120, 118]
    ∧ stbl.stts.number_of_entries.to_uint32_t = 1
    ∧ stbl.stts.emitted_entries = [(2, 1024)]
    ∧ serialize stbl.stts.write
        = [0, 0, 0, 24, 115, 116, 116, 115, 0, 0, 0, 0, 0, 0, 0, 1, 0, 0, 0, 2, 0, 0, 4, 0]
    ∧ stbl.stsc.emitted_entries = [(1, 2, 1)]
    ∧ serialize stbl.stsc.write
        = [0, 0, 0, 28, 115, 116, 115, 99, 0, 0, 0, 0, 0, 0, 0, 1,
           0, 0, 0, 1, 0, 0, 0, 2, 0, 0, 0, 1]
    ∧ stbl.stsz.entries.map u32.to_uint32_t = [120, 118]
    ∧ serialize stbl.stsz.write
        = [0, 0, 0, 28, 115, 116, 115, 122, 0, 0, 0, 0, 0, 0, 0, 0, 0, 0, 0, 2,
           0, 0, 0, 120, 0, 0, 0, 118]
    ∧ stbl.stco.number_of_entries.to_uint32_t = 1
    ∧ (aac_mp4_chunk_offset two_frames 16000 2048 1024 ind).to_uint32_t
        = aac_mp4_ftyp.header.size.to_uint32_t + moov.header.size.to_uint32_t + 8
    ∧ (aac_mp4_chunk_offset two_frames 16000 2048 1024 ind).to_uint32_t = 663
    ∧ serialize stbl.stco.write
        = [0, 0, 0, 20, 115, 116, 99, 111, 0, 0, 0, 0, 0, 0, 0, 1, 0, 0, 2, 151]
    ∧ mdat.header.size.to_uint32_t = 246
    ∧ serialize mdat.write = [0, 0, 0, 246, 109, 100, 97, 116] ++ data
    ∧ (serialize mdat.write).length - 8 = 238 := by
  intro moov stbl mdat
  have h1 : (u32.new 1).to_uint32_t = 1 := u32_new_eq_of_lt 1 (by decide)
  have hstts : stbl.stts = _ :=
    aac_mp4_stts_of_rem_eq_zero two_frames 16000 2048 1024 ind (by decide)
  have hstsc := aac_mp4_stsc_entries two_frames 16000 2048 1024 ind
  have hstsz : stbl.stsz = _ := aac_mp4_stsz_eq two_frames 16000 2048 1024 ind
  have hoff := aac_mp4_chunk_offset_value two_frames 16000 2048 1024 ind
  have hmoov : moov.header.size.to_uint32_t = 631 := by
    show (aac_mp4_moov_written two_frames 16000 2048 1024 ind).header.size.to_uint32_t = 631
    rw [aac_mp4_moov_written_size]
    decide
  have hmdat : serialize mdat.write = [0, 0, 0, 246, 109, 100, 97, 116] ++ data := by
    have hh : serialize mdat.header.write = [0, 0, 0, 246, 109, 100, 97, 116] := by
      show serialize (aac_mp4_mdat data).header.write = _
      rw [AtomHeader_serialize_eq, aac_mp4_mdat_header, hd]
      decide
    rw [RefMdatBox_serialize_eq, hh]
    rfl
  refine ⟨?_, by decide, ?_, ?_, ?_, ?_, ?_, ?_, ?_, ?_, ?_, ?_, ?_, ?_, hmdat, ?_⟩
  · obtain ⟨out, h, hout, hb⟩ := write_aac_mp4_boxes two_frames data 16000 2048 1024 ind
      (by decide) (by decide)
    exact ⟨out, h, hout, hb.2.2.2.2.2.2.2.1, hb.2.2.2.2.2.2.2.2.1, hb.2.2.2.2.2.2.2.2.2.1,
      hb.2.2.2.2.2.2.2.2.2.2⟩
  · rw [hstts]
    exact h1
  · rw [hstts]
    decide
  · rw [hstts]
    decide
  · show (aac_mp4_stbl two_frames 16000 2048 1024 ind).stsc.emitted_entries = _
    rw [hstsc.1]
    decide
  · show serialize (aac_mp4_stbl two_frames 16000 2048 1024 ind).stsc.write = _
    rw [hstsc.2]
    decide
  · rw [hstsz]
    decide
  · rw [hstsz]
    decide
  · exact h1
  · rw [aac_mp4_ftyp_size, hmoov, hoff]
    decide
  · rw [hoff]
    decide
  · show serialize (aac_mp4_stbl two_frames 16000 2048 1024 ind).stco.write = _
    rw [aac_mp4_stco_serialize, hoff]
    decide
  · show (aac_mp4_mdat data).header.size.to_uint32_t = 246
    rw [RefMdatBox_size_field, hd]
    decide
  · rw [hmdat, List.length_append, hd]
    rfl

set_option maxRecDepth 8192 in
/-- C17 at a payload of 238 zero octets. -/
theorem scenario_two_frames_witness :
    payload_238.length = 238
    ∧ (aac_mp4_chunk_offset two_frames 16000 2048 1024 zero_indeterminate).to_uint32_t = 663
    ∧ (aac_mp4_mdat payload_238).header.size.to_uint32_t = 246 :=
  ⟨by decide,
    (scenario_two_frames payload_238 zero_indeterminate (by decide)).2.2.2.2.2.2.2.2.2.2.2.1,
    (scenario_two_frames payload_238 zero_indeterminate
      (by decide)).2.2.2.2.2.2.2.2.2.2.2.2.2.1⟩

/-- C18: with no frame, no payload, 0 samples, a nonzero sample rate and a
32-bit nonzero frame length f, `write_aac_mp4` returns (no divisor is 0) and
its output holds `stsz` with `number_of_entries` 0 and size 20 (its header
alone), `stts` with the one entry (0, f), `stsc` with the one entry (1, 0, 1),
and `stco` with one entry equal to `ftyp.size + moov.size + 8` (655). -/
theorem empty_frame_list (sample_rate max_samples_per_chunk : Nat) (ind : Indeterminate)
    (hsr : 0 < sample_rate) (hf : 0 < max_samples_per_chunk)
    (hfr : max_samples_per_chunk < 2 ^ 32) :
    let moov := aac_mp4_moov_written [] sample_rate 0 max_samples_per_chunk ind
    let stbl := aac_mp4_stbl [] sample_rate 0 max_samples_per_chunk ind
    (∃ out : StreamAdapter,
      write_aac_mp4 (⟨[]⟩ : StreamAdapter) [] [] sample_rate 0 max_samples_per_chunk ind
        = Except.ok out
      ∧ out.stream = serialize aac_mp4_ftyp.write
          ++ (serialize moov.write ++ serialize (aac_mp4_mdat []).write)
      ∧ serialize stbl.stts.write <:+: out.stream
      ∧ serialize stbl.stsc.write <:+: out.stream
      ∧ serialize stbl.stsz.write <:+: out.stream
      ∧ serialize stbl.stco.write <:+: out.stream)
    ∧ stbl.stsz.header.number_of_entries.to_uint32_t = 0
    ∧ stbl.stsz.header.header.size.to_uint32_t = 20
    ∧ stbl.stsz.entries = []
    ∧ serialize stbl.stsz.write
        = [0, 0, 0, 20, 115, 116, 115, 122, 0, 0, 0, 0, 0, 0, 0, 0, 0, 0, 0, 0]
    ∧ stbl.stts.number_of_entries.to_uint32_t = 1
    ∧ stbl.stts.emitted_entries = [(0, max_samples_per_chunk)]
    ∧ serialize stbl.stts.write
        = [0, 0, 0, 24, 115, 116, 116, 115, 0, 0, 0, 0, 0, 0, 0, 1, 0, 0, 0, 0]
          ++ (u32.new max_samples_per_chunk).octets
    ∧ stbl.stsc.emitted_entries = [(1, 0, 1)]
    ∧ serialize stbl.stsc.write
        = [0, 0, 0, 28, 115, 116, 115, 99, 0, 0, 0, 0, 0, 0, 0, 1,
           0, 0, 0, 1, 0, 0, 0, 0, 0, 0, 0, 1]
    ∧ stbl.stco.number_of_entries.to_uint32_t = 1
    ∧ (aac_mp4_chunk_offset [] sample_rate 0 max_samples_per_chunk ind).to_uint32_t
        = aac_mp4_ftyp.header.size.to_uint32_t + moov.header.size.to_uint32_t + 8
    ∧ (aac_mp4_chunk_offset [] sample_rate 0 max_samples_per_chunk ind).to_uint32_t = 655
    ∧ serialize stbl.stco.write
        = [0, 0, 0, 20, 115, 116, 99, 111, 0, 0, 0, 0, 0, 0, 0, 1, 0, 0, 2, 143] := by
  intro moov stbl
  have h1 : (u32.new 1).to_uint32_t = 1 := u32_new_eq_of_lt 1 (by decide)
  have h0 : (u32.new 0).to_uint32_t = 0 := u32_new_eq_of_lt 0 (by decide)
  have hstts : stbl.stts = _ :=
    aac_mp4_stts_of_rem_eq_zero [] sample_rate 0 max_samples_per_chunk ind (Nat.zero_mod _)
  have hstsc := aac_mp4_stsc_entries [] sample_rate 0 max_samples_per_chunk ind
  have hstsz : stbl.stsz = _ := aac_mp4_stsz_eq [] sample_rate 0 max_samples_per_chunk ind
  have hq : uint32_t (uint32_t (0 + max_samples_per_chunk) + 2 ^ 32 - 1)
      / max_samples_per_chunk = 0 := by
    have e : uint32_t (uint32_t (0 + max_samples_per_chunk) + 2 ^ 32 - 1)
        = max_samples_per_chunk - 1 := by
      simp only [uint32_t]
      omega
    rw [e]
    exact Nat.div_eq_of_lt (by omega)
  have hoff : aac_mp4_chunk_offset [] sample_rate 0 max_samples_per_chunk ind = u32.new 655 := by
    rw [aac_mp4_chunk_offset_value, Nat.zero_mod, if_pos rfl]
    rfl
  have hmoov : moov.header.size.to_uint32_t = 623 := by
    show (aac_mp4_moov_written [] sample_rate 0 max_samples_per_chunk ind).header.size.to_uint32_t
      = 623
    rw [aac_mp4_moov_written_size, Nat.zero_mod, if_pos rfl]
    rfl
  have h655 : (u32.new 655).to_uint32_t = 655 := u32_new_eq_of_lt 655 (by decide)
  refine ⟨?_, ?_, ?_, ?_, ?_, ?_, ?_, ?_, ?_, ?_, ?_, ?_, ?_, ?_⟩
  · obtain ⟨out, h, hout, hb⟩ := write_aac_mp4_boxes [] [] sample_rate 0
      max_samples_per_chunk ind hsr hf
    exact ⟨out, h, hout, hb.2.2.2.2.2.2.2.1, hb.2.2.2.2.2.2.2.2.1, hb.2.2.2.2.2.2.2.2.2.1,
      hb.2.2.2.2.2.2.2.2.2.2⟩
  · rw [hstsz]
    exact h0
  · show (aac_mp4_stbl [] sample_rate 0 max_samples_per_chunk
      ind).stsz.header.header.size.to_uint32_t = 20
    rw [aac_mp4_stsz_size_field]
    rfl
  · rfl
  · rw [hstsz, StszBox_serialize_eq, AtomHeader_serialize_eq]
    decide
  · rw [hstts]
    exact h1
  · rw [hstts]
    simp only [SttsAtom.emitted_entries, h1, List.take_succ_cons, List.take_zero,
      List.map_cons, List.map_nil, Nat.zero_div, h0, u32_new_eq_of_lt _ hfr]
  · rw [hstts]
    simp only [SttsAtom_serialize_eq, AtomHeader_serialize_eq, h1, List.take_succ_cons,
      List.take_zero, List.flatMap_cons, List.flatMap_nil, Nat.zero_div]
    rfl
  · show (aac_mp4_stbl [] sample_rate 0 max_samples_per_chunk ind).stsc.emitted_entries = _
    rw [hstsc.1, hq]
    rfl
  · show serialize (aac_mp4_stbl [] sample_rate 0 max_samples_per_chunk ind).stsc.write = _
    rw [hstsc.2, hq]
    decide
  · exact h1
  · rw [aac_mp4_ftyp_size, hmoov, hoff]
    exact h655
  · rw [hoff]
    exact h655
  · show serialize (aac_mp4_stbl [] sample_rate 0 max_samples_per_chunk ind).stco.write = _
    rw [aac_mp4_stco_serialize, hoff]
    decide

/-- C18 at a sample rate of 16000 and frames of 1024 samples. -/
theorem empty_frame_list_witness :
    (0 < 16000 ∧ 0 < 1024 ∧ 1024 < 2 ^ 32)
    ∧ (aac_mp4_stbl [] 16000 0 1024 zero_indeterminate).stts.emitted_entries = [(0, 1024)]
    ∧ (aac_mp4_stbl [] 16000 0 1024 zero_indeterminate).stsc.emitted_entries = [(1, 0, 1)] :=
  ⟨⟨by decide, by decide, by decide⟩,
    (empty_frame_list 16000 1024 zero_indeterminate (by decide) (by decide)
      (by decide)).2.2.2.2.2.2.1,
    (empty_frame_list 16000 1024 zero_indeterminate (by decide) (by decide)
      (by decide)).2.2.2.2.2.2.2.2.1⟩

theorem StsdBox_serialize_eq (self : StsdBox) :
    serialize self.write = serialize self.header.write
      ++ self.sample_description_entries.flatMap (fun e => serialize e.write) := by
  show (self.write (⟨[]⟩ : StreamAdapter)).stream = _
  simp only [StsdBox.write, StsdHeader_write_eq, SampleDescriptionEntry_foldl_write_eq,
    LawfulByteSink.write_write, StreamAdapter_stream_write, List.nil_append]

theorem SampleDescriptionEntry_serialize_eq (self : SampleDescriptionEntry) :
    serialize self.write = serialize self.header.write
      ++ (serialize self.esds.write ++ serialize self.btrt.write) := by
  show (self.write (⟨[]⟩ : StreamAdapter)).stream = _
  simp only [SampleDescriptionEntry.write, SampleDescriptionEntryHeader_write_eq,
    EsdsAtom_write_eq, BtrtAtom_write_eq, LawfulByteSink.write_write,
    StreamAdapter_stream_write, List.nil_append, List.append_assoc]

/-- The one sample description that is serialized is the local `sd` after its
`compute()`. -/
theorem aac_mp4_stsd_entries (chunks : List u32)
    (sample_rate number_of_samples max_samples_per_chunk : Nat) (ind : Indeterminate) :
    (aac_mp4_moov_written chunks sample_rate number_of_samples max_samples_per_chunk
      ind).trak.mdia.minf.stbl.stsd.sample_description_entries
      = [(aac_mp4_sd sample_rate ind).compute] := rfl

/-- The octets of `esds` lie within the octets of `stsd`. -/
theorem aac_mp4_esds_in_stsd (chunks : List u32)
    (sample_rate number_of_samples max_samples_per_chunk : Nat) (ind : Indeterminate) :
    serialize (aac_mp4_sd sample_rate ind).compute.esds.write
      <:+: serialize (aac_mp4_moov_written chunks sample_rate number_of_samples
        max_samples_per_chunk ind).trak.mdia.minf.stbl.stsd.write := by
  rw [StsdBox_serialize_eq, aac_mp4_stsd_entries, List.flatMap_cons, List.flatMap_nil,
    List.append_nil, SampleDescriptionEntry_serialize_eq]
  exact infix_tail _ _ _ (infix_tail _ _ _ (infix_head _ _))

theorem aac_mp4_esds_octets (sample_rate : Nat) (ind : Indeterminate) :
    serialize (aac_mp4_sd sample_rate ind).compute.esds.write
      = [0, 0, 0, 54, 101, 115, 100, 115, 0, 0, 0, 0, 3, 128, 128, 128, 37, 0, 1,
         ind.sd_esds_desc_flags, 4, 128, 128, 128, 23, 64, 21, 0, 0, 0, 0, 1, 13, 136,
         0, 0, 227, 111, 5, 128, 128, 128, 5, 20, 8, 86, 229, 0, 6, 128, 128, 128, 1, 2] := by
  rw [EsdsAtom_serialize_eq, AtomHeader_serialize_eq]
  simp only [List.append_assoc, List.cons_append, List.nil_append, List.singleton_append]
  rfl

theorem aac_mp4_dinf_eq (chunks : List u32)
    (sample_rate number_of_samples max_samples_per_chunk : Nat) (ind : Indeterminate) :
    (aac_mp4_moov_written chunks sample_rate number_of_samples max_samples_per_chunk
      ind).trak.mdia.minf.dinf
      = DinfBox.compute
          { header := AtomHeader.zero
            dref :=
              { header := AtomHeader.zero
                version := uint8_t 0
                flags := u24.new 0
                entry_count := u32.new 1
                data_entries := ⟨[{ header := { AtomHeader.zero with
                                      type := BoxType.new "url " }
                                    version := uint8_t 1
                                    flags := u24.new 0 }], rfl⟩ } } := rfl

theorem aac_mp4_dinf_octets (chunks : List u32)
    (sample_rate number_of_samples max_samples_per_chunk : Nat) (ind : Indeterminate) :
    serialize (aac_mp4_moov_written chunks sample_rate number_of_samples max_samples_per_chunk
      ind).trak.mdia.minf.dinf.write
      = [0, 0, 0, 36, 100, 105, 110, 102, 0, 0, 0, 28, 100, 114, 101, 102, 0, 0, 0, 0,
         0, 0, 0, 1, 0, 0, 0, 12, 117, 114, 108, 32, 1, 0, 0, 0] := by
  rw [aac_mp4_dinf_eq]
  decide

theorem aac_mp4_hdlr_octets (chunks : List u32)
    (sample_rate number_of_samples max_samples_per_chunk : Nat) (ind : Indeterminate) :
    serialize (aac_mp4_moov_written chunks sample_rate number_of_samples max_samples_per_chunk
      ind).trak.mdia.hdlr.write
      = [0, 0, 0, 45, 104, 100, 108, 114, 0, 0, 0, 0, 0, 0, 0, 0, 115, 111, 117, 110,
         0, 0, 0, 0, 0, 0, 0, 0, 0, 0, 0, 0,
         83, 111, 117, 110, 100, 72, 97, 110, 100, 108, 101, 114, 0] := by
  rw [HdlrAtom_serialize_eq, AtomHeader_serialize_eq]
  rfl

theorem aac_mp4_mdhd_octets (chunks : List u32)
    (sample_rate number_of_samples max_samples_per_chunk : Nat) (ind : Indeterminate) :
    serialize (aac_mp4_moov_written chunks sample_rate number_of_samples max_samples_per_chunk
      ind).trak.mdia.mdhd.write
      = [0, 0, 0, 32, 109, 100, 104, 100, 0, 0, 0, 0, 0, 0, 0, 0, 0, 0, 0, 0]
        ++ (u32.new sample_rate).octets ++ (u32.new number_of_samples).octets
        ++ [85, 196, 0, 0] := by
  rw [MdhdAtom_serialize_eq, AtomHeader_serialize_eq]
  rfl

/-- C19: for every input with a nonzero sample rate and frame length the call
returns and the `moov` in its output carries, whatever the input,
`tkhd.track_id` 1, the `hdlr` handler type "soun" and name "SoundHandler"
followed by one zero octet, in `esds` the object type 0x40, a decoder-specific
payload of 5 octets and the SL-config `predefined` 2, `mdhd.language` 0x55C4,
`mvhd.timescale` 1000, and in `dref` an `entry_count` of 1 with the one entry
of type "url ". -/
theorem track_and_codec_constants (chunks : List u32) (data : List u8)
    (sample_rate number_of_samples max_samples_per_chunk : Nat) (ind : Indeterminate)
    (hsr : 0 < sample_rate) (hf : 0 < max_samples_per_chunk) :
    let moov := aac_mp4_moov_written chunks sample_rate number_of_samples
      max_samples_per_chunk ind
    (∃ out : StreamAdapter,
      write_aac_mp4 (⟨[]⟩ : StreamAdapter) chunks data sample_rate number_of_samples
        max_samples_per_chunk ind = Except.ok out
      ∧ serialize moov.write <:+: out.stream
      ∧ serialize moov.mvhd.write <:+: out.stream
      ∧ serialize moov.trak.tkhd.write <:+: out.stream
      ∧ serialize moov.trak.mdia.mdhd.write <:+: out.stream
      ∧ serialize moov.trak.mdia.hdlr.write <:+: out.stream
      ∧ serialize moov.trak.mdia.minf.dinf.write <:+: out.stream
      ∧ serialize moov.trak.mdia.minf.stbl.stsd.write <:+: out.stream)
    ∧ moov.trak.tkhd.track_id.to_uint32_t = 1
    ∧ ((serialize moov.trak.tkhd.write).drop 20).take 4 = [0, 0, 0, 1]
    ∧ moov.trak.mdia.hdlr.handler_type.octets = "soun".toList.map Char.toNat
    ∧ moov.trak.mdia.hdlr.name.elems = "SoundHandler".toList.map Char.toNat ++ [0]
    ∧ serialize moov.trak.mdia.hdlr.write
        = [0, 0, 0, 45, 104, 100, 108, 114, 0, 0, 0, 0, 0, 0, 0, 0]
          ++ "soun".toList.map Char.toNat ++ [0, 0, 0, 0, 0, 0, 0, 0, 0, 0, 0, 0]
          ++ "SoundHandler".toList.map Char.toNat ++ [0]
    ∧ (∃ sd : SampleDescriptionEntry,
        moov.trak.mdia.minf.stbl.stsd.sample_description_entries = [sd]
        ∧ serialize sd.esds.write <:+: serialize moov.trak.mdia.minf.stbl.stsd.write
        ∧ sd.esds.desc.decoder_config.object_type = 0x40
        ∧ sd.esds.desc.decoder_config.decoder_specific.size.elems = [0x80, 0x80, 0x80, 5]
        ∧ sd.esds.desc.decoder_config.decoder_specific.specific.elems
            = [0x14, 0x08, 0x56, 0xe5, 0x00]
        ∧ sd.esds.desc.decoder_config.decoder_specific.specific.elems.length = 5
        ∧ sd.esds.desc.sl_config.predefined = 0x02
        ∧ serialize sd.esds.write
            = [0, 0, 0, 54, 101, 115, 100, 115, 0, 0, 0, 0, 3, 128, 128, 128, 37, 0, 1,
               ind.sd_esds_desc_flags, 4, 128, 128, 128, 23, 0x40, 21, 0, 0, 0, 0, 1, 13, 136,
               0, 0, 227, 111, 5, 128, 128, 128, 5, 0x14, 0x08, 0x56, 0xe5, 0x00,
               6, 128, 128, 128, 1, 0x02])
    ∧ moov.trak.mdia.mdhd.language.to_uint16_t = 0x55C4
    ∧ ((serialize moov.trak.mdia.mdhd.write).drop 28).take 2 = [0x55, 0xC4]
    ∧ moov.mvhd.timescale.to_uint32_t = 1000
    ∧ ((serialize moov.mvhd.write).drop 20).take 4 = [0, 0, 3, 232]
    ∧ moov.trak.mdia.minf.dinf.dref.entry_count.to_uint32_t = 1
    ∧ moov.trak.mdia.minf.dinf.dref.data_entries.elems.map (fun e => e.header.type)
        = [BoxType.new "url "]
    ∧ serialize moov.trak.mdia.minf.dinf.write
        = [0, 0, 0, 36, 100, 105, 110, 102, 0, 0, 0, 28, 100, 114, 101, 102, 0, 0, 0, 0,
           0, 0, 0, 1, 0, 0, 0, 12]
          ++ "url ".toList.map Char.toNat ++ [1, 0, 0, 0] := by
  intro moov
  have hoct := aac_mp4_movie_duration_octets chunks sample_rate number_of_samples
    max_samples_per_chunk ind
  refine ⟨?_, ?_, ?_, ?_, ?_, ?_, ⟨(aac_mp4_sd sample_rate ind).compute, rfl,
    aac_mp4_esds_in_stsd chunks sample_rate number_of_samples max_samples_per_chunk ind,
    rfl, rfl, rfl, rfl, rfl, aac_mp4_esds_octets sample_rate ind⟩, ?_, ?_, ?_, ?_, ?_, ?_, ?_⟩
  · obtain ⟨out, h, hout, hb⟩ := write_aac_mp4_boxes chunks data sample_rate number_of_samples
      max_samples_per_chunk ind hsr hf
    refine ⟨out, h, ?_, hb.1, hb.2.1, hb.2.2.2.1, hb.2.2.2.2.1, hb.2.2.2.2.2.1,
      hb.2.2.2.2.2.2.1⟩
    rw [hout]
    exact infix_tail _ _ _ (infix_head _ _)
  · show (u32.new 1).to_uint32_t = 1
    exact u32_new_eq_of_lt 1 (by decide)
  · rw [hoct.2.2.2.2.2.1]
    rfl
  · rfl
  · rfl
  · show serialize (aac_mp4_moov_written chunks sample_rate number_of_samples
      max_samples_per_chunk ind).trak.mdia.hdlr.write = _
    rw [aac_mp4_hdlr_octets]
    decide
  · show (u16.new 0x55c4).to_uint16_t = 0x55C4
    rw [u16_to_new]
    decide
  · show ((serialize (aac_mp4_moov_written chunks sample_rate number_of_samples
      max_samples_per_chunk ind).trak.mdia.mdhd.write).drop 28).take 2 = _
    rw [aac_mp4_mdhd_octets]
    rfl
  · show (u32.new 1000).to_uint32_t = 1000
    exact u32_new_eq_of_lt 1000 (by decide)
  · rw [hoct.2.2.2.2.1]
    rfl
  · show (u32.new 1).to_uint32_t = 1
    exact u32_new_eq_of_lt 1 (by decide)
  · rfl
  · show serialize (aac_mp4_moov_written chunks sample_rate number_of_samples
      max_samples_per_chunk ind).trak.mdia.minf.dinf.write = _
    rw [aac_mp4_dinf_octets]
    decide

/-- C19 at two frames of 1024 samples at 16000 Hz. -/
theorem track_and_codec_constants_witness :
    (0 < 16000 ∧ 0 < 1024)
    ∧ (aac_mp4_moov_written two_frames 16000 2048 1024
        zero_indeterminate).trak.tkhd.track_id.to_uint32_t = 1
    ∧ (aac_mp4_moov_written two_frames 16000 2048 1024
        zero_indeterminate).trak.mdia.mdhd.language.to_uint16_t = 0x55C4 :=
  ⟨⟨by decide, by decide⟩,
    (track_and_codec_constants two_frames payload_238 16000 2048 1024 zero_indeterminate
      (by decide) (by decide)).2.1,
    (track_and_codec_constants two_frames payload_238 16000 2048 1024 zero_indeterminate
      (by decide) (by decide)).2.2.2.2.2.2.2.1⟩
theorem big_endian_value_u32_new (v : Nat) (hv : v < 2 ^ 32) :
    big_endian_value (u32.new v).octets = v := by
  simp only [u32.octets, u32.new, uint32_t, uint8_t, Nat.mod_eq_of_lt hv, big_endian_value,
    List.foldl_cons, List.foldl_nil, Nat.shiftRight_eq_div_pow]
  omega

/-- C20: for every input (32-bit arguments) the `mdhd` that is built has
`timescale` equal to `sample_rate` and `duration` equal to
`number_of_samples`, unscaled; its octets hold the two as big-endian 32-bit
fields at offsets 20 and 24, and `mvhd.timescale` is 1000, at offset 20 of
`mvhd`. With a nonzero sample rate and frame length the call returns and its
output contains both boxes. -/
theorem mdhd_timing_in_samples (chunks : List u32) (data : List u8)
    (sample_rate number_of_samples max_samples_per_chunk : Nat) (ind : Indeterminate)
    (hsr32 : sample_rate < 2 ^ 32) (hn32 : number_of_samples < 2 ^ 32) :
    let moov := aac_mp4_moov_written chunks sample_rate number_of_samples
      max_samples_per_chunk ind
    moov.trak.mdia.mdhd.timescale.to_uint32_t = sample_rate
    ∧ moov.trak.mdia.mdhd.duration.to_uint32_t = number_of_samples
    ∧ serialize moov.trak.mdia.mdhd.write
        = [0, 0, 0, 32, 109, 100, 104, 100, 0, 0, 0, 0, 0, 0, 0, 0, 0, 0, 0, 0]
          ++ moov.trak.mdia.mdhd.timescale.octets ++ moov.trak.mdia.mdhd.duration.octets
          ++ [85, 196, 0, 0]
    ∧ big_endian_value (((serialize moov.trak.mdia.mdhd.write).drop 20).take 4) = sample_rate
    ∧ big_endian_value (((serialize moov.trak.mdia.mdhd.write).drop 24).take 4)
        = number_of_samples
    ∧ moov.mvhd.timescale.to_uint32_t = 1000
    ∧ big_endian_value (((serialize moov.mvhd.write).drop 20).take 4) = 1000
    ∧ (0 < sample_rate → 0 < max_samples_per_chunk →
        ∃ out : StreamAdapter,
          write_aac_mp4 (⟨[]⟩ : StreamAdapter) chunks data sample_rate number_of_samples
            max_samples_per_chunk ind = Except.ok out
          ∧ serialize moov.mvhd.write <:+: out.stream
          ∧ serialize moov.trak.mdia.mdhd.write <:+: out.stream) := by
  intro moov
  have hoct := aac_mp4_movie_duration_octets chunks sample_rate number_of_samples
    max_samples_per_chunk ind
  have hmdhd : serialize moov.trak.mdia.mdhd.write = _ :=
    aac_mp4_mdhd_octets chunks sample_rate number_of_samples max_samples_per_chunk ind
  have h20 : ((serialize moov.trak.mdia.mdhd.write).drop 20).take 4
      = (u32.new sample_rate).octets := by
    rw [hmdhd]
    rfl
  have h24 : ((serialize moov.trak.mdia.mdhd.write).drop 24).take 4
      = (u32.new number_of_samples).octets := by
    rw [hmdhd]
    rfl
  refine ⟨?_, ?_, hmdhd, ?_, ?_, ?_, ?_, fun hsr hf => ?_⟩
  · show (u32.new sample_rate).to_uint32_t = sample_rate
    exact u32_new_eq_of_lt _ hsr32
  · show (u32.new number_of_samples).to_uint32_t = number_of_samples
    exact u32_new_eq_of_lt _ hn32
  · rw [h20]
    exact big_endian_value_u32_new _ hsr32
  · rw [h24]
    exact big_endian_value_u32_new _ hn32
  · show (u32.new 1000).to_uint32_t = 1000
    exact u32_new_eq_of_lt 1000 (by decide)
  · rw [hoct.2.2.2.2.1]
    rfl
  · obtain ⟨out, h, _, hb⟩ := write_aac_mp4_boxes chunks data sample_rate number_of_samples
      max_samples_per_chunk ind hsr hf
    exact ⟨out, h, hb.1, hb.2.2.2.1⟩

/-- C20 at 2048 samples at 16000 Hz. -/
theorem mdhd_timing_in_samples_witness :
    (16000 < 2 ^ 32 ∧ 2048 < 2 ^ 32)
    ∧ (aac_mp4_moov_written two_frames 16000 2048 1024
        zero_indeterminate).trak.mdia.mdhd.timescale.to_uint32_t = 16000
    ∧ (aac_mp4_moov_written two_frames 16000 2048 1024
        zero_indeterminate).trak.mdia.mdhd.duration.to_uint32_t = 2048 :=
  ⟨⟨by decide, by decide⟩,
    (mdhd_timing_in_samples two_frames payload_238 16000 2048 1024 zero_indeterminate
      (by decide) (by decide)).1,
    (mdhd_timing_in_samples two_frames payload_238 16000 2048 1024 zero_indeterminate
      (by decide) (by decide)).2.1⟩

/-- C21: after `MoovBox::compute()`, whatever the fields held before, the size
field of each composite box is 8 plus the size fields of its direct children,
reduced modulo 2^32: `moov` over `mvhd` and `trak`; `trak` over `tkhd`, `edts`
and `mdia`; `mdia` over `mdhd`, `hdlr` and `minf`; `minf` over `smhd`, `dinf`
and `stbl`; `stbl` over `stsd`, `stts`, `stsc`, `stsz` and `stco`; `dinf` over
`dref`; `edts` over `elst`. The children summed are those of the computed tree,
and each of them is its own `compute()` applied to what it held before. -/
theorem composite_sizes_are_bottom_up (moov : MoovBox) :
    let c := moov.compute
    let trak := c.trak
    let mdia := trak.mdia
    let minf := mdia.minf
    let stbl := minf.stbl
    c.header.size.to_uint32_t
        = (8 + c.mvhd.header.size.to_uint32_t + trak.header.size.to_uint32_t) % 2 ^ 32
    ∧ trak.header.size.to_uint32_t
        = (8 + trak.tkhd.header.size.to_uint32_t + trak.edts.header.size.to_uint32_t
            + mdia.header.size.to_uint32_t) % 2 ^ 32
    ∧ mdia.header.size.to_uint32_t
        = (8 + mdia.mdhd.header.size.to_uint32_t + mdia.hdlr.header.size.to_uint32_t
            + minf.header.size.to_uint32_t) % 2 ^ 32
    ∧ minf.header.size.to_uint32_t
        = (8 + minf.smhd.header.size.to_uint32_t + minf.dinf.header.size.to_uint32_t
            + stbl.header.size.to_uint32_t) % 2 ^ 32
    ∧ stbl.header.size.to_uint32_t
        = (8 + stbl.stsd.header.header.size.to_uint32_t + stbl.stts.header.size.to_uint32_t
            + stbl.stsc.header.size.to_uint32_t + stbl.stsz.header.header.size.to_uint32_t
            + stbl.stco.header.size.to_uint32_t) % 2 ^ 32
    ∧ minf.dinf.header.size.to_uint32_t
        = (8 + minf.dinf.dref.header.size.to_uint32_t) % 2 ^ 32
    ∧ trak.edts.header.size.to_uint32_t
        = (8 + trak.edts.elst.header.size.to_uint32_t) % 2 ^ 32
    ∧ (c.mvhd = moov.mvhd.compute ∧ trak = moov.trak.compute
        ∧ trak.tkhd = moov.trak.tkhd.compute ∧ trak.edts = moov.trak.edts.compute
        ∧ trak.edts.elst = moov.trak.edts.elst.compute
        ∧ mdia = moov.trak.mdia.compute ∧ mdia.mdhd = moov.trak.mdia.mdhd.compute
        ∧ mdia.hdlr = moov.trak.mdia.hdlr.compute ∧ minf = moov.trak.mdia.minf.compute
        ∧ minf.smhd = moov.trak.mdia.minf.smhd.compute
        ∧ minf.dinf = moov.trak.mdia.minf.dinf.compute
        ∧ minf.dinf.dref = moov.trak.mdia.minf.dinf.dref.compute
        ∧ stbl = moov.trak.mdia.minf.stbl.compute
        ∧ stbl.stsd = moov.trak.mdia.minf.stbl.stsd.compute
        ∧ stbl.stts = moov.trak.mdia.minf.stbl.stts.compute
        ∧ stbl.stsc = moov.trak.mdia.minf.stbl.stsc.compute
        ∧ stbl.stsz = moov.trak.mdia.minf.stbl.stsz.compute
        ∧ stbl.stco = moov.trak.mdia.minf.stbl.stco.compute) := by
  intro c trak mdia minf stbl
  refine ⟨MoovBox_compute_size moov, TrakBox_compute_size moov.trak,
    MdiaBox_compute_size moov.trak.mdia, MinfBox_compute_size moov.trak.mdia.minf,
    StblBox_compute_size moov.trak.mdia.minf.stbl, ?_, ?_,
    rfl, rfl, rfl, rfl, rfl, rfl, rfl, rfl, rfl, rfl, rfl, rfl, rfl, rfl, rfl, rfl, rfl, rfl⟩
  · show (DinfBox.compute moov.trak.mdia.minf.dinf).header.size.to_uint32_t = _
    simp only [DinfBox.compute, u32_new_uint64, sizeof_AtomHeader]
    rfl
  · show (EdtsBox.compute moov.trak.edts).header.size.to_uint32_t = _
    simp only [EdtsBox.compute, u32_new_uint64, sizeof_AtomHeader]
    rfl

/-- C24: whatever the fields held before, `compute()` on `mvhd`, `tkhd`, `mdhd`,
`hdlr`, `smhd`, `btrt`, `esds` and `ftyp` changes the header alone: the type
becomes the four-character code of the box and the size 108, 92, 32, 45, 16,
20, 54 and 24, which is the number of octets `write` emits for the box (the 8
of the header and the fields after it). -/
theorem fixed_size_leaves (mvhd : MvhdAtom) (tkhd : TkhdAtom) (mdhd : MdhdAtom) (hdlr : HdlrAtom)
    (smhd : SmhdAtom) (btrt : BtrtAtom) (esds : EsdsAtom) (ftyp : FtypAtom) :
    ((mvhd.compute = { mvhd with header := ⟨u32.new 108, BoxType.new "mvhd"⟩ })
      ∧ mvhd.compute.header.size.to_uint32_t = 108
      ∧ serialize mvhd.compute.header.write = [0, 0, 0, 108] ++ "mvhd".toList.map Char.toNat
      ∧ (serialize mvhd.compute.write).length = 108)
    ∧ ((tkhd.compute = { tkhd with header := ⟨u32.new 92, BoxType.new "tkhd"⟩ })
      ∧ tkhd.compute.header.size.to_uint32_t = 92
      ∧ serialize tkhd.compute.header.write = [0, 0, 0, 92] ++ "tkhd".toList.map Char.toNat
      ∧ (serialize tkhd.compute.write).length = 92)
    ∧ ((mdhd.compute = { mdhd with header := ⟨u32.new 32, BoxType.new "mdhd"⟩ })
      ∧ mdhd.compute.header.size.to_uint32_t = 32
      ∧ serialize mdhd.compute.header.write = [0, 0, 0, 32] ++ "mdhd".toList.map Char.toNat
      ∧ (serialize mdhd.compute.write).length = 32)
    ∧ ((hdlr.compute = { hdlr with header := ⟨u32.new 45, BoxType.new "hdlr"⟩ })
      ∧ hdlr.compute.header.size.to_uint32_t = 45
      ∧ serialize hdlr.compute.header.write = [0, 0, 0, 45] ++ "hdlr".toList.map Char.toNat
      ∧ (serialize hdlr.compute.write).length = 45)
    ∧ ((smhd.compute = { smhd with header := ⟨u32.new 16, BoxType.new "smhd"⟩ })
      ∧ smhd.compute.header.size.to_uint32_t = 16
      ∧ serialize smhd.compute.header.write = [0, 0, 0, 16] ++ "smhd".toList.map Char.toNat
      ∧ (serialize smhd.compute.write).length = 16)
    ∧ ((btrt.compute = { btrt with header := ⟨u32.new 20, BoxType.new "btrt"⟩ })
      ∧ btrt.compute.header.size.to_uint32_t = 20
      ∧ serialize btrt.compute.header.write = [0, 0, 0, 20] ++ "btrt".toList.map Char.toNat
      ∧ (serialize btrt.compute.write).length = 20)
    ∧ ((esds.compute = { esds with header := ⟨u32.new 54, BoxType.new "esds"⟩ })
      ∧ esds.compute.header.size.to_uint32_t = 54
      ∧ serialize esds.compute.header.write = [0, 0, 0, 54] ++ "esds".toList.map Char.toNat
      ∧ (serialize esds.compute.write).length = 54)
    ∧ ((ftyp.compute = { ftyp with header := ⟨u32.new 24, BoxType.new "ftyp"⟩ })
      ∧ ftyp.compute.header.size.to_uint32_t = 24
      ∧ serialize ftyp.compute.header.write = [0, 0, 0, 24] ++ "ftyp".toList.map Char.toNat
      ∧ (serialize ftyp.compute.write).length = 24) := by
  refine ⟨⟨rfl, MvhdAtom_compute_size _, ?_, MvhdAtom_length_serialize _⟩,
    ⟨rfl, TkhdAtom_compute_size _, ?_, TkhdAtom_length_serialize _⟩,
    ⟨rfl, MdhdAtom_compute_size _, ?_, MdhdAtom_length_serialize _⟩,
    ⟨rfl, HdlrAtom_compute_size _, ?_, HdlrAtom_length_serialize _⟩,
    ⟨rfl, SmhdAtom_compute_size _, ?_, SmhdAtom_length_serialize _⟩,
    ⟨rfl, BtrtAtom_compute_size _, ?_, BtrtAtom_length_serialize _⟩,
    ⟨rfl, EsdsAtom_compute_size _, ?_, EsdsAtom_length_serialize _⟩,
    ⟨rfl, FtypAtom_compute_size _, ?_, FtypAtom_length_serialize _⟩⟩ <;>
  · rw [AtomHeader_serialize_eq]
    rfl
/-! ## `compute()` applied twice -/

theorem carray_get_set_zero {T : Type} {N : Nat} (a : carray T N) (x : T) (h : 0 < N) :
    (a.set 0 x).get 0 h = x := by
  obtain ⟨elems, hlen⟩ := a
  cases elems with
  | nil => exact absurd hlen (by simp only [List.length_nil]; omega)
  | cons e l => rfl

theorem carray_set_set_zero {T : Type} {N : Nat} (a : carray T N) (x y : T) :
    (a.set 0 x).set 0 y = a.set 0 y := by
  obtain ⟨elems, hlen⟩ := a
  cases elems with
  | nil => rfl
  | cons e l => rfl

theorem MvhdAtom_compute_compute (self : MvhdAtom) : self.compute.compute = self.compute := rfl

theorem TkhdAtom_compute_compute (self : TkhdAtom) : self.compute.compute = self.compute := rfl

theorem ElstAtom_compute_compute (self : ElstAtom) : self.compute.compute = self.compute := rfl

theorem EdtsBox_compute_compute (self : EdtsBox) : self.compute.compute = self.compute := rfl

theorem MdhdAtom_compute_compute (self : MdhdAtom) : self.compute.compute = self.compute := rfl

theorem HdlrAtom_compute_compute (self : HdlrAtom) : self.compute.compute = self.compute := rfl

theorem SmhdAtom_compute_compute (self : SmhdAtom) : self.compute.compute = self.compute := rfl

theorem DataEntry_compute_compute (self : DataEntry) : self.compute.compute = self.compute := rfl

theorem SttsAtom_compute_compute (self : SttsAtom) : self.compute.compute = self.compute := rfl

theorem StscAtom_compute_compute (self : StscAtom) : self.compute.compute = self.compute := rfl

theorem StszBox_compute_compute (self : StszBox) : self.compute.compute = self.compute := rfl

theorem StcoAtom_compute_compute (self : StcoAtom) : self.compute.compute = self.compute := rfl

theorem SampleDescriptionEntry_compute_compute (self : SampleDescriptionEntry) :
    self.compute.compute = self.compute := rfl

/-- `DrefBox::compute` as one record: the size is taken from the `entry_count`
found, and `entry_count` becomes 1. -/
theorem DrefBox_compute_eq (self : DrefBox) :
    self.compute
      = { header := ⟨u32.new (uint64_t (16 + self.entry_count.to_uint32_t * 12)),
            BoxType.new "dref"⟩
          version := self.version
          flags := self.flags
          entry_count := u32.new 1
          data_entries :=
            self.data_entries.set 0 (self.data_entries.get 0 (by decide)).compute } := rfl

theorem DrefBox_compute_compute (self : DrefBox) (h : self.entry_count.to_uint32_t = 1) :
    self.compute.compute = self.compute := by
  have h1 : (u32.new 1).to_uint32_t = 1 := u32_new_eq_of_lt 1 (by decide)
  rw [DrefBox_compute_eq self.compute, DrefBox_compute_eq self]
  simp only [h, h1, carray_get_set_zero, carray_set_set_zero, DataEntry_compute_compute]

theorem DinfBox_compute_eq (self : DinfBox) :
    self.compute
      = { header := ⟨u32.new (uint64_t (8 + self.dref.compute.header.size.to_uint32_t)),
            BoxType.new "dinf"⟩
          dref := self.dref.compute } := rfl

theorem DinfBox_compute_compute (self : DinfBox) (h : self.dref.entry_count.to_uint32_t = 1) :
    self.compute.compute = self.compute := by
  have h1 : self.compute.dref = self.dref.compute := rfl
  rw [DinfBox_compute_eq self.compute, h1, DrefBox_compute_compute _ h]
  exact (DinfBox_compute_eq self).symm

/-- The loop of `StsdBox::compute`: every entry is computed, and each adds its
size, 110, to the running sum. -/
theorem StsdBox_compute_loop (l : List SampleDescriptionEntry) (s : Nat)
    (acc : List SampleDescriptionEntry) :
    l.foldl
        (fun (state : Nat × List SampleDescriptionEntry) entry =>
          let entry := entry.compute
          (uint64_t (state.1 + entry.header.header.size.to_uint32_t), state.2 ++ [entry]))
        (s, acc)
      = (l.foldl (fun s _ => uint64_t (s + 110)) s,
          acc ++ l.map SampleDescriptionEntry.compute) := by
  induction l generalizing s acc with
  | nil => simp only [List.foldl_nil, List.map_nil, List.append_nil]
  | cons e l ih =>
    rw [List.foldl_cons, List.foldl_cons, List.map_cons]
    show List.foldl _ (uint64_t (s + e.compute.header.header.size.to_uint32_t),
      acc ++ [e.compute]) l = _
    rw [SampleDescriptionEntry_compute_size, ih]
    simp only [List.append_assoc, List.singleton_append]

theorem StsdBox_compute_eq (self : StsdBox) :
    self.compute
      = { header :=
            { header := ⟨u32.new (self.sample_description_entries.foldl
                  (fun s _ => uint64_t (s + 110)) 16), BoxType.new "stsd"⟩
              version := self.header.version
              flags := self.header.flags
              entry_count := u32.new self.sample_description_entries.length }
          sample_description_entries :=
            self.sample_description_entries.map SampleDescriptionEntry.compute } := by
  simp only [StsdBox.compute, StsdBox_compute_loop, List.nil_append, List.length_map]
  rfl

theorem StsdBox_compute_compute (self : StsdBox) : self.compute.compute = self.compute := by
  rw [StsdBox_compute_eq self.compute, StsdBox_compute_eq self]
  simp only [List.map_map, List.length_map, List.foldl_map]
  have hc : SampleDescriptionEntry.compute ∘ SampleDescriptionEntry.compute
      = SampleDescriptionEntry.compute := funext SampleDescriptionEntry_compute_compute
  rw [hc]

theorem StblBox_compute_eq (self : StblBox) :
    self.compute
      = { header := ⟨u32.new (uint64_t (8
              + self.stsd.compute.header.header.size.to_uint32_t
              + self.stts.compute.header.size.to_uint32_t
              + self.stsc.compute.header.size.to_uint32_t
              + self.stsz.compute.header.header.size.to_uint32_t
              + self.stco.compute.header.size.to_uint32_t)), BoxType.new "stbl"⟩
          stsd := self.stsd.compute
          stts := self.stts.compute
          stsc := self.stsc.compute
          stsz := self.stsz.compute
          stco := self.stco.compute } := rfl

theorem StblBox_compute_compute (self : StblBox) : self.compute.compute = self.compute := by
  have h1 : self.compute.stsd = self.stsd.compute := rfl
  have h2 : self.compute.stts = self.stts.compute := rfl
  have h3 : self.compute.stsc = self.stsc.compute := rfl
  have h4 : self.compute.stsz = self.stsz.compute := rfl
  have h5 : self.compute.stco = self.stco.compute := rfl
  rw [StblBox_compute_eq self.compute, h1, h2, h3, h4, h5, StsdBox_compute_compute,
    SttsAtom_compute_compute, StscAtom_compute_compute, StszBox_compute_compute,
    StcoAtom_compute_compute]
  exact (StblBox_compute_eq self).symm

theorem MinfBox_compute_eq (self : MinfBox) :
    self.compute
      = { header := ⟨u32.new (uint64_t (8 + self.smhd.compute.header.size.to_uint32_t
              + self.dinf.compute.header.size.to_uint32_t
              + self.stbl.compute.header.size.to_uint32_t)), BoxType.new "minf"⟩
          smhd := self.smhd.compute
          dinf := self.dinf.compute
          stbl := self.stbl.compute } := rfl

theorem MinfBox_compute_compute (self : MinfBox)
    (h : self.dinf.dref.entry_count.to_uint32_t = 1) :
    self.compute.compute = self.compute := by
  have h1 : self.compute.smhd = self.smhd.compute := rfl
  have h2 : self.compute.dinf = self.dinf.compute := rfl
  have h3 : self.compute.stbl = self.stbl.compute := rfl
  rw [MinfBox_compute_eq self.compute, h1, h2, h3, SmhdAtom_compute_compute,
    DinfBox_compute_compute _ h, StblBox_compute_compute]
  exact (MinfBox_compute_eq self).symm

theorem MdiaBox_compute_eq (self : MdiaBox) :
    self.compute
      = { header := ⟨u32.new (uint64_t (8 + self.mdhd.compute.header.size.to_uint32_t
              + self.hdlr.compute.header.size.to_uint32_t
              + self.minf.compute.header.size.to_uint32_t)), BoxType.new "mdia"⟩
          mdhd := self.mdhd.compute
          hdlr := self.hdlr.compute
          minf := self.minf.compute } := rfl

theorem MdiaBox_compute_compute (self : MdiaBox)
    (h : self.minf.dinf.dref.entry_count.to_uint32_t = 1) :
    self.compute.compute = self.compute := by
  have h1 : self.compute.mdhd = self.mdhd.compute := rfl
  have h2 : self.compute.hdlr = self.hdlr.compute := rfl
  have h3 : self.compute.minf = self.minf.compute := rfl
  rw [MdiaBox_compute_eq self.compute, h1, h2, h3, MdhdAtom_compute_compute,
    HdlrAtom_compute_compute, MinfBox_compute_compute _ h]
  exact (MdiaBox_compute_eq self).symm

theorem TrakBox_compute_eq (self : TrakBox) :
    self.compute
      = { header := ⟨u32.new (uint64_t (8 + self.tkhd.compute.header.size.to_uint32_t
              + self.edts.compute.header.size.to_uint32_t
              + self.mdia.compute.header.size.to_uint32_t)), BoxType.new "trak"⟩
          tkhd := self.tkhd.compute
          edts := self.edts.compute
          mdia := self.mdia.compute } := rfl

theorem TrakBox_compute_compute (self : TrakBox)
    (h : self.mdia.minf.dinf.dref.entry_count.to_uint32_t = 1) :
    self.compute.compute = self.compute := by
  have h1 : self.compute.tkhd = self.tkhd.compute := rfl
  have h2 : self.compute.edts = self.edts.compute := rfl
  have h3 : self.compute.mdia = self.mdia.compute := rfl
  rw [TrakBox_compute_eq self.compute, h1, h2, h3, TkhdAtom_compute_compute,
    EdtsBox_compute_compute, MdiaBox_compute_compute _ h]
  exact (TrakBox_compute_eq self).symm

theorem MoovBox_compute_eq (self : MoovBox) :
    self.compute
      = { header := ⟨u32.new (uint64_t (8 + self.mvhd.compute.header.size.to_uint32_t
              + self.trak.compute.header.size.to_uint32_t)), BoxType.new "moov"⟩
          mvhd := self.mvhd.compute
          trak := self.trak.compute } := rfl

/-- A second `moov.compute()` changes nothing when `dref.entry_count` was 1
before the first. -/
theorem MoovBox_compute_compute (self : MoovBox)
    (h : self.trak.mdia.minf.dinf.dref.entry_count.to_uint32_t = 1) :
    self.compute.compute = self.compute := by
  have h1 : self.compute.mvhd = self.mvhd.compute := rfl
  have h2 : self.compute.trak = self.trak.compute := rfl
  rw [MoovBox_compute_eq self.compute, h1, h2, MvhdAtom_compute_compute,
    TrakBox_compute_compute _ h]
  exact (MoovBox_compute_eq self).symm

/-- Assigning `stco.entries[0]` and `compute()` commute. -/
theorem MoovBox_compute_set_chunk_offset (self : MoovBox) (value : u32) :
    (self.set_chunk_offset value).compute = self.compute.set_chunk_offset value := rfl

theorem MoovBox_size_fields_set_chunk_offset (self : MoovBox) (value : u32) :
    (self.set_chunk_offset value).size_fields = self.size_fields := rfl

theorem MoovBox_length_set_chunk_offset (self : MoovBox) (value : u32) :
    (serialize (self.set_chunk_offset value).write).length = (serialize self.write).length := by
  simp only [MoovBox_length_serialize, TrakBox_length_serialize, MdiaBox_length_serialize,
    MinfBox_length_serialize, StblBox_length_serialize, StcoAtom_length_serialize]
  rfl

/-- C22: in the `moov` that `write_aac_mp4` builds, assigning any value to
`stco.entries[0]` after `moov.compute()` leaves every size field of the tree
as it was, a further `moov.compute()` leaves the same size fields again, and
`moov.write()` emits the same number of octets whatever the value; the `moov`
that is written is the computed one with the chunk offset assigned. -/
theorem chunk_offset_patch_keeps_sizes (chunks : List u32)
    (sample_rate number_of_samples max_samples_per_chunk : Nat) (ind : Indeterminate)
    (value : u32) :
    let moov := (aac_mp4_moov chunks sample_rate number_of_samples max_samples_per_chunk
      ind).compute
    let patched := moov.set_chunk_offset value
    patched.size_fields = moov.size_fields
    ∧ patched.compute.size_fields = moov.size_fields
    ∧ (serialize patched.write).length = (serialize moov.write).length
    ∧ count_bytes patched.write = count_bytes moov.write
    ∧ (∀ other : u32, (serialize (moov.set_chunk_offset other).write).length
        = (serialize patched.write).length)
    ∧ patched.trak.mdia.minf.stbl.stco.entries.get 0 (by decide) = value
    ∧ aac_mp4_moov_written chunks sample_rate number_of_samples max_samples_per_chunk ind
        = moov.set_chunk_offset (u32.new (uint32_t (uint32_t
            (aac_mp4_ftyp.header.size.to_uint32_t + moov.header.size.to_uint32_t) + 8))) := by
  intro moov patched
  have hidem : moov.compute = moov :=
    MoovBox_compute_compute _ (aac_mp4_moov_dref_count chunks sample_rate number_of_samples
      max_samples_per_chunk ind)
  have hlen : ∀ v : u32, (serialize (moov.set_chunk_offset v).write).length
      = (serialize moov.write).length := MoovBox_length_set_chunk_offset moov
  refine ⟨rfl, ?_, hlen value, ?_, fun other => ?_, ?_, rfl⟩
  · show (moov.set_chunk_offset value).compute.size_fields = _
    rw [MoovBox_compute_set_chunk_offset, MoovBox_size_fields_set_chunk_offset, hidem]
  · rw [count_bytes_eq _ _ (fun d => MoovBox_write_eq patched d),
      count_bytes_eq _ _ (fun d => MoovBox_write_eq moov d)]
    exact hlen value
  · rw [hlen other, hlen value]
  · exact carray_get_set_zero _ _ _

/-- C29 fails on the code: in a `moov` whose `dref.entry_count` is 0 when
`compute()` is called, one `compute()` leaves `dref` with size 16 and
`entry_count` 1, so that `dref.write()` emits 28 octets, 12 more than its size
field says; a second `compute()` raises the size fields of `dref`, `dinf`,
`minf`, `mdia`, `trak` and `moov` by 12. When `entry_count` is 1 beforehand a
second `compute()` changes nothing and the size of `dref` is the number of
octets it writes. -/
theorem compute_twice_resizes_dref :
    (let once := moov_dref_count_zero.compute
     let twice := once.compute
     once.trak.mdia.minf.dinf.dref.header.size.to_uint32_t = 16
     ∧ once.trak.mdia.minf.dinf.dref.entry_count.to_uint32_t = 1
     ∧ (serialize once.trak.mdia.minf.dinf.dref.write).length = 28
     ∧ count_bytes once.trak.mdia.minf.dinf.dref.write = 28
     ∧ twice.trak.mdia.minf.dinf.dref.header.size.to_uint32_t = 28
     ∧ once.size_fields.map u32.to_uint32_t
         = [619, 108, 503, 92, 36, 28, 367, 32, 45, 282, 16, 24, 16, 12, 234, 126, 110, 54,
            20, 24, 28, 28, 20]
     ∧ twice.size_fields.map u32.to_uint32_t
         = [631, 108, 515, 92, 36, 28, 379, 32, 45, 294, 16, 36, 28, 12, 234, 126, 110, 54,
            20, 24, 28, 28, 20]
     ∧ once.size_fields ≠ twice.size_fields
     ∧ twice.count_fields = once.count_fields
     ∧ twice.type_fields = once.type_fields)
    ∧ (∀ moov : MoovBox, moov.trak.mdia.minf.dinf.dref.entry_count.to_uint32_t = 1 →
        moov.compute.compute = moov.compute
        ∧ moov.compute.trak.mdia.minf.dinf.dref.header.size.to_uint32_t = 28
        ∧ (serialize moov.compute.trak.mdia.minf.dinf.dref.write).length = 28) := by
  have h1 : (moov_dref_count_zero.compute.size_fields.map u32.to_uint32_t)
      = [619, 108, 503, 92, 36, 28, 367, 32, 45, 282, 16, 24, 16, 12, 234, 126, 110, 54,
         20, 24, 28, 28, 20] := by decide
  have h2 : (moov_dref_count_zero.compute.compute.size_fields.map u32.to_uint32_t)
      = [631, 108, 515, 92, 36, 28, 379, 32, 45, 294, 16, 36, 28, 12, 234, 126, 110, 54,
         20, 24, 28, 28, 20] := by decide
  refine ⟨⟨by decide, by decide, ?_, ?_, by decide, h1, h2, ?_, rfl, rfl⟩, fun moov h => ?_⟩
  · exact DrefBox_compute_length _
  · rw [count_bytes_eq _ _ (fun d => DrefBox_write_eq _ d)]
    exact DrefBox_compute_length _
  · intro h
    rw [h] at h1
    rw [h1] at h2
    exact absurd h2 (by decide)
  · refine ⟨MoovBox_compute_compute moov h, ?_, DrefBox_compute_length _⟩
    show (DrefBox.compute moov.trak.mdia.minf.dinf.dref).header.size.to_uint32_t = 28
    rw [DrefBox_compute_size, h]
    decide

/-- The `moov` that is written depends on the never-assigned octets only
through `sd.esds.desc.flags`: `sd.compute()` zeroes `sd.header.reserved`. -/
theorem aac_mp4_moov_written_ind (chunks : List u32)
    (sample_rate number_of_samples max_samples_per_chunk : Nat) (ind other : Indeterminate)
    (h : ind.sd_esds_desc_flags = other.sd_esds_desc_flags) :
    aac_mp4_moov_written chunks sample_rate number_of_samples max_samples_per_chunk ind
      = aac_mp4_moov_written chunks sample_rate number_of_samples max_samples_per_chunk
          other := by
  obtain ⟨r, fl⟩ := ind
  obtain ⟨r', fl'⟩ := other
  have h' : fl = fl' := h
  subst h'
  rfl

/-- In the output of a completed call the octet at offset 500 is
`sd.esds.desc.flags`. -/
theorem write_aac_mp4_esds_flags (chunks : List u32) (data : List u8)
    (sample_rate number_of_samples max_samples_per_chunk : Nat) (ind : Indeterminate)
    (hsr : 0 < sample_rate) (hf : 0 < max_samples_per_chunk) :
    ∃ (out : StreamAdapter) (before after : List u8),
      write_aac_mp4 (⟨[]⟩ : StreamAdapter) chunks data sample_rate number_of_samples
        max_samples_per_chunk ind = Except.ok out
      ∧ out.stream = before ++ ind.sd_esds_desc_flags :: after
      ∧ before.length = 500 := by
  obtain ⟨out, h, hout, _⟩ := write_aac_mp4_boxes chunks data sample_rate number_of_samples
    max_samples_per_chunk ind hsr hf
  have hoct := aac_mp4_movie_duration_octets chunks sample_rate number_of_samples
    max_samples_per_chunk ind
  have hedts : (serialize (aac_mp4_moov_written chunks sample_rate number_of_samples
      max_samples_per_chunk ind).trak.edts.write).length = 36 := by
    rw [hoct.2.2.2.2.2.2]
    rfl
  have hdinf : (serialize (aac_mp4_moov_written chunks sample_rate number_of_samples
      max_samples_per_chunk ind).trak.mdia.minf.dinf.write).length = 36 := by
    rw [aac_mp4_dinf_octets]
    rfl
  have hstsd : serialize (aac_mp4_moov_written chunks sample_rate number_of_samples
      max_samples_per_chunk ind).trak.mdia.minf.stbl.stsd.write
      = serialize (aac_mp4_moov_written chunks sample_rate number_of_samples
          max_samples_per_chunk ind).trak.mdia.minf.stbl.stsd.header.write
        ++ (serialize (aac_mp4_sd sample_rate ind).compute.header.write
        ++ ([0, 0, 0, 54, 101, 115, 100, 115, 0, 0, 0, 0, 3, 128, 128, 128, 37, 0, 1]
        ++ (ind.sd_esds_desc_flags :: ([4, 128, 128, 128, 23, 64, 21, 0, 0, 0, 0, 1, 13, 136,
              0, 0, 227, 111, 5, 128, 128, 128, 5, 20, 8, 86, 229, 0, 6, 128, 128, 128, 1, 2]
        ++ serialize (aac_mp4_sd sample_rate ind).compute.btrt.write)))) := by
    rw [StsdBox_serialize_eq, aac_mp4_stsd_entries, List.flatMap_cons, List.flatMap_nil,
      List.append_nil, SampleDescriptionEntry_serialize_eq, aac_mp4_esds_octets]
    rfl
  refine ⟨out,
    serialize aac_mp4_ftyp.write
      ++ (serialize (aac_mp4_moov_written chunks sample_rate number_of_samples
            max_samples_per_chunk ind).header.write
      ++ (serialize (aac_mp4_moov_written chunks sample_rate number_of_samples
            max_samples_per_chunk ind).mvhd.write
      ++ (serialize (aac_mp4_moov_written chunks sample_rate number_of_samples
            max_samples_per_chunk ind).trak.header.write
      ++ (serialize (aac_mp4_moov_written chunks sample_rate number_of_samples
            max_samples_per_chunk ind).trak.tkhd.write
      ++ (serialize (aac_mp4_moov_written chunks sample_rate number_of_samples
            max_samples_per_chunk ind).trak.edts.write
      ++ (serialize (aac_mp4_moov_written chunks sample_rate number_of_samples
            max_samples_per_chunk ind).trak.mdia.header.write
      ++ (serialize (aac_mp4_moov_written chunks sample_rate number_of_samples
            max_samples_per_chunk ind).trak.mdia.mdhd.write
      ++ (serialize (aac_mp4_moov_written chunks sample_rate number_of_samples
            max_samples_per_chunk ind).trak.mdia.hdlr.write
      ++ (serialize (aac_mp4_moov_written chunks sample_rate number_of_samples
            max_samples_per_chunk ind).trak.mdia.minf.header.write
      ++ (serialize (aac_mp4_moov_written chunks sample_rate number_of_samples
            max_samples_per_chunk ind).trak.mdia.minf.smhd.write
      ++ (serialize (aac_mp4_moov_written chunks sample_rate number_of_samples
            max_samples_per_chunk ind).trak.mdia.minf.dinf.write
      ++ (serialize (aac_mp4_moov_written chunks sample_rate number_of_samples
            max_samples_per_chunk ind).trak.mdia.minf.stbl.header.write
      ++ (serialize (aac_mp4_moov_written chunks sample_rate number_of_samples
            max_samples_per_chunk ind).trak.mdia.minf.stbl.stsd.header.write
      ++ (serialize (aac_mp4_sd sample_rate ind).compute.header.write
      ++ [0, 0, 0, 54, 101, 115, 100, 115, 0, 0, 0, 0, 3, 128, 128, 128, 37, 0, 1]
      )))))))))))))),
    [4, 128, 128, 128, 23, 64, 21, 0, 0, 0, 0, 1, 13, 136,
      0, 0, 227, 111, 5, 128, 128, 128, 5, 20, 8, 86, 229, 0, 6, 128, 128, 128, 1, 2]
      ++ (serialize (aac_mp4_sd sample_rate ind).compute.btrt.write
      ++ (serialize (aac_mp4_moov_written chunks sample_rate number_of_samples
            max_samples_per_chunk ind).trak.mdia.minf.stbl.stts.write
      ++ (serialize (aac_mp4_moov_written chunks sample_rate number_of_samples
            max_samples_per_chunk ind).trak.mdia.minf.stbl.stsc.write
      ++ (serialize (aac_mp4_moov_written chunks sample_rate number_of_samples
            max_samples_per_chunk ind).trak.mdia.minf.stbl.stsz.write
      ++ (serialize (aac_mp4_moov_written chunks sample_rate number_of_samples
            max_samples_per_chunk ind).trak.mdia.minf.stbl.stco.write
      ++ serialize (aac_mp4_mdat data).write))))), h, ?_, ?_⟩
  · rw [hout, MoovBox_serialize_flat, hstsd]
    simp only [List.append_assoc, List.cons_append, List.nil_append]
  · simp only [List.length_append, List.length_cons, List.length_nil, aac_mp4_ftyp_length,
      AtomHeader_length_serialize, MvhdAtom_length_serialize, TkhdAtom_length_serialize,
      hedts, MdhdAtom_length_serialize, HdlrAtom_length_serialize, SmhdAtom_length_serialize,
      hdinf, StsdHeader_length_serialize, SampleDescriptionEntryHeader_length_serialize]

/-- C23 fails on the code: `sd.esds.desc.flags` is never assigned, and it is
serialized, as the octet at offset 500 of every completed output. Two calls
with the same arguments whose uninitialized local holds 0 in one and 255 in
the other emit different streams. All the rest of the output is a function of
the arguments: two calls that agree on that octet emit the same stream. -/
theorem esds_flags_octet_is_indeterminate :
    (∃ out0 out1 : StreamAdapter,
      write_aac_mp4 (⟨[]⟩ : StreamAdapter) two_frames payload_238 16000 2048 1024
        zero_indeterminate = Except.ok out0
      ∧ write_aac_mp4 (⟨[]⟩ : StreamAdapter) two_frames payload_238 16000 2048 1024
        ⟨carray.fill 6 0, 255⟩ = Except.ok out1
      ∧ out0.stream[500]? = some 0
      ∧ out1.stream[500]? = some 255
      ∧ out0.stream ≠ out1.stream)
    ∧ (∀ (chunks : List u32) (data : List u8)
        (sample_rate number_of_samples max_samples_per_chunk : Nat) (ind : Indeterminate),
        0 < sample_rate → 0 < max_samples_per_chunk →
        ∃ out : StreamAdapter,
          write_aac_mp4 (⟨[]⟩ : StreamAdapter) chunks data sample_rate number_of_samples
            max_samples_per_chunk ind = Except.ok out
          ∧ out.stream[500]? = some ind.sd_esds_desc_flags)
    ∧ (∀ (chunks : List u32) (data : List u8)
        (sample_rate number_of_samples max_samples_per_chunk : Nat) (ind other : Indeterminate),
        ind.sd_esds_desc_flags = other.sd_esds_desc_flags →
        write_aac_mp4 (⟨[]⟩ : StreamAdapter) chunks data sample_rate number_of_samples
          max_samples_per_chunk ind
          = write_aac_mp4 (⟨[]⟩ : StreamAdapter) chunks data sample_rate number_of_samples
              max_samples_per_chunk other) := by
  have hat : ∀ (chunks : List u32) (data : List u8)
      (sample_rate number_of_samples max_samples_per_chunk : Nat) (ind : Indeterminate),
      0 < sample_rate → 0 < max_samples_per_chunk →
      ∃ out : StreamAdapter,
        write_aac_mp4 (⟨[]⟩ : StreamAdapter) chunks data sample_rate number_of_samples
          max_samples_per_chunk ind = Except.ok out
        ∧ out.stream[500]? = some ind.sd_esds_desc_flags := by
    intro chunks data sample_rate number_of_samples max_samples_per_chunk ind hsr hf
    obtain ⟨out, before, after, h, hout, hlen⟩ := write_aac_mp4_esds_flags chunks data
      sample_rate number_of_samples max_samples_per_chunk ind hsr hf
    refine ⟨out, h, ?_⟩
    rw [hout, List.getElem?_append_right (Nat.le_of_eq hlen), hlen, Nat.sub_self]
    exact List.getElem?_cons_zero
  refine ⟨?_, hat, ?_⟩
  · obtain ⟨out0, h0, g0⟩ := hat two_frames payload_238 16000 2048 1024 zero_indeterminate
      (by decide) (by decide)
    obtain ⟨out1, h1, g1⟩ := hat two_frames payload_238 16000 2048 1024 ⟨carray.fill 6 0, 255⟩
      (by decide) (by decide)
    refine ⟨out0, out1, h0, h1, g0, g1, fun heq => ?_⟩
    rw [heq, g1] at g0
    exact absurd g0 (by decide)
  · intro chunks data sample_rate number_of_samples max_samples_per_chunk ind other h
    unfold write_aac_mp4
    rw [aac_mp4_moov_written_ind chunks sample_rate number_of_samples max_samples_per_chunk
      ind other h]

/-- The `stts` runs that are serialized, for 32-bit arguments. -/
theorem aac_mp4_stts_emitted_entries (chunks : List u32)
    (sample_rate number_of_samples max_samples_per_chunk : Nat) (ind : Indeterminate)
    (hn : number_of_samples < 2 ^ 32) (hfr : max_samples_per_chunk < 2 ^ 32)
    (hf : 0 < max_samples_per_chunk) :
    (aac_mp4_stbl chunks sample_rate number_of_samples max_samples_per_chunk
      ind).stts.emitted_entries
      = if number_of_samples % max_samples_per_chunk = 0 then
          [(number_of_samples / max_samples_per_chunk, max_samples_per_chunk)]
        else
          [(number_of_samples / max_samples_per_chunk, max_samples_per_chunk),
           (1, number_of_samples % max_samples_per_chunk)] := by
  have hfull : number_of_samples / max_samples_per_chunk < 2 ^ 32 :=
    lt_of_le_of_lt (Nat.div_le_self _ _) hn
  have hrem : number_of_samples % max_samples_per_chunk < 2 ^ 32 :=
    lt_trans (Nat.mod_lt _ hf) hfr
  have h1 : (u32.new 1).to_uint32_t = 1 := u32_new_eq_of_lt 1 (by decide)
  have h2 : (u32.new 2).to_uint32_t = 2 := u32_new_eq_of_lt 2 (by decide)
  by_cases hr : number_of_samples % max_samples_per_chunk = 0
  · rw [aac_mp4_stts_of_rem_eq_zero chunks sample_rate number_of_samples
      max_samples_per_chunk ind hr, if_pos hr]
    simp only [SttsAtom.emitted_entries, h1, List.take_succ_cons, List.take_zero,
      List.map_cons, List.map_nil, u32_new_eq_of_lt _ hfull, u32_new_eq_of_lt _ hfr]
  · rw [aac_mp4_stts_of_rem_ne_zero chunks sample_rate number_of_samples
      max_samples_per_chunk ind hr, if_neg hr]
    simp only [SttsAtom.emitted_entries, h2, List.take_succ_cons, List.take_zero,
      List.map_cons, List.map_nil, u32_new_eq_of_lt _ hfull, u32_new_eq_of_lt _ hfr,
      u32_new_eq_of_lt _ hrem, h1]

/-- C26: for 32-bit `number_of_samples` n and frame length f > 0 the products
count * duration of the `stts` entries that are serialized sum to n; every
count, duration and product is below 2^32, and no product exceeds n. With a
nonzero sample rate the call returns and its output contains that `stts`. -/
theorem stts_runs_cover_every_sample (chunks : List u32) (data : List u8)
    (sample_rate number_of_samples max_samples_per_chunk : Nat) (ind : Indeterminate)
    (hn : number_of_samples < 2 ^ 32) (hfr : max_samples_per_chunk < 2 ^ 32)
    (hf : 0 < max_samples_per_chunk) :
    let stts := (aac_mp4_stbl chunks sample_rate number_of_samples max_samples_per_chunk
      ind).stts
    (stts.emitted_entries.map (fun e => e.1 * e.2)).sum = number_of_samples
    ∧ (∀ e ∈ stts.emitted_entries,
        e.1 < 2 ^ 32 ∧ e.2 < 2 ^ 32 ∧ e.1 * e.2 ≤ number_of_samples ∧ e.1 * e.2 < 2 ^ 32)
    ∧ (0 < sample_rate →
        ∃ out : StreamAdapter,
          write_aac_mp4 (⟨[]⟩ : StreamAdapter) chunks data sample_rate number_of_samples
            max_samples_per_chunk ind = Except.ok out
          ∧ serialize stts.write <:+: out.stream) := by
  intro stts
  have he : stts.emitted_entries = _ := aac_mp4_stts_emitted_entries chunks sample_rate
    number_of_samples max_samples_per_chunk ind hn hfr hf
  have hdm := Nat.div_add_mod number_of_samples max_samples_per_chunk
  have hmul : number_of_samples / max_samples_per_chunk * max_samples_per_chunk
      = max_samples_per_chunk * (number_of_samples / max_samples_per_chunk) := Nat.mul_comm _ _
  have hq : number_of_samples / max_samples_per_chunk < 2 ^ 32 :=
    lt_of_le_of_lt (Nat.div_le_self _ _) hn
  have hrl := Nat.mod_lt number_of_samples hf
  refine ⟨?_, ?_, fun hsr => ?_⟩
  · rw [he]
    by_cases hr : number_of_samples % max_samples_per_chunk = 0
    · rw [if_pos hr]
      simp only [List.map_cons, List.map_nil, List.sum_cons, List.sum_nil]
      omega
    · rw [if_neg hr]
      simp only [List.map_cons, List.map_nil, List.sum_cons, List.sum_nil]
      omega
  · intro e hmem
    have hle : number_of_samples / max_samples_per_chunk * max_samples_per_chunk
        ≤ number_of_samples := Nat.div_mul_le_self _ _
    have hr1 : 1 * (number_of_samples % max_samples_per_chunk) ≤ number_of_samples := by
      rw [Nat.one_mul]
      exact Nat.mod_le _ _
    have hfirst : number_of_samples / max_samples_per_chunk < 2 ^ 32
        ∧ max_samples_per_chunk < 2 ^ 32
        ∧ number_of_samples / max_samples_per_chunk * max_samples_per_chunk
            ≤ number_of_samples
        ∧ number_of_samples / max_samples_per_chunk * max_samples_per_chunk < 2 ^ 32 :=
      ⟨hq, hfr, hle, lt_of_le_of_lt hle hn⟩
    have hsecond : 1 < 2 ^ 32
        ∧ number_of_samples % max_samples_per_chunk < 2 ^ 32
        ∧ 1 * (number_of_samples % max_samples_per_chunk) ≤ number_of_samples
        ∧ 1 * (number_of_samples % max_samples_per_chunk) < 2 ^ 32 :=
      ⟨by norm_num, lt_trans hrl hfr, hr1, lt_of_le_of_lt hr1 hn⟩
    rw [he] at hmem
    by_cases hr : number_of_samples % max_samples_per_chunk = 0
    · rw [if_pos hr] at hmem
      simp only [List.mem_singleton] at hmem
      subst hmem
      exact hfirst
    · rw [if_neg hr] at hmem
      simp only [List.mem_cons, List.mem_singleton, List.mem_nil_iff, or_false] at hmem
      rcases hmem with hmem | hmem
      · subst hmem
        exact hfirst
      · subst hmem
        exact hsecond
  · obtain ⟨out, h, _, hb⟩ := write_aac_mp4_boxes chunks data sample_rate number_of_samples
      max_samples_per_chunk ind hsr hf
    exact ⟨out, h, hb.2.2.2.2.2.2.2.1⟩

/-- C26 at 1500 samples in frames of 1024: 1 * 1024 + 1 * 476 = 1500. -/
theorem stts_runs_cover_every_sample_witness :
    (1500 < 2 ^ 32 ∧ 1024 < 2 ^ 32 ∧ 0 < 1024)
    ∧ ((aac_mp4_stbl two_frames 16000 1500 1024 zero_indeterminate).stts.emitted_entries.map
        (fun e => e.1 * e.2)).sum = 1500 :=
  ⟨⟨by decide, by decide, by decide⟩,
    (stts_runs_cover_every_sample two_frames payload_238 16000 1500 1024 zero_indeterminate
      (by decide) (by decide) (by decide)).1⟩

/-- C27: with a nonzero sample rate and frame length f and an output shorter
than 2^32 octets, the size field of `moov` is 623 + 4 * N when
`number_of_samples % f = 0` and 631 + 4 * N otherwise, N being the number of
frames, and the call hands exactly 24 + moov.size + 8 + |data| octets to the
sink; two inputs with the same N and the same answer to "is the remainder
zero" have the same `moov` size. -/
theorem output_length_closed_form (chunks : List u32) (data : List u8)
    (sample_rate number_of_samples max_samples_per_chunk : Nat) (ind : Indeterminate)
    (hsr : 0 < sample_rate) (hf : 0 < max_samples_per_chunk)
    (hlen : output_length chunks data sample_rate number_of_samples max_samples_per_chunk ind
      < 2 ^ 32) :
    let moov := aac_mp4_moov_written chunks sample_rate number_of_samples
      max_samples_per_chunk ind
    moov.header.size.to_uint32_t
        = (if number_of_samples % max_samples_per_chunk = 0 then 623 + 4 * chunks.length
            else 631 + 4 * chunks.length)
    ∧ (∃ out : StreamAdapter,
        write_aac_mp4 (⟨[]⟩ : StreamAdapter) chunks data sample_rate number_of_samples
          max_samples_per_chunk ind = Except.ok out
        ∧ out.stream.length = 24 + moov.header.size.to_uint32_t + 8 + data.length)
    ∧ output_length chunks data sample_rate number_of_samples max_samples_per_chunk ind
        = 24 + moov.header.size.to_uint32_t + 8 + data.length
    ∧ (∀ (chunks' : List u32) (sample_rate' number_of_samples' max_samples_per_chunk' : Nat)
        (ind' : Indeterminate),
        chunks'.length = chunks.length →
        (number_of_samples' % max_samples_per_chunk' = 0
          ↔ number_of_samples % max_samples_per_chunk = 0) →
        (aac_mp4_moov_written chunks' sample_rate' number_of_samples' max_samples_per_chunk'
          ind').header.size.to_uint32_t = moov.header.size.to_uint32_t) := by
  intro moov
  have hsr' : sample_rate ≠ 0 := by omega
  have hf' : max_samples_per_chunk ≠ 0 := by omega
  have hol := output_length_eq chunks data sample_rate number_of_samples
    max_samples_per_chunk ind hsr' hf'
  rw [hol] at hlen
  have hsize : moov.header.size.to_uint32_t
      = (615 + 8 * (if number_of_samples % max_samples_per_chunk = 0 then 1 else 2)
          + 4 * chunks.length) % 2 ^ 32 :=
    aac_mp4_moov_written_size chunks sample_rate number_of_samples max_samples_per_chunk ind
  have hexact : moov.header.size.to_uint32_t
      = 615 + 8 * (if number_of_samples % max_samples_per_chunk = 0 then 1 else 2)
          + 4 * chunks.length := by
    rw [hsize]
    exact Nat.mod_eq_of_lt (by omega)
  refine ⟨?_, ?_, ?_, ?_⟩
  · rw [hexact]
    split <;> omega
  · obtain ⟨out, h, hout, _⟩ := write_aac_mp4_boxes chunks data sample_rate number_of_samples
      max_samples_per_chunk ind hsr hf
    refine ⟨out, h, ?_⟩
    rw [hout, hexact, List.length_append, List.length_append, aac_mp4_ftyp_length,
      aac_mp4_moov_written_length, aac_mp4_mdat_length]
    omega
  · rw [hol, hexact]
    omega
  · intro chunks' sample_rate' number_of_samples' max_samples_per_chunk' ind' hN hrem
    rw [hsize, aac_mp4_moov_written_size, hN]
    by_cases hr : number_of_samples % max_samples_per_chunk = 0
    · rw [if_pos hr, if_pos (hrem.mpr hr)]
    · rw [if_neg hr, if_neg (fun h => hr (hrem.mp h))]

set_option maxRecDepth 8192 in
/-- C27 at two frames, 2048 samples in frames of 1024 and a payload of 238
octets: `moov` is 631 octets and the output 901. -/
theorem output_length_closed_form_witness :
    (0 < 16000 ∧ 0 < 1024
      ∧ output_length two_frames payload_238 16000 2048 1024 zero_indeterminate < 2 ^ 32)
    ∧ (aac_mp4_moov_written two_frames 16000 2048 1024
        zero_indeterminate).header.size.to_uint32_t
        = (if 2048 % 1024 = 0 then 623 + 4 * two_frames.length
            else 631 + 4 * two_frames.length) :=
  ⟨⟨by decide, by decide, by decide⟩,
    (output_length_closed_form two_frames payload_238 16000 2048 1024 zero_indeterminate
      (by decide) (by decide) (by decide)).1⟩

theorem ESDescriptor_serialize_eq (self : ESDescriptor) :
    serialize self.write
      = self.tag :: (self.size.elems
        ++ ([self.es_id.octets_0, self.es_id.octets_1, self.flags]
        ++ (serialize self.decoder_config.write ++ serialize self.sl_config.write))) := by
  show (self.write (⟨[]⟩ : StreamAdapter)).stream = _
  simp only [ESDescriptor.write, DecoderConfiguration_write_eq, SLConfigDescriptor_write_eq,
    write_u8, write_u16, write_array, LawfulByteSink.write_write, StreamAdapter_stream_write,
    List.nil_append, List.cons_append, List.append_assoc,
    List.take_of_length_le (Nat.le_of_eq self.size.size_eq)]

theorem DecoderConfiguration_serialize_eq (self : DecoderConfiguration) :
    serialize self.write
      = self.tag :: (self.size.elems
        ++ ([self.object_type, self.flags, self.buffer_size.octets_0,
              self.buffer_size.octets_1, self.buffer_size.octets_2]
        ++ (self.max_bit_rate.octets ++ (self.average_bit_rate.octets
        ++ serialize self.decoder_specific.write)))) := by
  show (self.write (⟨[]⟩ : StreamAdapter)).stream = _
  simp only [DecoderConfiguration.write, DecoderSpecificInfo_write_eq, write_u8, write_u24,
    write_u32, write_array, LawfulByteSink.write_write, StreamAdapter_stream_write,
    List.nil_append, List.cons_append, List.append_assoc, u32.octets,
    List.take_of_length_le (Nat.le_of_eq self.size.size_eq)]

theorem DecoderSpecificInfo_serialize_eq (self : DecoderSpecificInfo) :
    serialize self.write = self.tag :: (self.size.elems ++ self.specific.elems) := by
  show (self.write (⟨[]⟩ : StreamAdapter)).stream = _
  simp only [DecoderSpecificInfo.write, write_u8, write_array, LawfulByteSink.write_write,
    StreamAdapter_stream_write, List.nil_append, List.cons_append, List.append_assoc,
    List.take_of_length_le (Nat.le_of_eq self.size.size_eq),
    List.take_of_length_le (Nat.le_of_eq self.specific.size_eq)]

theorem SLConfigDescriptor_serialize_eq (self : SLConfigDescriptor) :
    serialize self.write = self.tag :: (self.size.elems ++ [self.predefined]) := by
  show (self.write (⟨[]⟩ : StreamAdapter)).stream = _
  simp only [SLConfigDescriptor.write, write_u8, write_array, LawfulByteSink.write_write,
    StreamAdapter_stream_write, List.nil_append, List.cons_append, List.append_assoc,
    List.take_of_length_le (Nat.le_of_eq self.size.size_eq)]

/-- C28: in the `esds` that `write_aac_mp4` serializes each descriptor starts
with its tag and the four length octets 0x80 0x80 0x80 L, and the octets
serialized for it after these five number L: 37 for the ES descriptor, 23 for
the decoder configuration, 5 for the decoder-specific info and 1 for the SL
configuration; the size field of `esds` is 54, the number of octets of the
box. -/
theorem esds_descriptor_lengths (chunks : List u32) (data : List u8)
    (sample_rate number_of_samples max_samples_per_chunk : Nat) (ind : Indeterminate)
    (hsr : 0 < sample_rate) (hf : 0 < max_samples_per_chunk) :
    let sd := (aac_mp4_sd sample_rate ind).compute
    let desc := sd.esds.desc
    (aac_mp4_moov_written chunks sample_rate number_of_samples max_samples_per_chunk
        ind).trak.mdia.minf.stbl.stsd.sample_description_entries = [sd]
    ∧ (∃ out : StreamAdapter,
        write_aac_mp4 (⟨[]⟩ : StreamAdapter) chunks data sample_rate number_of_samples
          max_samples_per_chunk ind = Except.ok out
        ∧ serialize sd.esds.write <:+: out.stream)
    ∧ sd.esds.header.size.to_uint32_t = 54
    ∧ (serialize sd.esds.write).length = 54
    ∧ serialize sd.esds.write
        = [0, 0, 0, 54, 101, 115, 100, 115, 0, 0, 0, 0] ++ serialize desc.write
    ∧ ((serialize desc.write).take 5 = [0x03, 0x80, 0x80, 0x80, 37]
        ∧ ((serialize desc.write).drop 5).length = 37)
    ∧ (serialize desc.decoder_config.write <:+: serialize desc.write
        ∧ (serialize desc.decoder_config.write).take 5 = [0x04, 0x80, 0x80, 0x80, 23]
        ∧ ((serialize desc.decoder_config.write).drop 5).length = 23)
    ∧ (serialize desc.decoder_config.decoder_specific.write
          <:+: serialize desc.decoder_config.write
        ∧ (serialize desc.decoder_config.decoder_specific.write).take 5
            = [0x05, 0x80, 0x80, 0x80, 5]
        ∧ ((serialize desc.decoder_config.decoder_specific.write).drop 5).length = 5)
    ∧ (serialize desc.sl_config.write <:+: serialize desc.write
        ∧ (serialize desc.sl_config.write).take 5 = [0x06, 0x80, 0x80, 0x80, 1]
        ∧ ((serialize desc.sl_config.write).drop 5).length = 1) := by
  intro sd desc
  refine ⟨rfl, ?_, EsdsAtom_compute_size _, EsdsAtom_length_serialize _, ?_, ⟨?_, ?_⟩,
    ⟨?_, ?_, ?_⟩, ⟨?_, ?_, ?_⟩, ⟨?_, ?_, ?_⟩⟩
  · obtain ⟨out, h, _, hb⟩ := write_aac_mp4_boxes chunks data sample_rate number_of_samples
      max_samples_per_chunk ind hsr hf
    exact ⟨out, h, List.IsInfix.trans
      (aac_mp4_esds_in_stsd chunks sample_rate number_of_samples max_samples_per_chunk ind)
      hb.2.2.2.2.2.2.1⟩
  · show (sd.esds.write (⟨[]⟩ : StreamAdapter)).stream = _
    simp only [EsdsAtom.write, AtomHeader_write_eq, ESDescriptor_write_eq, write_u32,
      LawfulByteSink.write_write, StreamAdapter_stream_write, List.nil_append,
      AtomHeader_serialize_eq, List.append_assoc]
    rfl
  · rw [ESDescriptor_serialize_eq]
    rfl
  · rw [List.length_drop, ESDescriptor_length_serialize]
  · rw [ESDescriptor_serialize_eq desc]
    exact List.IsInfix.trans (List.prefix_append _ _).isInfix
      (List.IsInfix.trans (List.suffix_append _ _).isInfix
        (List.IsInfix.trans (List.suffix_append _ _).isInfix (List.suffix_cons _ _).isInfix))
  · rw [DecoderConfiguration_serialize_eq]
    rfl
  · rw [List.length_drop, DecoderConfiguration_length_serialize]
  · rw [DecoderConfiguration_serialize_eq desc.decoder_config]
    exact List.IsInfix.trans (List.suffix_append _ _).isInfix
      (List.IsInfix.trans (List.suffix_append _ _).isInfix
        (List.IsInfix.trans (List.suffix_append _ _).isInfix
          (List.IsInfix.trans (List.suffix_append _ _).isInfix
            (List.suffix_cons _ _).isInfix)))
  · rw [DecoderSpecificInfo_serialize_eq]
    rfl
  · rw [List.length_drop, DecoderSpecificInfo_length_serialize]
  · rw [ESDescriptor_serialize_eq desc]
    exact List.IsInfix.trans (List.suffix_append _ _).isInfix
      (List.IsInfix.trans (List.suffix_append _ _).isInfix
        (List.IsInfix.trans (List.suffix_append _ _).isInfix (List.suffix_cons _ _).isInfix))
  · rw [SLConfigDescriptor_serialize_eq]
    rfl
  · rw [List.length_drop, SLConfigDescriptor_length_serialize]

/-- C28 at two frames of 1024 samples at 16000 Hz. -/
theorem esds_descriptor_lengths_witness :
    (0 < 16000 ∧ 0 < 1024)
    ∧ (aac_mp4_sd 16000 zero_indeterminate).compute.esds.header.size.to_uint32_t = 54
    ∧ ((serialize (aac_mp4_sd 16000 zero_indeterminate).compute.esds.desc.write).drop 5).length
        = 37 :=
  ⟨⟨by decide, by decide⟩,
    (esds_descriptor_lengths two_frames payload_238 16000 2048 1024 zero_indeterminate
      (by decide) (by decide)).2.2.1,
    (esds_descriptor_lengths two_frames payload_238 16000 2048 1024 zero_indeterminate
      (by decide) (by decide)).2.2.2.2.2.1.2⟩

theorem SampleDescriptionEntryHeader_serialize_eq (self : SampleDescriptionEntryHeader) :
    serialize self.write = serialize self.header.write
      ++ (self.reserved.elems
      ++ ([self.data_reference_index.octets_0, self.data_reference_index.octets_1,
            self.version.octets_0, self.version.octets_1,
            self.revision_level.octets_0, self.revision_level.octets_1]
      ++ (self.vendor.octets
      ++ ([self.number_of_channels.octets_0, self.number_of_channels.octets_1,
            self.sample_size.octets_0, self.sample_size.octets_1,
            self.compression_id.octets_0, self.compression_id.octets_1,
            self.packet_size.octets_0, self.packet_size.octets_1]
      ++ self.sample_rate.octets)))) := by
  show (self.write (⟨[]⟩ : StreamAdapter)).stream = _
  simp only [SampleDescriptionEntryHeader.write, AtomHeader_write_eq, write_u16, write_u32,
    write_array, LawfulByteSink.write_write, StreamAdapter_stream_write, List.nil_append,
    List.cons_append, List.append_assoc, u32.octets,
    List.take_of_length_le (Nat.le_of_eq self.reserved.size_eq)]

theorem BtrtAtom_serialize_eq (self : BtrtAtom) :
    serialize self.write = serialize self.header.write
      ++ (self.buffer_size.octets ++ (self.max_bit_rate.octets
      ++ self.average_bit_rate.octets)) := by
  show (self.write (⟨[]⟩ : StreamAdapter)).stream = _
  simp only [BtrtAtom.write, AtomHeader_write_eq, write_u32, LawfulByteSink.write_write,
    StreamAdapter_stream_write, List.nil_append, List.cons_append, List.append_assoc,
    u32.octets]

/-- In the output of a completed call the one sample description starts at
offset 445: its header (36 octets), `esds` (54) and `btrt` (20). -/
theorem write_aac_mp4_sample_description (chunks : List u32) (data : List u8)
    (sample_rate number_of_samples max_samples_per_chunk : Nat) (ind : Indeterminate)
    (hsr : 0 < sample_rate) (hf : 0 < max_samples_per_chunk) :
    ∃ (out : StreamAdapter) (before after : List u8),
      write_aac_mp4 (⟨[]⟩ : StreamAdapter) chunks data sample_rate number_of_samples
        max_samples_per_chunk ind = Except.ok out
      ∧ out.stream = before ++ (serialize (aac_mp4_sd sample_rate ind).compute.header.write
          ++ (serialize (aac_mp4_sd sample_rate ind).compute.esds.write
          ++ (serialize (aac_mp4_sd sample_rate ind).compute.btrt.write ++ after)))
      ∧ before.length = 445 := by
  obtain ⟨out, h, hout, _⟩ := write_aac_mp4_boxes chunks data sample_rate number_of_samples
    max_samples_per_chunk ind hsr hf
  have hoct := aac_mp4_movie_duration_octets chunks sample_rate number_of_samples
    max_samples_per_chunk ind
  have hedts : (serialize (aac_mp4_moov_written chunks sample_rate number_of_samples
      max_samples_per_chunk ind).trak.edts.write).length = 36 := by
    rw [hoct.2.2.2.2.2.2]
    rfl
  have hdinf : (serialize (aac_mp4_moov_written chunks sample_rate number_of_samples
      max_samples_per_chunk ind).trak.mdia.minf.dinf.write).length = 36 := by
    rw [aac_mp4_dinf_octets]
    rfl
  have hstsd : serialize (aac_mp4_moov_written chunks sample_rate number_of_samples
      max_samples_per_chunk ind).trak.mdia.minf.stbl.stsd.write
      = serialize (aac_mp4_moov_written chunks sample_rate number_of_samples
          max_samples_per_chunk ind).trak.mdia.minf.stbl.stsd.header.write
        ++ (serialize (aac_mp4_sd sample_rate ind).compute.header.write
        ++ (serialize (aac_mp4_sd sample_rate ind).compute.esds.write
        ++ serialize (aac_mp4_sd sample_rate ind).compute.btrt.write)) := by
    rw [StsdBox_serialize_eq, aac_mp4_stsd_entries, List.flatMap_cons, List.flatMap_nil,
      List.append_nil, SampleDescriptionEntry_serialize_eq]
  refine ⟨out,
    serialize aac_mp4_ftyp.write
      ++ (serialize (aac_mp4_moov_written chunks sample_rate number_of_samples
            max_samples_per_chunk ind).header.write
      ++ (serialize (aac_mp4_moov_written chunks sample_rate number_of_samples
            max_samples_per_chunk ind).mvhd.write
      ++ (serialize (aac_mp4_moov_written chunks sample_rate number_of_samples
            max_samples_per_chunk ind).trak.header.write
      ++ (serialize (aac_mp4_moov_written chunks sample_rate number_of_samples
            max_samples_per_chunk ind).trak.tkhd.write
      ++ (serialize (aac_mp4_moov_written chunks sample_rate number_of_samples
            max_samples_per_chunk ind).trak.edts.write
      ++ (serialize (aac_mp4_moov_written chunks sample_rate number_of_samples
            max_samples_per_chunk ind).trak.mdia.header.write
      ++ (serialize (aac_mp4_moov_written chunks sample_rate number_of_samples
            max_samples_per_chunk ind).trak.mdia.mdhd.write
      ++ (serialize (aac_mp4_moov_written chunks sample_rate number_of_samples
            max_samples_per_chunk ind).trak.mdia.hdlr.write
      ++ (serialize (aac_mp4_moov_written chunks sample_rate number_of_samples
            max_samples_per_chunk ind).trak.mdia.minf.header.write
      ++ (serialize (aac_mp4_moov_written chunks sample_rate number_of_samples
            max_samples_per_chunk ind).trak.mdia.minf.smhd.write
      ++ (serialize (aac_mp4_moov_written chunks sample_rate number_of_samples
            max_samples_per_chunk ind).trak.mdia.minf.dinf.write
      ++ (serialize (aac_mp4_moov_written chunks sample_rate number_of_samples
            max_samples_per_chunk ind).trak.mdia.minf.stbl.header.write
      ++ serialize (aac_mp4_moov_written chunks sample_rate number_of_samples
            max_samples_per_chunk ind).trak.mdia.minf.stbl.stsd.header.write)))))))))))),
    serialize (aac_mp4_moov_written chunks sample_rate number_of_samples
            max_samples_per_chunk ind).trak.mdia.minf.stbl.stts.write
      ++ (serialize (aac_mp4_moov_written chunks sample_rate number_of_samples
            max_samples_per_chunk ind).trak.mdia.minf.stbl.stsc.write
      ++ (serialize (aac_mp4_moov_written chunks sample_rate number_of_samples
            max_samples_per_chunk ind).trak.mdia.minf.stbl.stsz.write
      ++ (serialize (aac_mp4_moov_written chunks sample_rate number_of_samples
            max_samples_per_chunk ind).trak.mdia.minf.stbl.stco.write
      ++ serialize (aac_mp4_mdat data).write))), h, ?_, ?_⟩
  · rw [hout, MoovBox_serialize_flat, hstsd]
    simp only [List.append_assoc]
  · simp only [List.length_append, aac_mp4_ftyp_length,
      AtomHeader_length_serialize, MvhdAtom_length_serialize, TkhdAtom_length_serialize,
      hedts, MdhdAtom_length_serialize, HdlrAtom_length_serialize, SmhdAtom_length_serialize,
      hdinf, StsdHeader_length_serialize]

/-- C31: for every 32-bit `sample_rate` r the `sample_rate` field of the one
sample description is r * 65536 reduced modulo 2^32, held as four big-endian
octets, the last four of the 36 the entry header serializes; its lower 16 bits
are zero and its upper 16 bits are r mod 65536, which is r exactly when
r < 65536. When the call returns these are the octets 477 to 480 of the
output. -/
theorem sample_rate_is_16_16_fixed_point (chunks : List u32) (data : List u8)
    (sample_rate number_of_samples max_samples_per_chunk : Nat) (ind : Indeterminate)
    (hr : sample_rate < 2 ^ 32) :
    let sd := (aac_mp4_sd sample_rate ind).compute
    let v := sample_rate * 65536 % 2 ^ 32
    (aac_mp4_moov_written chunks sample_rate number_of_samples max_samples_per_chunk
        ind).trak.mdia.minf.stbl.stsd.sample_description_entries = [sd]
    ∧ sd.header.sample_rate = u32.new v
    ∧ sd.header.sample_rate.to_uint32_t = v
    ∧ big_endian_value sd.header.sample_rate.octets = v
    ∧ sd.header.sample_rate.octets
        = [v / 2 ^ 24 % 256, v / 2 ^ 16 % 256, v / 2 ^ 8 % 256, v % 256]
    ∧ (v / 2 ^ 8 % 256 = 0 ∧ v % 256 = 0)
    ∧ (v / 65536 = sample_rate % 65536 ∧ v % 65536 = 0)
    ∧ ((v / 65536 = sample_rate ∧ v % 65536 = 0) ↔ sample_rate < 65536)
    ∧ (serialize sd.header.write).length = 36
    ∧ (serialize sd.header.write).drop 32 = sd.header.sample_rate.octets
    ∧ (0 < sample_rate → 0 < max_samples_per_chunk →
        ∃ out : StreamAdapter,
          write_aac_mp4 (⟨[]⟩ : StreamAdapter) chunks data sample_rate number_of_samples
            max_samples_per_chunk ind = Except.ok out
          ∧ (out.stream.drop 477).take 4 = sd.header.sample_rate.octets) := by
  intro sd v
  have hv : v < 2 ^ 32 := Nat.mod_lt _ (by decide)
  have hfield : sd.header.sample_rate = u32.new v := by
    show u32.new (uint32_t (sample_rate <<< 16)) = u32.new (sample_rate * 65536 % 2 ^ 32)
    rw [Nat.shiftLeft_eq]
    rfl
  have hoctets : (u32.new v).octets
      = [v / 2 ^ 24 % 256, v / 2 ^ 16 % 256, v / 2 ^ 8 % 256, v % 256] := by
    simp only [u32.octets, u32.new, uint32_t, uint8_t, Nat.mod_eq_of_lt hv,
      Nat.shiftRight_eq_div_pow]
    rfl
  have hlen : (serialize sd.header.write).length = 36 :=
    SampleDescriptionEntryHeader_length_serialize _
  have hdrop : (serialize sd.header.write).drop 32 = sd.header.sample_rate.octets := by
    rw [SampleDescriptionEntryHeader_serialize_eq, AtomHeader_serialize_eq]
    rfl
  refine ⟨rfl, hfield, ?_, ?_, ?_, ?_, ?_, ?_, hlen, hdrop, fun hsr hf => ?_⟩
  · rw [hfield]
    exact u32_new_eq_of_lt _ hv
  · rw [hfield]
    exact big_endian_value_u32_new _ hv
  · rw [hfield]
    exact hoctets
  · show (sample_rate * 65536 % 2 ^ 32) / 2 ^ 8 % 256 = 0
      ∧ (sample_rate * 65536 % 2 ^ 32) % 256 = 0
    omega
  · show (sample_rate * 65536 % 2 ^ 32) / 65536 = sample_rate % 65536
      ∧ (sample_rate * 65536 % 2 ^ 32) % 65536 = 0
    omega
  · show ((sample_rate * 65536 % 2 ^ 32) / 65536 = sample_rate
      ∧ (sample_rate * 65536 % 2 ^ 32) % 65536 = 0) ↔ sample_rate < 65536
    omega
  · obtain ⟨out, before, after, h, hout, hb⟩ := write_aac_mp4_sample_description chunks data
      sample_rate number_of_samples max_samples_per_chunk ind hsr hf
    refine ⟨out, h, ?_⟩
    have h32 : ((serialize sd.header.write).take 32).length = 32 := by
      rw [List.length_take, hlen]
      rfl
    have hsplit : out.stream = (before ++ (serialize sd.header.write).take 32)
        ++ ((serialize sd.header.write).drop 32 ++ (serialize sd.esds.write
          ++ (serialize sd.btrt.write ++ after))) := by
      rw [hout, List.append_assoc, ← List.append_assoc (List.take 32 _),
        List.take_append_drop]
    have h477 : (before ++ (serialize sd.header.write).take 32).length = 477 := by
      rw [List.length_append, hb, h32]
    rw [hsplit, ← h477, List.drop_left, hdrop, hfield, hoctets]
    rfl

/-- C31 at 16000 Hz: the field holds 0x3E800000. -/
theorem sample_rate_is_16_16_fixed_point_witness :
    16000 < 2 ^ 32
    ∧ (aac_mp4_sd 16000 zero_indeterminate).compute.header.sample_rate.octets
        = [62, 128, 0, 0]
    ∧ ∃ out : StreamAdapter,
        write_aac_mp4 (⟨[]⟩ : StreamAdapter) two_frames payload_238 16000 2048 1024
          zero_indeterminate = Except.ok out
        ∧ (out.stream.drop 477).take 4
            = (aac_mp4_sd 16000 zero_indeterminate).compute.header.sample_rate.octets :=
  ⟨by decide,
    (sample_rate_is_16_16_fixed_point two_frames payload_238 16000 2048 1024 zero_indeterminate
      (by decide)).2.2.2.2.1,
    (sample_rate_is_16_16_fixed_point two_frames payload_238 16000 2048 1024 zero_indeterminate
      (by decide)).2.2.2.2.2.2.2.2.2.2 (by decide) (by decide)⟩

/-- C32 fails on the code: the `btrt` that is serialized is that of the local
`sd`, whose three fields are assigned 0; its `max_bit_rate` and
`average_bit_rate` are 0, not the 69000 and 58223 of the `esds` decoder
configuration of the same entry. The local `mp4a`, whose `btrt` is assigned
69000 and 58223, is never added to `stsd`: the one entry serialized is `sd`,
and when the call returns the 20 octets of its `btrt` are the octets 535 to
554 of the output. -/
theorem btrt_bit_rates_are_zero :
    (∀ (sample_rate : Nat) (ind : Indeterminate),
      let sd := (aac_mp4_sd sample_rate ind).compute
      sd.btrt.max_bit_rate.to_uint32_t = 0
      ∧ sd.btrt.average_bit_rate.to_uint32_t = 0
      ∧ sd.btrt.buffer_size.to_uint32_t = 0
      ∧ sd.esds.desc.decoder_config.max_bit_rate.to_uint32_t = 69000
      ∧ sd.esds.desc.decoder_config.average_bit_rate.to_uint32_t = 58223
      ∧ sd.btrt.max_bit_rate.to_uint32_t
          ≠ sd.esds.desc.decoder_config.max_bit_rate.to_uint32_t
      ∧ sd.btrt.average_bit_rate.to_uint32_t
          ≠ sd.esds.desc.decoder_config.average_bit_rate.to_uint32_t
      ∧ serialize sd.btrt.write
          = [0, 0, 0, 20, 98, 116, 114, 116, 0, 0, 0, 0, 0, 0, 0, 0, 0, 0, 0, 0])
    ∧ (aac_mp4_mp4a_btrt.max_bit_rate.to_uint32_t = 69000
      ∧ aac_mp4_mp4a_btrt.average_bit_rate.to_uint32_t = 58223
      ∧ aac_mp4_mp4a_btrt.buffer_size.to_uint32_t = 0)
    ∧ (∀ (chunks : List u32) (data : List u8)
        (sample_rate number_of_samples max_samples_per_chunk : Nat) (ind : Indeterminate),
        0 < sample_rate → 0 < max_samples_per_chunk →
        (aac_mp4_moov_written chunks sample_rate number_of_samples max_samples_per_chunk
          ind).trak.mdia.minf.stbl.stsd.sample_description_entries
          = [(aac_mp4_sd sample_rate ind).compute]
        ∧ ∃ out : StreamAdapter,
          write_aac_mp4 (⟨[]⟩ : StreamAdapter) chunks data sample_rate number_of_samples
            max_samples_per_chunk ind = Except.ok out
          ∧ (out.stream.drop 535).take 20
              = [0, 0, 0, 20, 98, 116, 114, 116, 0, 0, 0, 0, 0, 0, 0, 0, 0, 0, 0, 0])
    ∧ (∃ out : StreamAdapter,
        write_aac_mp4 (⟨[]⟩ : StreamAdapter) two_frames payload_238 16000 2048 1024
          zero_indeterminate = Except.ok out
        ∧ big_endian_value ((out.stream.drop 547).take 4) = 0
        ∧ big_endian_value ((out.stream.drop 551).take 4) = 0) := by
  have h0 : (u32.new 0).to_uint32_t = 0 := u32_new_eq_of_lt 0 (by decide)
  have hbtrt : ∀ (sample_rate : Nat) (ind : Indeterminate),
      serialize (aac_mp4_sd sample_rate ind).compute.btrt.write
        = [0, 0, 0, 20, 98, 116, 114, 116, 0, 0, 0, 0, 0, 0, 0, 0, 0, 0, 0, 0] := by
    intro sample_rate ind
    rw [BtrtAtom_serialize_eq, AtomHeader_serialize_eq]
    rfl
  have hat : ∀ (chunks : List u32) (data : List u8)
      (sample_rate number_of_samples max_samples_per_chunk : Nat) (ind : Indeterminate),
      0 < sample_rate → 0 < max_samples_per_chunk →
      ∃ out : StreamAdapter,
        write_aac_mp4 (⟨[]⟩ : StreamAdapter) chunks data sample_rate number_of_samples
          max_samples_per_chunk ind = Except.ok out
        ∧ ∃ rest : List u8, out.stream.drop 535
            = [0, 0, 0, 20, 98, 116, 114, 116, 0, 0, 0, 0, 0, 0, 0, 0, 0, 0, 0, 0] ++ rest := by
    intro chunks data sample_rate number_of_samples max_samples_per_chunk ind hsr hf
    obtain ⟨out, before, after, h, hout, hb⟩ := write_aac_mp4_sample_description chunks data
      sample_rate number_of_samples max_samples_per_chunk ind hsr hf
    refine ⟨out, h, after, ?_⟩
    have h535 : (before ++ (serialize (aac_mp4_sd sample_rate ind).compute.header.write
        ++ serialize (aac_mp4_sd sample_rate ind).compute.esds.write)).length = 535 := by
      rw [List.length_append, List.length_append, hb,
        SampleDescriptionEntryHeader_length_serialize, EsdsAtom_length_serialize]
    have hsplit : out.stream
        = (before ++ (serialize (aac_mp4_sd sample_rate ind).compute.header.write
            ++ serialize (aac_mp4_sd sample_rate ind).compute.esds.write))
          ++ (serialize (aac_mp4_sd sample_rate ind).compute.btrt.write ++ after) := by
      rw [hout]
      simp only [List.append_assoc]
    rw [hsplit, ← h535, List.drop_left, hbtrt]
  refine ⟨fun sample_rate ind => ⟨h0, h0, h0, ?_, ?_, ?_, ?_, hbtrt sample_rate ind⟩,
    ⟨by decide, by decide, by decide⟩, fun chunks data sample_rate number_of_samples
      max_samples_per_chunk ind hsr hf => ⟨rfl, ?_⟩, ?_⟩
  · exact u32_new_eq_of_lt 69000 (by decide)
  · exact u32_new_eq_of_lt 58223 (by decide)
  · show (u32.new 0).to_uint32_t ≠ (u32.new 69000).to_uint32_t
    rw [h0, u32_new_eq_of_lt 69000 (by decide)]
    decide
  · show (u32.new 0).to_uint32_t ≠ (u32.new 58223).to_uint32_t
    rw [h0, u32_new_eq_of_lt 58223 (by decide)]
    decide
  · obtain ⟨out, h, rest, hd⟩ := hat chunks data sample_rate number_of_samples
      max_samples_per_chunk ind hsr hf
    refine ⟨out, h, ?_⟩
    rw [hd]
    rfl
  · obtain ⟨out, h, rest, hd⟩ := hat two_frames payload_238 16000 2048 1024 zero_indeterminate
      (by decide) (by decide)
    have e547 : out.stream.drop 547 = (out.stream.drop 535).drop 12 := by
      rw [List.drop_drop]
    have e551 : out.stream.drop 551 = (out.stream.drop 535).drop 16 := by
      rw [List.drop_drop]
    refine ⟨out, h, ?_, ?_⟩
    · rw [e547, hd]
      rfl
    · rw [e551, hd]
      rfl

/-! ## The sample tables and durations in the octets of the output -/

theorem u32_new_uint64_t (x : Nat) : u32.new (uint64_t x) = u32.new x := by
  have e : x % 2 ^ 64 % 2 ^ 32 = x % 2 ^ 32 := by omega
  simp only [u32.new, uint64_t, uint32_t, e]

/-- The output of a completed call ends with the octets of `stsz`, those of
`stco` and those of `mdat`. -/
theorem write_aac_mp4_stsz_stco_mdat (chunks : List u32) (data : List u8)
    (sample_rate number_of_samples max_samples_per_chunk : Nat) (ind : Indeterminate)
    (hsr : 0 < sample_rate) (hf : 0 < max_samples_per_chunk) :
    ∃ (out : StreamAdapter) (before : List u8),
      write_aac_mp4 (⟨[]⟩ : StreamAdapter) chunks data sample_rate number_of_samples
        max_samples_per_chunk ind = Except.ok out
      ∧ out.stream = before
          ++ (serialize (aac_mp4_stbl chunks sample_rate number_of_samples
                max_samples_per_chunk ind).stsz.write
          ++ (serialize (aac_mp4_stbl chunks sample_rate number_of_samples
                max_samples_per_chunk ind).stco.write
          ++ serialize (aac_mp4_mdat data).write)) := by
  obtain ⟨out, h, hout, _⟩ := write_aac_mp4_boxes chunks data sample_rate number_of_samples
    max_samples_per_chunk ind hsr hf
  refine ⟨out,
    serialize aac_mp4_ftyp.write
      ++ (serialize (aac_mp4_moov_written chunks sample_rate number_of_samples
            max_samples_per_chunk ind).header.write
      ++ (serialize (aac_mp4_moov_written chunks sample_rate number_of_samples
            max_samples_per_chunk ind).mvhd.write
      ++ (serialize (aac_mp4_moov_written chunks sample_rate number_of_samples
            max_samples_per_chunk ind).trak.header.write
      ++ (serialize (aac_mp4_moov_written chunks sample_rate number_of_samples
            max_samples_per_chunk ind).trak.tkhd.write
      ++ (serialize (aac_mp4_moov_written chunks sample_rate number_of_samples
            max_samples_per_chunk ind).trak.edts.write
      ++ (serialize (aac_mp4_moov_written chunks sample_rate number_of_samples
            max_samples_per_chunk ind).trak.mdia.header.write
      ++ (serialize (aac_mp4_moov_written chunks sample_rate number_of_samples
            max_samples_per_chunk ind).trak.mdia.mdhd.write
      ++ (serialize (aac_mp4_moov_written chunks sample_rate number_of_samples
            max_samples_per_chunk ind).trak.mdia.hdlr.write
      ++ (serialize (aac_mp4_moov_written chunks sample_rate number_of_samples
            max_samples_per_chunk ind).trak.mdia.minf.header.write
      ++ (serialize (aac_mp4_moov_written chunks sample_rate number_of_samples
            max_samples_per_chunk ind).trak.mdia.minf.smhd.write
      ++ (serialize (aac_mp4_moov_written chunks sample_rate number_of_samples
            max_samples_per_chunk ind).trak.mdia.minf.dinf.write
      ++ (serialize (aac_mp4_moov_written chunks sample_rate number_of_samples
            max_samples_per_chunk ind).trak.mdia.minf.stbl.header.write
      ++ (serialize (aac_mp4_moov_written chunks sample_rate number_of_samples
            max_samples_per_chunk ind).trak.mdia.minf.stbl.stsd.write
      ++ (serialize (aac_mp4_moov_written chunks sample_rate number_of_samples
            max_samples_per_chunk ind).trak.mdia.minf.stbl.stts.write
      ++ serialize (aac_mp4_moov_written chunks sample_rate number_of_samples
            max_samples_per_chunk ind).trak.mdia.minf.stbl.stsc.write)))))))))))))), h, ?_⟩
  rw [hout, MoovBox_serialize_flat]
  simp only [List.append_assoc]
  rfl

theorem aac_mp4_stsz_octets (chunks : List u32)
    (sample_rate number_of_samples max_samples_per_chunk : Nat) (ind : Indeterminate) :
    serialize (aac_mp4_stbl chunks sample_rate number_of_samples max_samples_per_chunk
      ind).stsz.write
      = (u32.new (20 + chunks.length * 4)).octets
        ++ ([115, 116, 115, 122, 0, 0, 0, 0, 0, 0, 0, 0]
        ++ ((u32.new chunks.length).octets ++ chunks.flatMap u32.octets)) := by
  rw [aac_mp4_stsz_eq, StszBox_serialize_eq, AtomHeader_serialize_eq, u32_new_uint64_t]
  rfl

theorem aac_mp4_mdat_octets (data : List u8) :
    serialize (aac_mp4_mdat data).write
      = (u32.new (8 + data.length)).octets ++ ([109, 100, 97, 116] ++ data) := by
  rw [RefMdatBox_serialize_eq, AtomHeader_serialize_eq, aac_mp4_mdat_header, u32_new_uint64_t]
  rfl

/-- C10, as stated, fails: with the one frame size 5 and an empty payload the
call completes and its output ends with an `stsz` holding the one entry 5, the
`stco`, and an `mdat` of size 8, a payload of 0 octets: the entries sum to 5,
the payload is 0 octets long. -/
theorem stsz_sum_counterexample :
    (∃ (out : StreamAdapter) (before : List u8),
      write_aac_mp4 (⟨[]⟩ : StreamAdapter) [u32.new 5] [] 16000 1024 1024
        zero_indeterminate = Except.ok out
      ∧ out.stream = before
          ++ ([0, 0, 0, 24, 115, 116, 115, 122, 0, 0, 0, 0, 0, 0, 0, 0, 0, 0, 0, 1, 0, 0, 0, 5]
          ++ ([0, 0, 0, 20, 115, 116, 99, 111, 0, 0, 0, 0, 0, 0, 0, 1, 0, 0, 2, 147]
          ++ [0, 0, 0, 8, 109, 100, 97, 116])))
    ∧ ((aac_mp4_stbl [u32.new 5] 16000 1024 1024 zero_indeterminate).stsz.entries.map
        u32.to_uint32_t).sum = 5
    ∧ (aac_mp4_mdat []).header.size.to_uint32_t - 8 = 0
    ∧ ((aac_mp4_stbl [u32.new 5] 16000 1024 1024 zero_indeterminate).stsz.entries.map
        u32.to_uint32_t).sum ≠ (aac_mp4_mdat []).header.size.to_uint32_t - 8 := by
  refine ⟨?_, by decide, by decide, by decide⟩
  obtain ⟨out, before, h, hout⟩ := write_aac_mp4_stsz_stco_mdat [u32.new 5] [] 16000 1024 1024
    zero_indeterminate (by decide) (by decide)
  refine ⟨out, before, h, ?_⟩
  rw [hout, aac_mp4_stsz_octets, aac_mp4_stco_serialize, aac_mp4_chunk_offset_value,
    aac_mp4_mdat_octets]
  rfl

/-- C10, amended: with a nonzero sample rate and frame length and a payload
whose `mdat` box fits 32 bits, the call returns and its output ends with the
`stsz` box, whose entries are the octets of the frame list in order, the `stco`
box, and the `mdat` box, whose payload is `data` and whose size field is
8 + |data|; so the `stsz` entries of the output sum to the length of the `mdat`
payload exactly when the frame sizes passed by the caller sum to the length of
`data`. -/
theorem stsz_sum_and_mdat_payload (chunks : List u32) (data : List u8)
    (sample_rate number_of_samples max_samples_per_chunk : Nat) (ind : Indeterminate)
    (hsr : 0 < sample_rate) (hf : 0 < max_samples_per_chunk)
    (hd : 8 + data.length < 2 ^ 32) :
    let stbl := aac_mp4_stbl chunks sample_rate number_of_samples max_samples_per_chunk ind
    let mdat := aac_mp4_mdat data
    (∃ (out : StreamAdapter) (before : List u8),
      write_aac_mp4 (⟨[]⟩ : StreamAdapter) chunks data sample_rate number_of_samples
        max_samples_per_chunk ind = Except.ok out
      ∧ out.stream = before
          ++ ((u32.new (20 + chunks.length * 4)).octets
              ++ ([115, 116, 115, 122, 0, 0, 0, 0, 0, 0, 0, 0]
              ++ ((u32.new chunks.length).octets ++ chunks.flatMap u32.octets))
          ++ (serialize stbl.stco.write
          ++ ((u32.new (8 + data.length)).octets ++ ([109, 100, 97, 116] ++ data))))
      ∧ out.stream.drop (out.stream.length - data.length) = data)
    ∧ stbl.stsz.entries = chunks
    ∧ serialize stbl.stsz.write
        = (u32.new (20 + chunks.length * 4)).octets
          ++ ([115, 116, 115, 122, 0, 0, 0, 0, 0, 0, 0, 0]
          ++ ((u32.new chunks.length).octets ++ stbl.stsz.entries.flatMap u32.octets))
    ∧ serialize mdat.write
        = (u32.new (8 + data.length)).octets ++ ([109, 100, 97, 116] ++ data)
    ∧ mdat.header.size.to_uint32_t - 8 = data.length
    ∧ ((stbl.stsz.entries.map u32.to_uint32_t).sum = mdat.header.size.to_uint32_t - 8
        ↔ (chunks.map u32.to_uint32_t).sum = data.length) := by
  intro stbl mdat
  have hsize : mdat.header.size.to_uint32_t - 8 = data.length := by
    rw [show mdat.header.size.to_uint32_t = _ from RefMdatBox_compute_size (RefMdatBox.new data)]
    show (8 + data.length) % 2 ^ 32 - 8 = data.length
    rw [Nat.mod_eq_of_lt hd]
    omega
  have hentries : stbl.stsz.entries = chunks := rfl
  have hstsz := aac_mp4_stsz_octets chunks sample_rate number_of_samples
    max_samples_per_chunk ind
  refine ⟨?_, hentries, hstsz, aac_mp4_mdat_octets data, hsize, by rw [hentries, hsize]⟩
  obtain ⟨out, before, h, hout⟩ := write_aac_mp4_stsz_stco_mdat chunks data sample_rate
    number_of_samples max_samples_per_chunk ind hsr hf
  rw [hstsz, aac_mp4_mdat_octets] at hout
  refine ⟨out, before, h, hout, ?_⟩
  have hsplit : out.stream = (before
      ++ ((u32.new (20 + chunks.length * 4)).octets
          ++ ([115, 116, 115, 122, 0, 0, 0, 0, 0, 0, 0, 0]
          ++ ((u32.new chunks.length).octets ++ chunks.flatMap u32.octets))
      ++ (serialize stbl.stco.write
      ++ ((u32.new (8 + data.length)).octets ++ [109, 100, 97, 116])))) ++ data := by
    rw [hout]
    simp only [List.append_assoc]
  rw [hsplit, List.length_append, Nat.add_sub_cancel]
  exact List.drop_left _ _

set_option maxRecDepth 8192 in
/-- C10 as amended, at two frames and a payload of 238 octets. -/
theorem stsz_sum_and_mdat_payload_witness :
    (0 < 16000 ∧ 0 < 1024 ∧ 8 + payload_238.length < 2 ^ 32)
    ∧ serialize (aac_mp4_stbl two_frames 16000 2048 1024 zero_indeterminate).stsz.write
        = (u32.new (20 + two_frames.length * 4)).octets
          ++ ([115, 116, 115, 122, 0, 0, 0, 0, 0, 0, 0, 0]
          ++ ((u32.new two_frames.length).octets
          ++ (aac_mp4_stbl two_frames 16000 2048 1024
                zero_indeterminate).stsz.entries.flatMap u32.octets))
    ∧ (aac_mp4_mdat payload_238).header.size.to_uint32_t - 8 = payload_238.length :=
  ⟨⟨by decide, by decide, by decide⟩,
    (stsz_sum_and_mdat_payload two_frames payload_238 16000 2048 1024 zero_indeterminate
      (by decide) (by decide) (by decide)).2.2.1,
    (stsz_sum_and_mdat_payload two_frames payload_238 16000 2048 1024 zero_indeterminate
      (by decide) (by decide) (by decide)).2.2.2.2.1⟩

/-- C12 fails on the code: lines 902, 922 and 935 form `number_of_samples * 1000`
in `std::uint32_t`. With 4294968 samples at 16000 Hz the product wraps to 704,
and the three durations that are serialized hold 704 / 16000 = 0, while
4294968 * 1000 / 16000 = 268435 fits 32 bits. As long as the product stays below
2^32 the three fields hold the quotient rounded down. -/
theorem movie_duration_product_wraps :
    (let moov := aac_mp4_moov_written two_frames 16000 4294968 1024 zero_indeterminate
     (∃ out : StreamAdapter,
        write_aac_mp4 (⟨[]⟩ : StreamAdapter) two_frames payload_238 16000 4294968 1024
          zero_indeterminate = Except.ok out
        ∧ serialize moov.mvhd.write <:+: out.stream
        ∧ serialize moov.trak.tkhd.write <:+: out.stream
        ∧ serialize moov.trak.edts.write <:+: out.stream)
     ∧ (4294968 < 2 ^ 32 ∧ 0 < 16000 ∧ 4294968 * 1000 / 16000 = 268435 ∧ 268435 < 2 ^ 32)
     ∧ (4294968 * 1000 % 2 ^ 32 = 704 ∧ 704 / 16000 = 0)
     ∧ moov.mvhd.duration.to_uint32_t = 0
     ∧ moov.trak.tkhd.duration.to_uint32_t = 0
     ∧ moov.trak.edts.elst.entries.elems.map (fun e => e.segment_duration.to_uint32_t) = [0]
     ∧ moov.mvhd.duration.to_uint32_t ≠ 4294968 * 1000 / 16000
     ∧ ((serialize moov.mvhd.write).drop 24).take 4 = [0, 0, 0, 0]
     ∧ ((serialize moov.trak.tkhd.write).drop 28).take 4 = [0, 0, 0, 0]
     ∧ ((serialize moov.trak.edts.write).drop 24).take 4 = [0, 0, 0, 0])
    ∧ (∀ (chunks : List u32) (sample_rate number_of_samples max_samples_per_chunk : Nat)
        (ind : Indeterminate),
        0 < sample_rate → number_of_samples * 1000 < 2 ^ 32 →
        let moov := aac_mp4_moov_written chunks sample_rate number_of_samples
          max_samples_per_chunk ind
        moov.mvhd.duration.to_uint32_t = number_of_samples * 1000 / sample_rate
        ∧ moov.trak.tkhd.duration.to_uint32_t = number_of_samples * 1000 / sample_rate
        ∧ moov.trak.edts.elst.entries.elems.map (fun e => e.segment_duration.to_uint32_t)
            = [number_of_samples * 1000 / sample_rate]) := by
  refine ⟨?_, ?_⟩
  · intro moov
    obtain ⟨h5, h6, h7⟩ := (aac_mp4_movie_duration_octets two_frames 16000 4294968 1024
      zero_indeterminate).2.2.2.2
    refine ⟨?_, by decide, by decide, by decide, by decide, by decide, by decide, ?_, ?_, ?_⟩
    · obtain ⟨out, h, _, hb⟩ := write_aac_mp4_boxes two_frames payload_238 16000 4294968 1024
        zero_indeterminate (by decide) (by decide)
      exact ⟨out, h, hb.1, hb.2.1, hb.2.2.1⟩
    · rw [h5]
      decide
    · rw [h6]
      decide
    · rw [h7]
      decide
  · intro chunks sample_rate number_of_samples max_samples_per_chunk ind hsr hn moov
    obtain ⟨hd, h1, h2, _, h4, _⟩ := aac_mp4_movie_durations_exact chunks []
      sample_rate number_of_samples max_samples_per_chunk ind hsr hn
    refine ⟨?_, ?_, ?_⟩
    · rw [h1]
      exact hd
    · rw [h2]
      exact hd
    · have h4' := congrArg (List.map u32.to_uint32_t) h4
      rw [List.map_map] at h4'
      rw [show (fun e : ElstEntry => e.segment_duration.to_uint32_t)
        = u32.to_uint32_t ∘ (fun e : ElstEntry => e.segment_duration) from rfl, h4']
      simp only [List.map_cons, List.map_nil, hd]

/-- What a call has handed to the sink when `max_samples_per_chunk` is 0 and
the remainder of line 1000 is reached. -/
theorem emitted_zero_frame_length (chunks : List u32) (data : List u8)
    (sample_rate number_of_samples : Nat) (ind : Indeterminate) :
    emitted (write_aac_mp4 (⟨[]⟩ : StreamAdapter) chunks data sample_rate number_of_samples
      0 ind) = serialize aac_mp4_ftyp.write := by
  rw [write_aac_mp4_zero_frame_length]
  simp only [emitted, StreamAdapter_stream_write, List.nil_append]

/-- The first 24 octets handed to the sink are those of `ftyp`, whatever the
arguments are. -/
theorem emitted_starts_with_ftyp (chunks : List u32) (data : List u8)
    (sample_rate number_of_samples max_samples_per_chunk : Nat) (ind : Indeterminate) :
    ∃ rest : List u8,
      emitted (write_aac_mp4 (⟨[]⟩ : StreamAdapter) chunks data sample_rate number_of_samples
        max_samples_per_chunk ind) = serialize aac_mp4_ftyp.write ++ rest := by
  by_cases hsr : sample_rate = 0
  · refine ⟨[], ?_⟩
    simp only [write_aac_mp4, hsr, if_true, emitted, FtypAtom_write_eq,
      StreamAdapter_stream_write, List.nil_append, List.append_nil]
  · by_cases hf : max_samples_per_chunk = 0
    · refine ⟨[], ?_⟩
      rw [hf, emitted_zero_frame_length, List.append_nil]
    · refine ⟨serialize (aac_mp4_moov_written chunks sample_rate number_of_samples
        max_samples_per_chunk ind).write ++ serialize (aac_mp4_mdat data).write, ?_⟩
      rw [write_aac_mp4_eq _ _ _ _ _ _ _ hsr hf]
      simp only [emitted, StreamAdapter_stream_write, List.nil_append]

/-- C15, as stated, fails: with a frame length of 0 the sink has been handed
the 24 octets of `ftyp` (line 893) before `max_samples_per_chunk` is first used
(line 1000); the call is not rejected with nothing appended. -/
theorem zero_frame_length_counterexample :
    (emitted (write_aac_mp4 (⟨[]⟩ : StreamAdapter) two_frames payload_238 16000 2048 0
        zero_indeterminate)).take 24
      = [0, 0, 0, 24, 102, 116, 121, 112, 105, 115, 111, 109, 0, 0, 2, 0,
         105, 115, 111, 109, 109, 112, 52, 49]
    ∧ 24 ≤ (emitted (write_aac_mp4 (⟨[]⟩ : StreamAdapter) two_frames payload_238 16000 2048 0
        zero_indeterminate)).length
    ∧ emitted (write_aac_mp4 (⟨[]⟩ : StreamAdapter) two_frames payload_238 16000 2048 0
        zero_indeterminate) ≠ [] := by
  rw [emitted_zero_frame_length, aac_mp4_ftyp_octets]
  decide

/-- C15, amended: `write_aac_mp4` has no guard on the frame length and no
failure path. For every call, also with `max_samples_per_chunk` = 0, the first
24 octets handed to the sink are the `ftyp` box, written on line 893 before
`max_samples_per_chunk` is first used on line 1000; so the sink is never left
with nothing appended. What follows these octets when the divisor is 0 is not
stated. -/
theorem ftyp_is_written_before_frame_length_is_used (chunks : List u32) (data : List u8)
    (sample_rate number_of_samples max_samples_per_chunk : Nat) (ind : Indeterminate) :
    (∃ rest : List u8,
      emitted (write_aac_mp4 (⟨[]⟩ : StreamAdapter) chunks data sample_rate number_of_samples
        max_samples_per_chunk ind) = serialize aac_mp4_ftyp.write ++ rest)
    ∧ (∃ rest : List u8,
      emitted (write_aac_mp4 (⟨[]⟩ : StreamAdapter) chunks data sample_rate number_of_samples
        0 ind) = serialize aac_mp4_ftyp.write ++ rest)
    ∧ serialize aac_mp4_ftyp.write
        = [0, 0, 0, 24, 102, 116, 121, 112, 105, 115, 111, 109, 0, 0, 2, 0,
           105, 115, 111, 109, 109, 112, 52, 49]
    ∧ (emitted (write_aac_mp4 (⟨[]⟩ : StreamAdapter) chunks data sample_rate number_of_samples
        0 ind)).take 24 = serialize aac_mp4_ftyp.write
    ∧ 24 ≤ (emitted (write_aac_mp4 (⟨[]⟩ : StreamAdapter) chunks data sample_rate
        number_of_samples 0 ind)).length
    ∧ emitted (write_aac_mp4 (⟨[]⟩ : StreamAdapter) chunks data sample_rate number_of_samples
        0 ind) ≠ [] := by
  obtain ⟨rest, hrest⟩ := emitted_starts_with_ftyp chunks data sample_rate number_of_samples
    0 ind
  refine ⟨emitted_starts_with_ftyp chunks data sample_rate number_of_samples
    max_samples_per_chunk ind, ⟨rest, hrest⟩, aac_mp4_ftyp_octets, ?_, ?_, ?_⟩
  · rw [hrest, List.take_left' aac_mp4_ftyp_length]
  · rw [hrest, List.length_append, aac_mp4_ftyp_length]
    omega
  · rw [hrest, aac_mp4_ftyp_octets]
    exact List.cons_ne_nil _ _

/-- C25 fails on the code: `ElstAtom::compute` is `default_compute`, so an
`elst` entered with an `entry_count` of 0 leaves `compute()` with size 28, not
16 + 0 * 12, while `write()` serializes the count 0 and emits 16 octets; and
`DrefBox::compute` takes the size from the `entry_count` it finds and then
sets it to 1, so a `dref` entered with 0 leaves with size 16, not 16 + 1 * 12,
while `write()` serializes the count 1 and emits 28 octets. For `stts`, `stsc`
and `stsz` the size is 16 + 8 * count, 16 + 12 * count and 20 + 4 * count, the
count being the one `write()` serializes and iterates over. -/
theorem elst_and_dref_size_ignores_entry_count :
    (let elst : ElstAtom :=
      { (aac_mp4_moov two_frames 16000 2048 1024 zero_indeterminate).trak.edts.elst with
        entry_count := u32.new 0 }
     elst.entry_count.to_uint32_t = 0
     ∧ elst.compute.entry_count.to_uint32_t = 0
     ∧ elst.compute.header.size.to_uint32_t = 28
     ∧ elst.compute.header.size.to_uint32_t ≠ 16 + elst.compute.entry_count.to_uint32_t * 12
     ∧ serialize elst.compute.write
         = [0, 0, 0, 28, 101, 108, 115, 116, 0, 0, 0, 0, 0, 0, 0, 0]
     ∧ (serialize elst.compute.write).length = 16)
    ∧ (let dref : DrefBox :=
      { (aac_mp4_moov two_frames 16000 2048 1024
          zero_indeterminate).trak.mdia.minf.dinf.dref with entry_count := u32.new 0 }
     dref.entry_count.to_uint32_t = 0
     ∧ dref.compute.entry_count.to_uint32_t = 1
     ∧ dref.compute.header.size.to_uint32_t = 16
     ∧ dref.compute.header.size.to_uint32_t ≠ 16 + dref.compute.entry_count.to_uint32_t * 12
     ∧ serialize dref.compute.write
         = [0, 0, 0, 16, 100, 114, 101, 102, 0, 0, 0, 0, 0, 0, 0, 1,
            0, 0, 0, 12, 117, 114, 108, 32, 1, 0, 0, 0]
     ∧ (serialize dref.compute.write).length = 28)
    ∧ (∀ elst : ElstAtom, elst.entry_count.to_uint32_t ≤ 1 →
        elst.compute.entry_count = elst.entry_count
        ∧ elst.compute.header.size.to_uint32_t = 28
        ∧ (serialize elst.compute.write).length = 16 + elst.entry_count.to_uint32_t * 12)
    ∧ (∀ dref : DrefBox, dref.entry_count.to_uint32_t ≤ 1 →
        dref.compute.entry_count.to_uint32_t = 1
        ∧ dref.compute.header.size.to_uint32_t = 16 + dref.entry_count.to_uint32_t * 12
        ∧ (serialize dref.compute.write).length = 28)
    ∧ (∀ stts : SttsAtom, stts.number_of_entries.to_uint32_t ≤ 2 →
        stts.compute.number_of_entries = stts.number_of_entries
        ∧ stts.compute.header.size.to_uint32_t = 16 + stts.number_of_entries.to_uint32_t * 8
        ∧ (serialize stts.compute.write).length
            = 16 + stts.number_of_entries.to_uint32_t * 8)
    ∧ (∀ stsc : StscAtom, stsc.number_of_entries.to_uint32_t ≤ 1 →
        stsc.compute.number_of_entries = stsc.number_of_entries
        ∧ stsc.compute.header.size.to_uint32_t = 16 + stsc.number_of_entries.to_uint32_t * 12
        ∧ (serialize stsc.compute.write).length
            = 16 + stsc.number_of_entries.to_uint32_t * 12)
    ∧ (∀ stsz : StszBox, 20 + stsz.entries.length * 4 < 2 ^ 32 →
        stsz.compute.header.number_of_entries.to_uint32_t = stsz.entries.length
        ∧ stsz.compute.entries = stsz.entries
        ∧ stsz.compute.header.header.size.to_uint32_t = 20 + stsz.entries.length * 4
        ∧ (serialize stsz.compute.write).length = 20 + stsz.entries.length * 4) := by
  have h1 : (u32.new 1).to_uint32_t = 1 := u32_new_eq_of_lt 1 (by decide)
  refine ⟨by decide, by decide, fun elst h => ⟨rfl, ElstAtom_compute_size elst, ?_⟩,
    fun dref h => ⟨h1, ?_, DrefBox_compute_length dref⟩,
    fun stts h => ⟨rfl, ?_, ?_⟩, fun stsc h => ⟨rfl, ?_, ?_⟩,
    fun stsz h => ⟨?_, rfl, ?_, StszBox_compute_length stsz⟩⟩
  · rw [ElstAtom_compute_length, Nat.min_eq_left h]
  · rw [DrefBox_compute_size]
    omega
  · rw [SttsAtom_compute_size]
    omega
  · rw [SttsAtom_compute_length, Nat.min_eq_left h]
  · rw [StscAtom_compute_size]
    omega
  · rw [StscAtom_compute_length, Nat.min_eq_left h]
  · show (u32.new stsz.entries.length).to_uint32_t = _
    exact u32_new_eq_of_lt _ (by omega)
  · rw [StszBox_compute_size]
    omega

/-- The octets of the `stts` that is serialized, in terms of the runs: the size
16 + 8 * k, "stts", version and flags, the number k of runs, and each run as
two big-endian 32-bit numbers. -/
theorem aac_mp4_stts_octets (chunks : List u32)
    (sample_rate number_of_samples max_samples_per_chunk : Nat) (ind : Indeterminate)
    (hn : number_of_samples < 2 ^ 32) (hfr : max_samples_per_chunk < 2 ^ 32)
    (hf : 0 < max_samples_per_chunk) :
    serialize (aac_mp4_stbl chunks sample_rate number_of_samples max_samples_per_chunk
      ind).stts.write
      = (u32.new (16 + 8 * (aac_mp4_stbl chunks sample_rate number_of_samples
            max_samples_per_chunk ind).stts.emitted_entries.length)).octets
        ++ ([115, 116, 116, 115, 0, 0, 0, 0]
        ++ ((u32.new (aac_mp4_stbl chunks sample_rate number_of_samples
              max_samples_per_chunk ind).stts.emitted_entries.length).octets
        ++ (aac_mp4_stbl chunks sample_rate number_of_samples max_samples_per_chunk
              ind).stts.emitted_entries.flatMap
            (fun e => (u32.new e.1).octets ++ (u32.new e.2).octets))) := by
  have h1 : (u32.new 1).to_uint32_t = 1 := u32_new_eq_of_lt 1 (by decide)
  have h2 : (u32.new 2).to_uint32_t = 2 := u32_new_eq_of_lt 2 (by decide)
  rw [aac_mp4_stts_emitted_entries chunks sample_rate number_of_samples
    max_samples_per_chunk ind hn hfr hf]
  by_cases hr : number_of_samples % max_samples_per_chunk = 0
  · rw [if_pos hr, aac_mp4_stts_of_rem_eq_zero chunks sample_rate number_of_samples
      max_samples_per_chunk ind hr]
    simp only [SttsAtom_serialize_eq, AtomHeader_serialize_eq, h1, List.take_succ_cons,
      List.take_zero, List.flatMap_cons, List.flatMap_nil]
    rfl
  · rw [if_neg hr, aac_mp4_stts_of_rem_ne_zero chunks sample_rate number_of_samples
      max_samples_per_chunk ind hr]
    simp only [SttsAtom_serialize_eq, AtomHeader_serialize_eq, h2, List.take_succ_cons,
      List.take_zero, List.flatMap_cons, List.flatMap_nil]
    rfl

/-- C30, as stated, fails: with 500 samples in frames of 1024 the call
completes and the `stts` in its output holds two entries, the first of which
is (0, 1024), a run of no sample. -/
theorem stts_empty_run_counterexample :
    (∃ out : StreamAdapter,
      write_aac_mp4 (⟨[]⟩ : StreamAdapter) two_frames payload_238 16000 500 1024
        zero_indeterminate = Except.ok out
      ∧ serialize (aac_mp4_stbl two_frames 16000 500 1024 zero_indeterminate).stts.write
          <:+: out.stream)
    ∧ serialize (aac_mp4_stbl two_frames 16000 500 1024 zero_indeterminate).stts.write
        = [0, 0, 0, 32, 115, 116, 116, 115, 0, 0, 0, 0, 0, 0, 0, 2,
           0, 0, 0, 0, 0, 0, 4, 0, 0, 0, 0, 1, 0, 0, 1, 244]
    ∧ (1 ≤ 500 ∧ 0 < 1024)
    ∧ (aac_mp4_stbl two_frames 16000 500 1024
        zero_indeterminate).stts.number_of_entries.to_uint32_t = 2
    ∧ (aac_mp4_stbl two_frames 16000 500 1024 zero_indeterminate).stts.emitted_entries
        = [(0, 1024), (1, 500)]
    ∧ ¬ (∀ e ∈ (aac_mp4_stbl two_frames 16000 500 1024
        zero_indeterminate).stts.emitted_entries, 1 ≤ e.1 ∧ 1 ≤ e.2) := by
  refine ⟨?_, ?_, by decide, by decide, by decide, by decide⟩
  · obtain ⟨out, h, _, hb⟩ := write_aac_mp4_boxes two_frames payload_238 16000 500 1024
      zero_indeterminate (by decide) (by decide)
    exact ⟨out, h, hb.2.2.2.2.2.2.2.1⟩
  · rw [aac_mp4_stts_of_rem_ne_zero two_frames 16000 500 1024 zero_indeterminate (by decide)]
    decide

/-- C30, amended: for 32-bit arguments with a nonzero sample rate, a frame
length f > 0 and n >= 1 samples, the call returns and the `stts` in its output
holds, after its header and count, exactly the runs (count, duration) listed
here, each as two big-endian 32-bit numbers. Every run has a duration of at
least 1; when n >= f every run also has a count of at least 1; when n < f the
runs are (0, f) and (1, n), the first being a run of no sample. -/
theorem stts_runs_nonempty_from_one_frame (chunks : List u32) (data : List u8)
    (sample_rate number_of_samples max_samples_per_chunk : Nat) (ind : Indeterminate)
    (hsr : 0 < sample_rate)
    (hn : number_of_samples < 2 ^ 32) (hfr : max_samples_per_chunk < 2 ^ 32)
    (hf : 0 < max_samples_per_chunk) (h1 : 1 ≤ number_of_samples) :
    let stts := (aac_mp4_stbl chunks sample_rate number_of_samples max_samples_per_chunk
      ind).stts
    (∃ out : StreamAdapter,
      write_aac_mp4 (⟨[]⟩ : StreamAdapter) chunks data sample_rate number_of_samples
        max_samples_per_chunk ind = Except.ok out
      ∧ serialize stts.write <:+: out.stream)
    ∧ serialize stts.write
        = (u32.new (16 + 8 * stts.emitted_entries.length)).octets
          ++ ([115, 116, 116, 115, 0, 0, 0, 0]
          ++ ((u32.new stts.emitted_entries.length).octets
          ++ stts.emitted_entries.flatMap
              (fun e => (u32.new e.1).octets ++ (u32.new e.2).octets)))
    ∧ stts.number_of_entries.to_uint32_t = stts.emitted_entries.length
    ∧ (∀ e ∈ stts.emitted_entries, 1 ≤ e.2 ∧ e.1 < 2 ^ 32 ∧ e.2 < 2 ^ 32)
    ∧ (max_samples_per_chunk ≤ number_of_samples →
        ∀ e ∈ stts.emitted_entries, 1 ≤ e.1 ∧ 1 ≤ e.2)
    ∧ (number_of_samples < max_samples_per_chunk →
        stts.emitted_entries = [(0, max_samples_per_chunk), (1, number_of_samples)]
        ∧ serialize stts.write
            = [0, 0, 0, 32, 115, 116, 116, 115, 0, 0, 0, 0, 0, 0, 0, 2, 0, 0, 0, 0]
              ++ (u32.new max_samples_per_chunk).octets ++ [0, 0, 0, 1]
              ++ (u32.new number_of_samples).octets) := by
  intro stts
  have he : stts.emitted_entries = _ := aac_mp4_stts_emitted_entries chunks sample_rate
    number_of_samples max_samples_per_chunk ind hn hfr hf
  have hoct : serialize stts.write = _ := aac_mp4_stts_octets chunks sample_rate
    number_of_samples max_samples_per_chunk ind hn hfr hf
  have hq32 : number_of_samples / max_samples_per_chunk < 2 ^ 32 :=
    lt_of_le_of_lt (Nat.div_le_self _ _) hn
  have hr32 : number_of_samples % max_samples_per_chunk < 2 ^ 32 :=
    lt_trans (Nat.mod_lt _ hf) hfr
  have hall : ∀ e ∈ stts.emitted_entries, 1 ≤ e.2 ∧ e.1 < 2 ^ 32 ∧ e.2 < 2 ^ 32 := by
    intro e hmem
    rw [he] at hmem
    by_cases hr : number_of_samples % max_samples_per_chunk = 0
    · rw [if_pos hr] at hmem
      simp only [List.mem_singleton] at hmem
      subst hmem
      exact ⟨hf, hq32, hfr⟩
    · rw [if_neg hr] at hmem
      simp only [List.mem_cons, List.mem_singleton, List.mem_nil_iff, or_false] at hmem
      rcases hmem with hmem | hmem
      · subst hmem
        exact ⟨hf, hq32, hfr⟩
      · subst hmem
        exact ⟨Nat.pos_of_ne_zero hr, by norm_num, hr32⟩
  refine ⟨?_, hoct, ?_, hall, fun hge e hmem => ⟨?_, (hall e hmem).1⟩, fun hlt => ?_⟩
  · obtain ⟨out, h, _, hb⟩ := write_aac_mp4_boxes chunks data sample_rate number_of_samples
      max_samples_per_chunk ind hsr hf
    exact ⟨out, h, hb.2.2.2.2.2.2.2.1⟩
  · rw [he]
    by_cases hr : number_of_samples % max_samples_per_chunk = 0
    · rw [if_pos hr]
      show (aac_mp4_stbl chunks sample_rate number_of_samples max_samples_per_chunk
        ind).stts.number_of_entries.to_uint32_t = 1
      rw [aac_mp4_stts_of_rem_eq_zero chunks sample_rate number_of_samples
        max_samples_per_chunk ind hr]
      exact u32_new_eq_of_lt 1 (by decide)
    · rw [if_neg hr]
      show (aac_mp4_stbl chunks sample_rate number_of_samples max_samples_per_chunk
        ind).stts.number_of_entries.to_uint32_t = 2
      rw [aac_mp4_stts_of_rem_ne_zero chunks sample_rate number_of_samples
        max_samples_per_chunk ind hr]
      exact u32_new_eq_of_lt 2 (by decide)
  · have hq : 1 ≤ number_of_samples / max_samples_per_chunk :=
      (Nat.one_le_div_iff hf).mpr hge
    rw [he] at hmem
    by_cases hr : number_of_samples % max_samples_per_chunk = 0
    · rw [if_pos hr] at hmem
      simp only [List.mem_singleton] at hmem
      subst hmem
      exact hq
    · rw [if_neg hr] at hmem
      simp only [List.mem_cons, List.mem_singleton, List.mem_nil_iff, or_false] at hmem
      rcases hmem with hmem | hmem
      · subst hmem
        exact hq
      · subst hmem
        exact Nat.le_refl 1
  · have hmod : number_of_samples % max_samples_per_chunk = number_of_samples :=
      Nat.mod_eq_of_lt hlt
    have hdiv : number_of_samples / max_samples_per_chunk = 0 := Nat.div_eq_of_lt hlt
    have hne : ¬ number_of_samples % max_samples_per_chunk = 0 := by omega
    have hent : stts.emitted_entries
        = [(0, max_samples_per_chunk), (1, number_of_samples)] := by
      rw [he, if_neg hne, hmod, hdiv]
    refine ⟨hent, ?_⟩
    rw [hoct, hent]
    simp only [List.length_cons, List.length_nil, List.flatMap_cons, List.flatMap_nil,
      List.append_assoc, List.cons_append, List.nil_append, List.append_nil, Nat.zero_add,
      Nat.reduceAdd, Nat.reduceMul]
    rfl

/-- C30 as amended, at 1500 samples in frames of 1024 and at 500 samples. -/
theorem stts_runs_nonempty_from_one_frame_witness :
    (0 < 16000 ∧ 1500 < 2 ^ 32 ∧ 1024 < 2 ^ 32 ∧ 0 < 1024 ∧ 1 ≤ 1500 ∧ 1024 ≤ 1500)
    ∧ (∀ e ∈ (aac_mp4_stbl two_frames 16000 1500 1024 zero_indeterminate).stts.emitted_entries,
        1 ≤ e.1 ∧ 1 ≤ e.2)
    ∧ (500 < 2 ^ 32 ∧ 1 ≤ 500 ∧ 500 < 1024)
    ∧ ((aac_mp4_stbl two_frames 16000 500 1024 zero_indeterminate).stts.emitted_entries
        = [(0, 1024), (1, 500)]
      ∧ serialize (aac_mp4_stbl two_frames 16000 500 1024 zero_indeterminate).stts.write
        = [0, 0, 0, 32, 115, 116, 116, 115, 0, 0, 0, 0, 0, 0, 0, 2, 0, 0, 0, 0]
          ++ (u32.new 1024).octets ++ [0, 0, 0, 1] ++ (u32.new 500).octets) :=
  ⟨⟨by decide, by decide, by decide, by decide, by decide, by decide⟩,
    (stts_runs_nonempty_from_one_frame two_frames payload_238 16000 1500 1024
      zero_indeterminate (by decide) (by decide) (by decide) (by decide)
      (by decide)).2.2.2.2.1 (by decide),
    ⟨by decide, by decide, by decide⟩,
    (stts_runs_nonempty_from_one_frame two_frames payload_238 16000 500 1024
      zero_indeterminate (by decide) (by decide) (by decide) (by decide)
      (by decide)).2.2.2.2.2 (by decide)⟩

end AACMP4
